import Mathlib

/-!
# Vehicle catalog: record store and validation / query engine

A shallow embedding of the Go packages `internal`, `internal/repository` and
`internal/service`, followed by theorems about them.

Conventions of the embedding
* A Go method with a pointer receiver becomes a function from the receiver's
  state to an `Outcome`: the receiver's state after the call, the returned
  value and the returned `error` (`none` for `nil`).
* Go `int` is `GoInt`, the integers of the range `-2^63 .. 2^63 - 1` with
  arithmetic modulo `2^64`: the `++` / `--` of the id counter and the `+=` of
  the two aggregates wrap around as they do in Go.
* Go `float64` is `Float64`: NaN, the two infinities and the finite values.
  A finite value is given by the rational number it stands for; the sign of a
  zero is not kept. Comparisons follow IEEE 754 (every comparison with NaN is
  false), and the conversion from `int` and the division round to the nearest
  binary64, ties to even. The type also holds the rationals that are no
  binary64: what is proved of every `Float64` holds of the binary64 among
  them, and the values the theorems exhibit are binary64.
* A Go slice is a `List`; the `nil` slice and the empty slice are both `[]`.
  `len` is the length of the list, a natural number (a Go slice is shorter
  than `2^63`).
-/

namespace VehicleCatalog

/-! ## Go's `int` -/

/-- Go `int` on a 64-bit platform: an integer of the range
`-2^63 .. 2^63 - 1`. -/
structure GoInt where
  toInt : Int
  lo : -9223372036854775808 ≤ toInt
  hi : toInt ≤ 9223372036854775807
deriving DecidableEq

/-- The value a 64-bit two's-complement register holds for the integer `x`:
`x` modulo `2^64`, taken in the range of `GoInt`. This is how Go's integer
arithmetic overflows. Unification is kept from computing with `2^64`; the
kernel evaluates it. -/
@[irreducible] def GoInt.wrap (x : Int) : GoInt :=
  { toInt := (x + 9223372036854775808) % 18446744073709551616 - 9223372036854775808
    lo := by omega
    hi := by omega }

/-- Go's `math.MaxInt64`. -/
def GoInt.MaxInt64 : GoInt :=
  { toInt := 9223372036854775807, lo := by omega, hi := by omega }

/-- Go's `math.MinInt64`. -/
def GoInt.MinInt64 : GoInt :=
  { toInt := -9223372036854775808, lo := by omega, hi := by omega }

instance : Zero GoInt := ⟨GoInt.wrap 0⟩

instance : One GoInt := ⟨GoInt.wrap 1⟩

instance : Add GoInt := ⟨fun a b => GoInt.wrap (a.toInt + b.toInt)⟩

instance : Sub GoInt := ⟨fun a b => GoInt.wrap (a.toInt - b.toInt)⟩

instance : Neg GoInt := ⟨fun a => GoInt.wrap (-a.toInt)⟩

instance : Mul GoInt := ⟨fun a b => GoInt.wrap (a.toInt * b.toInt)⟩

instance : NatCast GoInt := ⟨fun n => GoInt.wrap n⟩

instance : IntCast GoInt := ⟨GoInt.wrap⟩

instance : SMul ℕ GoInt := ⟨fun n a => GoInt.wrap (n * a.toInt)⟩

instance : SMul ℤ GoInt := ⟨fun n a => GoInt.wrap (n * a.toInt)⟩

instance : Pow GoInt ℕ := ⟨fun a n => GoInt.wrap (a.toInt ^ n)⟩

/-- Go's `+`, `-`, `*` and unary `-` on `int` are those of the integers
modulo `2^64`, a commutative ring. -/
instance : CommRing GoInt :=
  have toInt_wrap : ∀ x : Int, (GoInt.wrap x).toInt =
      (x + 9223372036854775808) % 18446744073709551616 - 9223372036854775808 :=
    fun x => by unfold GoInt.wrap; rfl
  have ext : ∀ a b : GoInt, a.toInt = b.toInt → a = b :=
    fun a b h => by cases a; cases b; simp only at h; subst h; rfl
  have modEq : ∀ x : Int, (GoInt.wrap x).toInt ≡ x [ZMOD 18446744073709551616] :=
    fun x => by rw [toInt_wrap]; unfold Int.ModEq; omega
  have congr : ∀ x y : Int, x ≡ y [ZMOD 18446744073709551616] → GoInt.wrap x = GoInt.wrap y :=
    fun x y h => ext _ _ (by rw [toInt_wrap, toInt_wrap]; unfold Int.ModEq at h; omega)
  Function.Surjective.commRing GoInt.wrap
    (fun a => ⟨a.toInt, ext _ _ (by rw [toInt_wrap]; have := a.lo; have := a.hi; omega)⟩)
    rfl rfl
    (fun x y => congr _ _ ((modEq x).add (modEq y)).symm)
    (fun x y => congr _ _ ((modEq x).mul (modEq y)).symm)
    (fun x => congr _ _ (modEq x).neg.symm)
    (fun x y => congr _ _ ((modEq x).sub (modEq y)).symm)
    (fun n x => congr _ _ (by rw [nsmul_eq_mul]; exact ((modEq x).mul_left _).symm))
    (fun n x => congr _ _ (by rw [smul_eq_mul]; exact ((modEq x).mul_left _).symm))
    (fun x n => congr _ _ ((modEq x).pow n).symm)
    (fun _ => rfl) (fun _ => rfl)

/-- Go's `<`, `<=` and `==` on `int` compare the integers. -/
instance : LinearOrder GoInt :=
  LinearOrder.lift' GoInt.toInt
    (fun a b h => by cases a; cases b; simp only at h; subst h; rfl)

/-! ## Go's `float64` -/

/-- Go `float64`: NaN, the two infinities, and the finite values, each given
by the rational number it stands for. -/
inductive Float64 where
  | NaN
  | negInf
  | finite (q : ℚ)
  | posInf
deriving DecidableEq

/-- Go's `a < b` on `float64`: false when either side is NaN. -/
def Float64.lt : Float64 → Float64 → Bool
  | .finite a, .finite b => decide (a < b)
  | .negInf, .finite _ => true
  | .negInf, .posInf => true
  | .finite _, .posInf => true
  | _, _ => false

/-- Go's `a <= b` on `float64`: false when either side is NaN. -/
def Float64.le : Float64 → Float64 → Bool
  | .NaN, _ => false
  | _, .NaN => false
  | .finite a, .finite b => decide (a ≤ b)
  | .negInf, _ => true
  | _, .posInf => true
  | _, _ => false

instance : LT Float64 := ⟨fun a b => Float64.lt a b = true⟩

instance : LE Float64 := ⟨fun a b => Float64.le a b = true⟩

instance (a b : Float64) : Decidable (a < b) :=
  inferInstanceAs (Decidable (Float64.lt a b = true))

instance (a b : Float64) : Decidable (a ≤ b) :=
  inferInstanceAs (Decidable (Float64.le a b = true))

/-- A numeric literal of type `float64`. -/
instance (n : Nat) : OfNat Float64 n := ⟨.finite n⟩

/-- The integer nearest to `x`, the even one of the two when `x` lies halfway
between them. -/
def roundHalfEven (x : ℚ) : Int :=
  if x - ⌊x⌋ < 1 / 2 then ⌊x⌋
  else if 1 / 2 < x - ⌊x⌋ then ⌊x⌋ + 1
  else if ⌊x⌋ % 2 = 0 then ⌊x⌋ else ⌊x⌋ + 1

/-- The `float64` that IEEE 754 arithmetic returns for the exact result `q`
(round to nearest, ties to even): with `e` the binary exponent of `q`, not
below that of the smallest normal number, `q` is rounded to a multiple of
`2^(e-52)`, and a result of magnitude `2^1024` or more becomes an infinity. -/
def Float64.round (q : ℚ) : Float64 :=
  let e : Int := max (Int.log 2 |q|) (-1022)
  let r : ℚ := (roundHalfEven (q / 2 ^ (e - 52)) : ℚ) * 2 ^ (e - 52)
  if (2 : ℚ) ^ (1024 : Int) ≤ |r| then (if 0 < q then .posInf else .negInf)
  else .finite r

/-- Go's conversion `float64(i)` of an `int`. -/
def Float64.ofInt (i : Int) : Float64 := Float64.round i

/-- Go's `a / b` on `float64`. A zero divisor is read as `+0`, the only zero
a conversion from `int` gives. -/
def Float64.div : Float64 → Float64 → Float64
  | .finite a, .finite b =>
    if b = 0 then (if a = 0 then .NaN else if 0 < a then .posInf else .negInf)
    else Float64.round (a / b)
  | .finite _, .posInf => .finite 0
  | .finite _, .negInf => .finite 0
  | .posInf, .finite b => if 0 ≤ b then .posInf else .negInf
  | .negInf, .finite b => if 0 ≤ b then .negInf else .posInf
  | _, _ => .NaN

/-! ## Package `internal` -/

/-- Modelled from the spec: the declaration of `internal.VehicleAttributes`
is not among the sources. The fields and their types are the ones the handler
(`VehicleJSON`, `Create`) and the service read and write, and section 3 of
the specification lists. -/
structure VehicleAttributes where
  Brand : String
  Model : String
  Registration : String
  Year : GoInt
  Color : String
  MaxSpeed : GoInt
  FuelType : String
  Transmission : String
  Passengers : GoInt
  Height : Float64
  Width : Float64
  Weight : Float64
deriving DecidableEq

/-- Modelled from the spec: the declaration of `internal.Vehicle` is not among
the sources; it is an id together with the attributes (`vehicle.ID`,
`vehicle.Attributes` in the handler, repository and service). -/
structure Vehicle where
  ID : GoInt
  Attributes : VehicleAttributes
deriving DecidableEq

/-- The Go zero value `internal.Vehicle{}`. -/
def Vehicle.zero : Vehicle :=
  { ID := 0
    Attributes :=
      { Brand := "", Model := "", Registration := "", Year := 0, Color := "",
        MaxSpeed := 0, FuelType := "", Transmission := "", Passengers := 0,
        Height := 0, Width := 0, Weight := 0 } }

/-- Values of Go's `error` that the three packages produce: the sentinel
errors of `vehicle_repository.go` and `vehicle_service.go`, and
`Errorf w v` for `fmt.Errorf("%w. %v", w, v)`, which wraps `w` and only
prints `v`. -/
inductive GoError where
  | ErrRepositoryVehiclesNotFound
  | ErrRepositoryVehicleIdAlreadyExists
  | ErrRepositoryVehicleNotFound
  | ErrServiceVehiclesNotFound
  | ErrServiceInvalidVehicleBrand
  | ErrServiceInvalidVehicleModel
  | ErrServiceInvalidVehicleRegistration
  | ErrServiceInvalidVehicleYear
  | ErrServiceInvalidVehicleColor
  | ErrServiceInvalidVehicleMaxSpeed
  | ErrServiceInvalidVehicleFuelType
  | ErrServiceInvalidVehicleTransmission
  | ErrServiceInvalidVehiclePassengers
  | ErrServiceInvalidVehicleHeight
  | ErrServiceInvalidVehicleWidth
  | ErrServiceInvalidVehicleWeight
  | ErrServiceVehicleIdAlreadyExists
  | ErrServiceVehicleNotFound
  | Errorf (w : GoError) (v : GoError)
deriving DecidableEq

/-- Go's `errors.Is(err, target)`: `err` is `target`, or wraps (through `%w`)
an error that is. -/
def errorsIs : GoError → GoError → Bool
  | .Errorf w v, target => decide (GoError.Errorf w v = target) || errorsIs w target
  | err, target => decide (err = target)

/-- What a method call leaves behind: the receiver after the call and the two
results of the Go function. -/
structure Outcome (σ α : Type) where
  state : σ
  val : α
  err : Option GoError

/-- The statement `for _, vehicle := range vehicles { if p(vehicle) { acc =
append(acc, vehicle) } }` that every filtered read runs, from the accumulator
`acc`. -/
def rangeAppendIf (p : Vehicle → Bool) : List Vehicle → List Vehicle → List Vehicle
  | acc, [] => acc
  | acc, vehicle :: rest =>
    if p vehicle then rangeAppendIf p (acc ++ [vehicle]) rest
    else rangeAppendIf p acc rest

/-- The loop of the two aggregates: collects the vehicles of brand `b` and
adds up the field `f` of each, from the accumulators `acc` and `sum`. -/
def rangeAppendSum (b : String) (f : Vehicle → GoInt) :
    List Vehicle → GoInt → List Vehicle → List Vehicle × GoInt
  | acc, sum, [] => (acc, sum)
  | acc, sum, vehicle :: rest =>
    if vehicle.Attributes.Brand = b then
      rangeAppendSum b f (acc ++ [vehicle]) (sum + f vehicle) rest
    else rangeAppendSum b f acc sum rest

/-! ## Package `repository` -/

/-- The repository `VehicleSlice`: the slice of vehicles and the last id. -/
structure VehicleSlice where
  db : List Vehicle
  lastId : GoInt
deriving DecidableEq

/-- Constructor `NewVehicleSlice`. -/
def NewVehicleSlice (db : List Vehicle) (lastId : GoInt) : VehicleSlice :=
  { db := db, lastId := lastId }

/-- Method `(*VehicleSlice).FindAll`. -/
def VehicleSlice.FindAll (r : VehicleSlice) : Outcome VehicleSlice (List Vehicle) :=
  if r.db.length = 0 then
    { state := r, val := [], err := some .ErrRepositoryVehiclesNotFound }
  else
    { state := r, val := r.db, err := none }

/-- Method `(*VehicleSlice).Insert`. -/
def VehicleSlice.Insert (r : VehicleSlice) (v : Vehicle) : Outcome VehicleSlice Vehicle :=
  let r1 : VehicleSlice := { r with lastId := r.lastId + 1 }
  if v.ID = r1.lastId then
    { state := { r1 with lastId := r1.lastId - 1 }, val := Vehicle.zero,
      err := some .ErrRepositoryVehicleIdAlreadyExists }
  else
    let v1 : Vehicle := { v with ID := r1.lastId }
    { state := { r1 with db := r1.db ++ [v1] }, val := v1, err := none }

/-- The loop of `(*VehicleSlice).InsertMany`, from the receiver `r` and the
results `nvs` so far. -/
def VehicleSlice.InsertManyLoop :
    VehicleSlice → List Vehicle → List Vehicle → Outcome VehicleSlice (List Vehicle)
  | r, nvs, [] => { state := r, val := nvs, err := none }
  | r, nvs, vehicle :: rest =>
    let r1 : VehicleSlice := { r with lastId := r.lastId + 1 }
    if vehicle.ID = r1.lastId then
      { state := { r1 with lastId := r1.lastId - 1 }, val := nvs,
        err := some .ErrRepositoryVehicleIdAlreadyExists }
    else
      let vehicle1 : Vehicle := { vehicle with ID := r1.lastId }
      VehicleSlice.InsertManyLoop { r1 with db := r1.db ++ [vehicle1] } (nvs ++ [vehicle1]) rest

/-- Method `(*VehicleSlice).InsertMany`. -/
def VehicleSlice.InsertMany (r : VehicleSlice) (v : List Vehicle) :
    Outcome VehicleSlice (List Vehicle) :=
  VehicleSlice.InsertManyLoop r [] v

/-- The loop `for i := range r.db` of the two updates: the slice after `set`
was applied to the first element whose id is `id`, and that element after the
assignment; `none` when the loop runs to its end. -/
def updateFirstById (id : GoInt) (set : Vehicle → Vehicle) :
    List Vehicle → Option (List Vehicle × Vehicle)
  | [] => none
  | x :: rest =>
    if x.ID = id then some (set x :: rest, set x)
    else
      match updateFirstById id set rest with
      | none => none
      | some (rest1, uv) => some (x :: rest1, uv)

/-- Method `(*VehicleSlice).UpdateMaxSpeedById`. -/
def VehicleSlice.UpdateMaxSpeedById (r : VehicleSlice) (id : GoInt) (ms : GoInt) :
    Outcome VehicleSlice Vehicle :=
  match updateFirstById id
      (fun x => { x with Attributes := { x.Attributes with MaxSpeed := ms } }) r.db with
  | some (db1, uv) => { state := { r with db := db1 }, val := uv, err := none }
  | none => { state := r, val := Vehicle.zero, err := some .ErrRepositoryVehicleNotFound }

/-- The search loop of `(*VehicleSlice).Delete`: the index of the first
element whose id is `id`, `none` for the index `-1`. -/
def indexById (id : GoInt) : List Vehicle → Option Nat
  | [] => none
  | x :: rest =>
    if x.ID = id then some 0
    else
      match indexById id rest with
      | none => none
      | some i => some (i + 1)

/-- Method `(*VehicleSlice).Delete`. -/
def VehicleSlice.Delete (r : VehicleSlice) (id : GoInt) : Outcome VehicleSlice Unit :=
  match indexById id r.db with
  | none => { state := r, val := (), err := some .ErrRepositoryVehicleNotFound }
  | some index =>
    { state := { r with db := r.db.take index ++ r.db.drop (index + 1) }, val := (),
      err := none }

/-- Method `(*VehicleSlice).UpdateFuelTypeById`. -/
def VehicleSlice.UpdateFuelTypeById (r : VehicleSlice) (id : GoInt) (ft : String) :
    Outcome VehicleSlice Vehicle :=
  match updateFirstById id
      (fun x => { x with Attributes := { x.Attributes with FuelType := ft } }) r.db with
  | some (db1, uv) => { state := { r with db := db1 }, val := uv, err := none }
  | none => { state := r, val := Vehicle.zero, err := some .ErrRepositoryVehicleNotFound }

/-! ## Package `service` -/

/-- The service `Default`; its repository `rp` is the `VehicleSlice` that
`application.Run` passes to `NewDefault`. -/
structure Default where
  rp : VehicleSlice
deriving DecidableEq

/-- Constructor `NewDefault`. -/
def NewDefault (rp : VehicleSlice) : Default := { rp := rp }

/-- Method `(*Default).FindAll`. -/
def Default.FindAll (sv : Default) : Outcome Default (List Vehicle) :=
  let o := sv.rp.FindAll
  match o.err with
  | some err =>
    if errorsIs err .ErrRepositoryVehiclesNotFound then
      { state := { rp := o.state }, val := o.val,
        err := some (.Errorf .ErrServiceVehiclesNotFound err) }
    else { state := { rp := o.state }, val := o.val, err := some err }
  | none => { state := { rp := o.state }, val := o.val, err := none }

/-- Method `(*Default).Insert`. -/
def Default.Insert (sv : Default) (v : Vehicle) : Outcome Default Vehicle :=
  if v.Attributes.Brand = "" then
    { state := sv, val := Vehicle.zero, err := some .ErrServiceInvalidVehicleBrand }
  else if v.Attributes.Model = "" then
    { state := sv, val := Vehicle.zero, err := some .ErrServiceInvalidVehicleModel }
  else if v.Attributes.Registration = "" then
    { state := sv, val := Vehicle.zero, err := some .ErrServiceInvalidVehicleRegistration }
  else if v.Attributes.Year < 1887 then
    { state := sv, val := Vehicle.zero, err := some .ErrServiceInvalidVehicleYear }
  else if v.Attributes.Color = "" then
    { state := sv, val := Vehicle.zero, err := some .ErrServiceInvalidVehicleColor }
  else if v.Attributes.MaxSpeed < 1 ∨ v.Attributes.MaxSpeed > 999 then
    { state := sv, val := Vehicle.zero, err := some .ErrServiceInvalidVehicleMaxSpeed }
  else if v.Attributes.FuelType = "" ∨
      (v.Attributes.FuelType ≠ "gasoline" ∧ v.Attributes.FuelType ≠ "gas" ∧
        v.Attributes.FuelType ≠ "diesel" ∧ v.Attributes.FuelType ≠ "biodiesel") then
    { state := sv, val := Vehicle.zero, err := some .ErrServiceInvalidVehicleFuelType }
  else if v.Attributes.Transmission = "" ∨
      (v.Attributes.Transmission ≠ "automatic" ∧ v.Attributes.Transmission ≠ "semi-automatic" ∧
        v.Attributes.Transmission ≠ "manual") then
    { state := sv, val := Vehicle.zero, err := some .ErrServiceInvalidVehicleTransmission }
  else if v.Attributes.Passengers < 1 ∨ v.Attributes.Passengers > 6 then
    { state := sv, val := Vehicle.zero, err := some .ErrServiceInvalidVehiclePassengers }
  else if v.Attributes.Height < 1 then
    { state := sv, val := Vehicle.zero, err := some .ErrServiceInvalidVehicleHeight }
  else if v.Attributes.Width < 1 then
    { state := sv, val := Vehicle.zero, err := some .ErrServiceInvalidVehicleWidth }
  else if v.Attributes.Weight < 1 then
    { state := sv, val := Vehicle.zero, err := some .ErrServiceInvalidVehicleWeight }
  else
    let o := sv.rp.Insert v
    match o.err with
    | some err =>
      if errorsIs err .ErrRepositoryVehicleIdAlreadyExists then
        { state := { rp := o.state }, val := Vehicle.zero,
          err := some .ErrServiceVehicleIdAlreadyExists }
      else { state := { rp := o.state }, val := Vehicle.zero, err := some err }
    | none => { state := { rp := o.state }, val := o.val, err := none }

/-- Method `(*Default).FindAllByColorAndYear`. -/
def Default.FindAllByColorAndYear (sv : Default) (c : String) (y : GoInt) :
    Outcome Default (List Vehicle) :=
  if c = "" then { state := sv, val := [], err := some .ErrServiceInvalidVehicleColor }
  else if y < 1887 then { state := sv, val := [], err := some .ErrServiceInvalidVehicleYear }
  else
    let o := sv.FindAll
    match o.err with
    | some err =>
      if errorsIs err .ErrRepositoryVehiclesNotFound then
        { state := o.state, val := [], err := some .ErrServiceVehiclesNotFound }
      else { state := o.state, val := [], err := some err }
    | none =>
      let vehiclesWithColorAndYear := rangeAppendIf
        (fun vehicle => vehicle.Attributes.Color = c ∧ vehicle.Attributes.Year = y) [] o.val
      if vehiclesWithColorAndYear.length = 0 then
        { state := o.state, val := [], err := some .ErrServiceVehiclesNotFound }
      else { state := o.state, val := vehiclesWithColorAndYear, err := none }

/-- Method `(*Default).FindAllByBrandAndBetweenYears`. -/
def Default.FindAllByBrandAndBetweenYears (sv : Default) (b : String) (sy : GoInt) (ey : GoInt) :
    Outcome Default (List Vehicle) :=
  if b = "" then { state := sv, val := [], err := some .ErrServiceInvalidVehicleBrand }
  else if sy < 1887 ∨ ey < sy then
    { state := sv, val := [], err := some .ErrServiceInvalidVehicleYear }
  else
    let o := sv.FindAll
    match o.err with
    | some err =>
      if errorsIs err .ErrRepositoryVehiclesNotFound then
        { state := o.state, val := [], err := some .ErrServiceVehiclesNotFound }
      else { state := o.state, val := [], err := some err }
    | none =>
      let vehiclesWithColorAndBetweenYears := rangeAppendIf
        (fun vehicle => vehicle.Attributes.Brand = b ∧ vehicle.Attributes.Year > sy ∧
          vehicle.Attributes.Year < ey) [] o.val
      if vehiclesWithColorAndBetweenYears.length = 0 then
        { state := o.state, val := [], err := some .ErrServiceVehiclesNotFound }
      else { state := o.state, val := vehiclesWithColorAndBetweenYears, err := none }

/-- Method `(*Default).CalculateAverageSpeedByBrand`. -/
def Default.CalculateAverageSpeedByBrand (sv : Default) (b : String) :
    Outcome Default Float64 :=
  if b = "" then { state := sv, val := 0, err := some .ErrServiceInvalidVehicleBrand }
  else
    let o := sv.FindAll
    match o.err with
    | some err =>
      if errorsIs err .ErrRepositoryVehiclesNotFound then
        { state := o.state, val := 0, err := some .ErrServiceVehiclesNotFound }
      else { state := o.state, val := 0, err := some err }
    | none =>
      let (vehiclesBrand, maxSpeedSum) :=
        rangeAppendSum b (fun vehicle => vehicle.Attributes.MaxSpeed) [] 0 o.val
      if vehiclesBrand.length = 0 then
        { state := o.state, val := 0, err := some .ErrServiceVehiclesNotFound }
      else
        { state := o.state,
          val := Float64.div (Float64.ofInt maxSpeedSum.toInt)
            (Float64.ofInt vehiclesBrand.length),
          err := none }

/-- The twelve checks that open `(*Default).Insert`, in their order: the error
of the first check that fails, `none` when the record passes them all. -/
def Default.InsertChecks (v : Vehicle) : Option GoError :=
  if v.Attributes.Brand = "" then some .ErrServiceInvalidVehicleBrand
  else if v.Attributes.Model = "" then some .ErrServiceInvalidVehicleModel
  else if v.Attributes.Registration = "" then some .ErrServiceInvalidVehicleRegistration
  else if v.Attributes.Year < 1887 then some .ErrServiceInvalidVehicleYear
  else if v.Attributes.Color = "" then some .ErrServiceInvalidVehicleColor
  else if v.Attributes.MaxSpeed < 1 ∨ v.Attributes.MaxSpeed > 999 then
    some .ErrServiceInvalidVehicleMaxSpeed
  else if v.Attributes.FuelType = "" ∨
      (v.Attributes.FuelType ≠ "gasoline" ∧ v.Attributes.FuelType ≠ "gas" ∧
        v.Attributes.FuelType ≠ "diesel" ∧ v.Attributes.FuelType ≠ "biodiesel") then
    some .ErrServiceInvalidVehicleFuelType
  else if v.Attributes.Transmission = "" ∨
      (v.Attributes.Transmission ≠ "automatic" ∧
        v.Attributes.Transmission ≠ "semi-automatic" ∧
        v.Attributes.Transmission ≠ "manual") then
    some .ErrServiceInvalidVehicleTransmission
  else if v.Attributes.Passengers < 1 ∨ v.Attributes.Passengers > 6 then
    some .ErrServiceInvalidVehiclePassengers
  else if v.Attributes.Height < 1 then some .ErrServiceInvalidVehicleHeight
  else if v.Attributes.Width < 1 then some .ErrServiceInvalidVehicleWidth
  else if v.Attributes.Weight < 1 then some .ErrServiceInvalidVehicleWeight
  else none

/-- The validation loop `for _, vh := range v` of `(*Default).InsertMany`:
the error it returns with, `none` when it runs to its end. -/
def Default.InsertManyChecks : List Vehicle → Option GoError
  | [] => none
  | vh :: rest =>
    if vh.Attributes.Brand = "" then some .ErrServiceInvalidVehicleBrand
    else if vh.Attributes.Model = "" then some .ErrServiceInvalidVehicleModel
    else if vh.Attributes.Registration = "" then some .ErrServiceInvalidVehicleRegistration
    else if vh.Attributes.Year < 1887 then some .ErrServiceInvalidVehicleYear
    else if vh.Attributes.Color = "" then some .ErrServiceInvalidVehicleColor
    else if vh.Attributes.MaxSpeed < 1 ∨ vh.Attributes.MaxSpeed > 999 then
      some .ErrServiceInvalidVehicleMaxSpeed
    else if vh.Attributes.FuelType = "" ∨
        (vh.Attributes.FuelType ≠ "gasoline" ∧ vh.Attributes.FuelType ≠ "gas" ∧
          vh.Attributes.FuelType ≠ "diesel" ∧ vh.Attributes.FuelType ≠ "biodiesel") then
      some .ErrServiceInvalidVehicleFuelType
    else if vh.Attributes.Transmission = "" ∨
        (vh.Attributes.Transmission ≠ "automatic" ∧
          vh.Attributes.Transmission ≠ "semi-automatic" ∧
          vh.Attributes.Transmission ≠ "manual") then
      some .ErrServiceInvalidVehicleTransmission
    else if vh.Attributes.Passengers < 1 ∨ vh.Attributes.Passengers > 6 then
      some .ErrServiceInvalidVehiclePassengers
    else if vh.Attributes.Height < 1 then some .ErrServiceInvalidVehicleHeight
    else if vh.Attributes.Width < 1 then some .ErrServiceInvalidVehicleWidth
    else if vh.Attributes.Weight < 1 then some .ErrServiceInvalidVehicleWeight
    else Default.InsertManyChecks rest

/-- Method `(*Default).InsertMany`. -/
def Default.InsertMany (sv : Default) (v : List Vehicle) : Outcome Default (List Vehicle) :=
  match Default.InsertManyChecks v with
  | some err => { state := sv, val := [], err := some err }
  | none =>
    let o := sv.rp.InsertMany v
    match o.err with
    | some err =>
      if errorsIs err .ErrRepositoryVehicleIdAlreadyExists then
        { state := { rp := o.state }, val := [], err := some .ErrServiceVehicleIdAlreadyExists }
      else { state := { rp := o.state }, val := [], err := some err }
    | none => { state := { rp := o.state }, val := o.val, err := none }

/-- Method `(*Default).UpdateMaxSpeedById`. -/
def Default.UpdateMaxSpeedById (sv : Default) (id : GoInt) (ms : GoInt) : Outcome Default Vehicle :=
  if ms < 1 ∨ ms > 999 then
    { state := sv, val := Vehicle.zero, err := some .ErrServiceInvalidVehicleMaxSpeed }
  else
    let o := sv.rp.UpdateMaxSpeedById id ms
    match o.err with
    | some err =>
      if errorsIs err .ErrRepositoryVehicleNotFound then
        { state := { rp := o.state }, val := Vehicle.zero, err := some .ErrServiceVehicleNotFound }
      else { state := { rp := o.state }, val := Vehicle.zero, err := some err }
    | none => { state := { rp := o.state }, val := o.val, err := none }

/-- Method `(*Default).FindAllByFuelType`. -/
def Default.FindAllByFuelType (sv : Default) (ft : String) : Outcome Default (List Vehicle) :=
  if ft = "" ∨ (ft ≠ "gasoline" ∧ ft ≠ "gas" ∧ ft ≠ "diesel" ∧ ft ≠ "biodiesel") then
    { state := sv, val := [], err := some .ErrServiceInvalidVehicleFuelType }
  else
    let o := sv.FindAll
    match o.err with
    | some err =>
      if errorsIs err .ErrRepositoryVehiclesNotFound then
        { state := o.state, val := [], err := some .ErrServiceVehiclesNotFound }
      else { state := o.state, val := [], err := some err }
    | none =>
      let vehiclesByFuelType := rangeAppendIf
        (fun vehicle => vehicle.Attributes.FuelType = ft) [] o.val
      if vehiclesByFuelType.length = 0 then
        { state := o.state, val := [], err := some .ErrServiceVehiclesNotFound }
      else { state := o.state, val := vehiclesByFuelType, err := none }

/-- Method `(*Default).Delete`. -/
def Default.Delete (sv : Default) (id : GoInt) : Outcome Default Unit :=
  let o := sv.rp.Delete id
  match o.err with
  | some err =>
    if errorsIs err .ErrRepositoryVehicleNotFound then
      { state := { rp := o.state }, val := (), err := some .ErrServiceVehicleNotFound }
    else { state := { rp := o.state }, val := (), err := some err }
  | none => { state := { rp := o.state }, val := (), err := none }

/-- Method `(*Default).FindAllByTransmission`. -/
def Default.FindAllByTransmission (sv : Default) (t : String) : Outcome Default (List Vehicle) :=
  if t = "" ∨ (t ≠ "automatic" ∧ t ≠ "semi-automatic" ∧ t ≠ "manual") then
    { state := sv, val := [], err := some .ErrServiceInvalidVehicleTransmission }
  else
    let o := sv.FindAll
    match o.err with
    | some err =>
      if errorsIs err .ErrRepositoryVehiclesNotFound then
        { state := o.state, val := [], err := some .ErrServiceVehiclesNotFound }
      else { state := o.state, val := [], err := some err }
    | none =>
      let vehiclesByTransmission := rangeAppendIf
        (fun vehicle => vehicle.Attributes.Transmission = t) [] o.val
      if vehiclesByTransmission.length = 0 then
        { state := o.state, val := [], err := some .ErrServiceVehiclesNotFound }
      else { state := o.state, val := vehiclesByTransmission, err := none }

/-- Method `(*Default).UpdateFuelTypeById`. -/
def Default.UpdateFuelTypeById (sv : Default) (id : GoInt) (ft : String) :
    Outcome Default Vehicle :=
  if ft = "" ∨ (ft ≠ "gasoline" ∧ ft ≠ "gas" ∧ ft ≠ "diesel" ∧ ft ≠ "biodiesel") then
    { state := sv, val := Vehicle.zero, err := some .ErrServiceInvalidVehicleFuelType }
  else
    let o := sv.rp.UpdateFuelTypeById id ft
    match o.err with
    | some err =>
      if errorsIs err .ErrRepositoryVehicleNotFound then
        { state := { rp := o.state }, val := Vehicle.zero, err := some .ErrServiceVehicleNotFound }
      else { state := { rp := o.state }, val := Vehicle.zero, err := some err }
    | none => { state := { rp := o.state }, val := o.val, err := none }

/-- Method `(*Default).CalculateAverageCapacityByBrand`. -/
def Default.CalculateAverageCapacityByBrand (sv : Default) (b : String) :
    Outcome Default Float64 :=
  if b = "" then { state := sv, val := 0, err := some .ErrServiceInvalidVehicleBrand }
  else
    let o := sv.FindAll
    match o.err with
    | some err =>
      if errorsIs err .ErrRepositoryVehiclesNotFound then
        { state := o.state, val := 0, err := some .ErrServiceVehiclesNotFound }
      else { state := o.state, val := 0, err := some err }
    | none =>
      let (vehiclesBrand, passengersSum) :=
        rangeAppendSum b (fun vehicle => vehicle.Attributes.Passengers) [] 0 o.val
      if vehiclesBrand.length = 0 then
        { state := o.state, val := 0, err := some .ErrServiceVehiclesNotFound }
      else
        { state := o.state,
          val := Float64.div (Float64.ofInt passengersSum.toInt)
            (Float64.ofInt vehiclesBrand.length),
          err := none }

/-- Method `(*Default).FindAllByDimensions`. -/
def Default.FindAllByDimensions (sv : Default) (minH maxH minW maxW : Float64) :
    Outcome Default (List Vehicle) :=
  if minH < 1 ∨ maxH < minH then
    { state := sv, val := [], err := some .ErrServiceInvalidVehicleHeight }
  else if minW < 1 ∨ maxW < minW then
    { state := sv, val := [], err := some .ErrServiceInvalidVehicleWidth }
  else
    let o := sv.FindAll
    match o.err with
    | some err =>
      if errorsIs err .ErrRepositoryVehiclesNotFound then
        { state := o.state, val := [], err := some .ErrServiceVehiclesNotFound }
      else { state := o.state, val := [], err := some err }
    | none =>
      let vehiclesWithDimensions := rangeAppendIf
        (fun vehicle => vehicle.Attributes.Height > minH ∧ vehicle.Attributes.Height < maxH ∧
          vehicle.Attributes.Width > minW ∧ vehicle.Attributes.Width < maxW) [] o.val
      if vehiclesWithDimensions.length = 0 then
        { state := o.state, val := [], err := some .ErrServiceVehiclesNotFound }
      else { state := o.state, val := vehiclesWithDimensions, err := none }

/-- Method `(*Default).FindAllByWeight`. -/
def Default.FindAllByWeight (sv : Default) (minW maxW : Float64) :
    Outcome Default (List Vehicle) :=
  if minW < 1 ∨ maxW < minW then
    { state := sv, val := [], err := some .ErrServiceInvalidVehicleWeight }
  else
    let o := sv.FindAll
    match o.err with
    | some err =>
      if errorsIs err .ErrRepositoryVehiclesNotFound then
        { state := o.state, val := [], err := some .ErrServiceVehiclesNotFound }
      else { state := o.state, val := [], err := some err }
    | none =>
      let vehiclesWithWeight := rangeAppendIf
        (fun vehicle => vehicle.Attributes.Weight > minW ∧ vehicle.Attributes.Weight < maxW)
        [] o.val
      if vehiclesWithWeight.length = 0 then
        { state := o.state, val := [], err := some .ErrServiceVehiclesNotFound }
      else { state := o.state, val := vehiclesWithWeight, err := none }

/-! ## The interfaces as calls, and runs of calls -/

/-- A call of one method of the interface `RepositoryVehicle`. -/
inductive RepositoryCall where
  | FindAll
  | Insert (v : Vehicle)
  | InsertMany (v : List Vehicle)
  | UpdateMaxSpeedById (id : GoInt) (ms : GoInt)
  | Delete (id : GoInt)
  | UpdateFuelTypeById (id : GoInt) (ft : String)

/-- The repository after one call. -/
def VehicleSlice.call (r : VehicleSlice) : RepositoryCall → VehicleSlice
  | .FindAll => r.FindAll.state
  | .Insert v => (r.Insert v).state
  | .InsertMany v => (r.InsertMany v).state
  | .UpdateMaxSpeedById id ms => (r.UpdateMaxSpeedById id ms).state
  | .Delete id => (r.Delete id).state
  | .UpdateFuelTypeById id ft => (r.UpdateFuelTypeById id ft).state

/-- The repository after a sequence of calls, first call first. -/
def VehicleSlice.calls : VehicleSlice → List RepositoryCall → VehicleSlice
  | r, [] => r
  | r, c :: cs => VehicleSlice.calls (r.call c) cs

/-- The ids that one call hands back to its caller: the id of the vehicle a
successful `Insert` returns, the ids of the vehicles a successful `InsertMany`
returns, nothing for any other call. -/
def VehicleSlice.returnedIds (r : VehicleSlice) : RepositoryCall → List GoInt
  | .Insert v => if (r.Insert v).err = none then [(r.Insert v).val.ID] else []
  | .InsertMany v =>
    if (r.InsertMany v).err = none then (r.InsertMany v).val.map (fun nv => nv.ID) else []
  | _ => []

/-- The ids handed back along a sequence of calls, in the order of the calls. -/
def VehicleSlice.idsReturned : VehicleSlice → List RepositoryCall → List GoInt
  | _, [] => []
  | r, c :: cs => r.returnedIds c ++ VehicleSlice.idsReturned (r.call c) cs

/-- A call of one method of the interface `ServiceVehicle`. -/
inductive ServiceCall where
  | FindAll
  | Insert (v : Vehicle)
  | FindAllByColorAndYear (c : String) (y : GoInt)
  | FindAllByBrandAndBetweenYears (b : String) (sy : GoInt) (ey : GoInt)
  | CalculateAverageSpeedByBrand (b : String)
  | InsertMany (v : List Vehicle)
  | UpdateMaxSpeedById (id : GoInt) (ms : GoInt)
  | FindAllByFuelType (ft : String)
  | Delete (id : GoInt)
  | FindAllByTransmission (t : String)
  | UpdateFuelTypeById (id : GoInt) (ft : String)
  | CalculateAverageCapacityByBrand (b : String)
  | FindAllByDimensions (minH maxH minW maxW : Float64)
  | FindAllByWeight (minW maxW : Float64)

/-- The service after one call. -/
def Default.call (sv : Default) : ServiceCall → Default
  | .FindAll => sv.FindAll.state
  | .Insert v => (sv.Insert v).state
  | .FindAllByColorAndYear c y => (sv.FindAllByColorAndYear c y).state
  | .FindAllByBrandAndBetweenYears b sy ey => (sv.FindAllByBrandAndBetweenYears b sy ey).state
  | .CalculateAverageSpeedByBrand b => (sv.CalculateAverageSpeedByBrand b).state
  | .InsertMany v => (sv.InsertMany v).state
  | .UpdateMaxSpeedById id ms => (sv.UpdateMaxSpeedById id ms).state
  | .FindAllByFuelType ft => (sv.FindAllByFuelType ft).state
  | .Delete id => (sv.Delete id).state
  | .FindAllByTransmission t => (sv.FindAllByTransmission t).state
  | .UpdateFuelTypeById id ft => (sv.UpdateFuelTypeById id ft).state
  | .CalculateAverageCapacityByBrand b => (sv.CalculateAverageCapacityByBrand b).state
  | .FindAllByDimensions minH maxH minW maxW =>
    (sv.FindAllByDimensions minH maxH minW maxW).state
  | .FindAllByWeight minW maxW => (sv.FindAllByWeight minW maxW).state

/-- The service after a sequence of calls, first call first. -/
def Default.calls : Default → List ServiceCall → Default
  | sv, [] => sv
  | sv, c :: cs => Default.calls (sv.call c) cs

/-! ## The specification's words -/

/-- The validation rule set of the specification, in its fixed order: for
each field whether the attributes satisfy the rule, and the violation
signal. -/
def fieldRules : List ((VehicleAttributes → Bool) × GoError) :=
  [ (fun a => a.Brand ≠ "", .ErrServiceInvalidVehicleBrand),
    (fun a => a.Model ≠ "", .ErrServiceInvalidVehicleModel),
    (fun a => a.Registration ≠ "", .ErrServiceInvalidVehicleRegistration),
    (fun a => a.Year ≥ 1887, .ErrServiceInvalidVehicleYear),
    (fun a => a.Color ≠ "", .ErrServiceInvalidVehicleColor),
    (fun a => 1 ≤ a.MaxSpeed ∧ a.MaxSpeed ≤ 999, .ErrServiceInvalidVehicleMaxSpeed),
    (fun a => a.FuelType ∈ ["gasoline", "gas", "diesel", "biodiesel"],
      .ErrServiceInvalidVehicleFuelType),
    (fun a => a.Transmission ∈ ["automatic", "semi-automatic", "manual"],
      .ErrServiceInvalidVehicleTransmission),
    (fun a => 1 ≤ a.Passengers ∧ a.Passengers ≤ 6, .ErrServiceInvalidVehiclePassengers),
    (fun a => a.Height ≥ 1, .ErrServiceInvalidVehicleHeight),
    (fun a => a.Width ≥ 1, .ErrServiceInvalidVehicleWidth),
    (fun a => a.Weight ≥ 1, .ErrServiceInvalidVehicleWeight) ]

/-- The violation signal of the first rule, in the fixed order, that the
record violates; `none` when it violates no rule. -/
def firstViolation (v : Vehicle) : Option GoError :=
  (fieldRules.find? (fun rule => !rule.1 v.Attributes)).map Prod.snd

/-- The twelve `InvalidX` violation signals. -/
def isInvalidX : GoError → Bool
  | .ErrServiceInvalidVehicleBrand => true
  | .ErrServiceInvalidVehicleModel => true
  | .ErrServiceInvalidVehicleRegistration => true
  | .ErrServiceInvalidVehicleYear => true
  | .ErrServiceInvalidVehicleColor => true
  | .ErrServiceInvalidVehicleMaxSpeed => true
  | .ErrServiceInvalidVehicleFuelType => true
  | .ErrServiceInvalidVehicleTransmission => true
  | .ErrServiceInvalidVehiclePassengers => true
  | .ErrServiceInvalidVehicleHeight => true
  | .ErrServiceInvalidVehicleWidth => true
  | .ErrServiceInvalidVehicleWeight => true
  | _ => false

/-- A valid record of a catalog, used in the examples. -/
def corolla : Vehicle :=
  { ID := 0
    Attributes :=
      { Brand := "Toyota", Model := "Corolla", Registration := "ABC123", Year := 2020,
        Color := "red", MaxSpeed := 180, FuelType := "gasoline", Transmission := "manual",
        Passengers := 5, Height := 2, Width := 2, Weight := 1000 } }

/-- The twelve field constraints on a stored record. -/
def Vehicle.Valid (v : Vehicle) : Prop :=
  v.Attributes.Brand ≠ "" ∧ v.Attributes.Model ≠ "" ∧ v.Attributes.Registration ≠ "" ∧
  v.Attributes.Color ≠ "" ∧ v.Attributes.Year ≥ 1887 ∧
  (1 ≤ v.Attributes.MaxSpeed ∧ v.Attributes.MaxSpeed ≤ 999) ∧
  v.Attributes.FuelType ∈ ["gasoline", "gas", "diesel", "biodiesel"] ∧
  v.Attributes.Transmission ∈ ["automatic", "semi-automatic", "manual"] ∧
  (1 ≤ v.Attributes.Passengers ∧ v.Attributes.Passengers ≤ 6) ∧
  v.Attributes.Height ≥ 1 ∧ v.Attributes.Width ≥ 1 ∧ v.Attributes.Weight ≥ 1

instance Vehicle.decidableValid (v : Vehicle) : Decidable v.Valid := by
  unfold Vehicle.Valid; infer_instance

/-- Every record of the store satisfies the twelve field constraints. -/
def Default.AllValid (sv : Default) : Prop := ∀ v ∈ sv.rp.db, v.Valid

instance Default.decidableAllValid (sv : Default) : Decidable sv.AllValid := by
  unfold Default.AllValid; infer_instance

/-- The record ids of the collection are pairwise distinct and none is
greater than the counter. -/
def VehicleSlice.UniqueIds (r : VehicleSlice) : Prop :=
  r.db.Pairwise (fun a b => a.ID ≠ b.ID) ∧ ∀ v ∈ r.db, v.ID ≤ r.lastId

instance VehicleSlice.decidableUniqueIds (r : VehicleSlice) : Decidable r.UniqueIds := by
  unfold VehicleSlice.UniqueIds; infer_instance

/-- Store `Insert` applied to the records one at a time, in input order,
stopping at the first failure: the store after the last call made, the records
the calls returned, and the error of the failing call. -/
def VehicleSlice.insertOneAtATime :
    VehicleSlice → List Vehicle → Outcome VehicleSlice (List Vehicle)
  | r, [] => { state := r, val := [], err := none }
  | r, v :: rest =>
    match (r.Insert v).err with
    | some err => { state := (r.Insert v).state, val := [], err := some err }
    | none =>
      { state := (VehicleSlice.insertOneAtATime (r.Insert v).state rest).state,
        val := (r.Insert v).val :: (VehicleSlice.insertOneAtATime (r.Insert v).state rest).val,
        err := (VehicleSlice.insertOneAtATime (r.Insert v).state rest).err }

/-- A red vehicle of year 2020, with id 1. -/
def red2020 : Vehicle := { corolla with ID := 1 }

/-- A red vehicle of year 2019, with id 2. -/
def red2019 : Vehicle :=
  { ID := 2, Attributes := { corolla.Attributes with Year := 2019 } }

/-- A record whose year, 1800, violates the year rule. -/
def year1800 : Vehicle :=
  { corolla with Attributes := { corolla.Attributes with Year := 1800 } }

/-- What the part that the six filtered reads share computes once the
arguments have passed validation, for the filter `p`: the error of `FindAll`
on an empty store, `ErrServiceVehiclesNotFound` when no record passes `p`, and
otherwise the records that pass `p`, in store order. -/
def Default.scan (sv : Default) (p : Vehicle → Bool) : Outcome Default (List Vehicle) :=
  if sv.rp.db = [] then
    { state := sv, val := [],
      err := some (.Errorf .ErrServiceVehiclesNotFound .ErrRepositoryVehiclesNotFound) }
  else if sv.rp.db.filter p = [] then
    { state := sv, val := [], err := some .ErrServiceVehiclesNotFound }
  else { state := sv, val := sv.rp.db.filter p, err := none }

/-- A Toyota of year 2015, with id 1. -/
def toyota2015 : Vehicle :=
  { ID := 1, Attributes := { corolla.Attributes with Year := 2015 } }

/-- A Toyota of year 2017, with id 2. -/
def toyota2017 : Vehicle :=
  { ID := 2, Attributes := { corolla.Attributes with Year := 2017 } }

/-- A Toyota of maximum speed 100, with id 1. -/
def toyota100 : Vehicle :=
  { ID := 1, Attributes := { corolla.Attributes with MaxSpeed := 100 } }

/-- A Toyota of maximum speed 150, with id 2. -/
def toyota150 : Vehicle :=
  { ID := 2, Attributes := { corolla.Attributes with MaxSpeed := 150 } }

/-- A Ford, with id 3. -/
def fiesta : Vehicle :=
  { ID := 3
    Attributes :=
      { Brand := "Ford", Model := "Fiesta", Registration := "XYZ789", Year := 2018,
        Color := "blue", MaxSpeed := 160, FuelType := "diesel", Transmission := "automatic",
        Passengers := 4, Height := 3, Width := 2, Weight := 900 } }

/-- One filtered read signals "not found" exactly when nothing matches: the
outcome `o` of the read on the service `sv` carries an error that `errors.Is`
the engine's `ErrServiceVehiclesNotFound` if and only if no record of the
store satisfies `pred`; on an empty store that error is the one `FindAll`
returns; when some record satisfies `pred` the read succeeds with a non-empty
sequence; a success is never empty; and an error is never one that
`errors.Is` the repository's `ErrRepositoryVehiclesNotFound`. -/
def NotFoundIffNoMatch (sv : Default) (o : Outcome Default (List Vehicle))
    (pred : Vehicle → Prop) : Prop :=
  ((∃ e, o.err = some e ∧ errorsIs e .ErrServiceVehiclesNotFound = true) ↔
      ∀ v ∈ sv.rp.db, ¬ pred v) ∧
  (sv.rp.db = [] → o.err = sv.FindAll.err) ∧
  ((∃ v ∈ sv.rp.db, pred v) → o.err = none ∧ o.val ≠ []) ∧
  (o.err = none → o.val ≠ []) ∧
  (∀ e, o.err = some e →
    errorsIs e .ErrServiceVehiclesNotFound = true ∧
    errorsIs e .ErrRepositoryVehiclesNotFound = false)

/-- The arithmetic mean of a sequence of integers: their sum divided by
their count, as a rational number. -/
def mean (xs : List Int) : ℚ := (xs.sum : ℚ) / (xs.length : ℚ)

/-- The records `vs` with the ids `c+1`, `c+2`, ... in place of their own,
in the order of `vs`. -/
def withIdsFrom (c : GoInt) : List Vehicle → List Vehicle
  | [] => []
  | v :: vs => { v with ID := c + 1 } :: withIdsFrom (c + 1) vs

/-- A store in which two records share the id 1. -/
def twoWithId1 : VehicleSlice := NewVehicleSlice [red2020, { red2019 with ID := 1 }] 2

/-- The height, the width and the weight of the record are numbers: none of
them is NaN. -/
def Vehicle.NoNaN (v : Vehicle) : Prop :=
  v.Attributes.Height ≠ .NaN ∧ v.Attributes.Width ≠ .NaN ∧ v.Attributes.Weight ≠ .NaN

instance Vehicle.decidableNoNaN (v : Vehicle) : Decidable v.NoNaN := by
  unfold Vehicle.NoNaN; infer_instance

/-- A Corolla whose height is NaN. -/
def nanHeight : Vehicle :=
  { corolla with Attributes := { corolla.Attributes with Height := .NaN } }

/-- The records a service call offers for insertion. -/
def ServiceCall.offered : ServiceCall → List Vehicle
  | .Insert v => [v]
  | .InsertMany v => v
  | _ => []

/-- The number of records a repository call offers for insertion: the most
by which the call can move the counter. -/
def RepositoryCall.inserts : RepositoryCall → Nat
  | .Insert _ => 1
  | .InsertMany v => v.length
  | _ => 0

/-- The number of records a sequence of repository calls offers for
insertion. -/
def insertsOffered : List RepositoryCall → Nat
  | [] => 0
  | c :: cs => c.inserts + insertsOffered cs

/-- A Toyota of maximum speed 101, with id 3. -/
def toyota101 : Vehicle :=
  { ID := 3, Attributes := { corolla.Attributes with MaxSpeed := 101 } }

/-- A store of three Toyotas of maximum speed 100, 100 and 101. -/
def speeds301 : VehicleSlice :=
  NewVehicleSlice [toyota100, { toyota100 with ID := 2 }, toyota101] 3

/-- A store whose only record has the least id and whose counter is the
greatest `int`. -/
def counterAtMax : VehicleSlice :=
  NewVehicleSlice [{ corolla with ID := GoInt.MinInt64 }] GoInt.MaxInt64


/-! ## Theorems -/

/-! ### Arithmetic and order of `GoInt` -/

theorem GoInt.ext {a b : GoInt} (h : a.toInt = b.toInt) : a = b := by
  cases a; cases b; simp only at h; subst h; rfl

theorem GoInt.eq_iff {a b : GoInt} : a = b ↔ a.toInt = b.toInt :=
  ⟨fun h => by rw [h], GoInt.ext⟩

theorem GoInt.lt_iff {a b : GoInt} : a < b ↔ a.toInt < b.toInt := Iff.rfl

theorem GoInt.le_iff {a b : GoInt} : a ≤ b ↔ a.toInt ≤ b.toInt := Iff.rfl

theorem GoInt.toInt_wrap (x : Int) :
    (GoInt.wrap x).toInt =
      (x + 9223372036854775808) % 18446744073709551616 - 9223372036854775808 := by
  unfold GoInt.wrap; rfl

theorem GoInt.wrap_toInt (a : GoInt) : GoInt.wrap a.toInt = a := by
  apply GoInt.ext
  have := a.lo
  have := a.hi
  rw [GoInt.toInt_wrap]
  omega

theorem GoInt.toInt_wrap_of_range (x : Int) (h1 : -9223372036854775808 ≤ x)
    (h2 : x ≤ 9223372036854775807) : (GoInt.wrap x).toInt = x := by
  rw [GoInt.toInt_wrap]
  omega

theorem GoInt.toInt_add (a b : GoInt) :
    (a + b).toInt =
      (a.toInt + b.toInt + 9223372036854775808) % 18446744073709551616
        - 9223372036854775808 :=
  GoInt.toInt_wrap _

theorem GoInt.toInt_sub (a b : GoInt) :
    (a - b).toInt =
      (a.toInt - b.toInt + 9223372036854775808) % 18446744073709551616
        - 9223372036854775808 :=
  GoInt.toInt_wrap _

theorem GoInt.toInt_zero : (0 : GoInt).toInt = 0 :=
  GoInt.toInt_wrap_of_range 0 (by omega) (by omega)

theorem GoInt.toInt_one : (1 : GoInt).toInt = 1 :=
  GoInt.toInt_wrap_of_range 1 (by omega) (by omega)

theorem GoInt.toInt_natCast (n : ℕ) :
    (n : GoInt).toInt =
      ((n : Int) + 9223372036854775808) % 18446744073709551616 - 9223372036854775808 :=
  GoInt.toInt_wrap _

theorem GoInt.toInt_ofNat (n : ℕ) [n.AtLeastTwo] :
    (OfNat.ofNat n : GoInt).toInt =
      ((OfNat.ofNat n : Int) + 9223372036854775808) % 18446744073709551616
        - 9223372036854775808 :=
  GoInt.toInt_wrap _

theorem GoInt.toInt_MaxInt64 : GoInt.MaxInt64.toInt = 9223372036854775807 := rfl

theorem GoInt.toInt_MinInt64 : GoInt.MinInt64.toInt = -9223372036854775808 := rfl

theorem GoInt.sum_eq_wrap (xs : List GoInt) :
    xs.sum = GoInt.wrap (xs.map GoInt.toInt).sum := by
  induction xs with
  | nil => rfl
  | cons x xs ih =>
    rw [List.sum_cons, List.map_cons, List.sum_cons, ih]
    apply GoInt.ext
    rw [GoInt.toInt_add, GoInt.toInt_wrap, GoInt.toInt_wrap]
    omega

/-! ### Order of `Float64` -/

theorem Float64.ofNat_eq (n : ℕ) : (OfNat.ofNat n : Float64) = .finite (n : ℚ) := rfl

theorem Float64.lt_iff_finite (a b : ℚ) : Float64.finite a < Float64.finite b ↔ a < b := by
  show Float64.lt _ _ = true ↔ _
  simp [Float64.lt]

theorem Float64.le_iff_finite (a b : ℚ) : Float64.finite a ≤ Float64.finite b ↔ a ≤ b := by
  show Float64.le _ _ = true ↔ _
  simp [Float64.le]

theorem Float64.not_lt_of_le {a b : Float64} (h : a ≤ b) : ¬ b < a := by
  change Float64.le a b = true at h
  change ¬ Float64.lt b a = true
  cases a <;> cases b <;> simp_all [Float64.le, Float64.lt]

theorem Float64.ne_of_lt {a b : Float64} (h : a < b) : a ≠ b := by
  change Float64.lt a b = true at h
  intro hab
  subst hab
  cases a <;> simp_all [Float64.lt]

theorem Float64.ne_NaN_of_le {a b : Float64} (h : a ≤ b) : a ≠ .NaN ∧ b ≠ .NaN := by
  change Float64.le a b = true at h
  cases a <;> cases b <;> simp_all [Float64.le]

theorem Float64.le_of_not_lt {a b : Float64} (ha : a ≠ .NaN) (hb : b ≠ .NaN)
    (h : ¬ b < a) : a ≤ b := by
  change ¬ Float64.lt b a = true at h
  change Float64.le a b = true
  cases a <;> cases b <;> simp_all [Float64.le, Float64.lt]

theorem Float64.not_lt_NaN (a : Float64) : ¬ Float64.NaN < a ∧ ¬ a < Float64.NaN := by
  constructor
  · change ¬ Float64.lt .NaN a = true
    simp [Float64.lt]
  · change ¬ Float64.lt a .NaN = true
    cases a <;> simp [Float64.lt]

/-! ### Rounding to `float64` -/

theorem roundHalfEven_bounds (x : ℚ) : ⌊x⌋ ≤ roundHalfEven x ∧ roundHalfEven x ≤ ⌊x⌋ + 1 := by
  unfold roundHalfEven
  split_ifs <;> constructor <;> omega

theorem roundHalfEven_of_floor_eq (x : ℚ) (h : (⌊x⌋ : ℚ) = x) : roundHalfEven x = ⌊x⌋ := by
  unfold roundHalfEven
  rw [if_pos (by rw [h]; norm_num)]

theorem roundHalfEven_intCast (m : Int) : roundHalfEven (m : ℚ) = m := by
  rw [roundHalfEven_of_floor_eq _ (by simp)]
  simp

theorem le_roundHalfEven {x : ℚ} {a : Int} (h : (a : ℚ) ≤ x) : a ≤ roundHalfEven x :=
  le_trans (Int.le_floor.2 h) (roundHalfEven_bounds x).1

theorem roundHalfEven_le {x : ℚ} {b : Int} (h : x ≤ (b : ℚ)) : roundHalfEven x ≤ b := by
  by_cases hlt : ⌊x⌋ < b
  · have := (roundHalfEven_bounds x).2
    omega
  · have hfl : (⌊x⌋ : ℚ) ≤ x := Int.floor_le x
    have hb : (b : ℚ) ≤ (⌊x⌋ : ℚ) := by exact_mod_cast not_lt.1 hlt
    have hx : (⌊x⌋ : ℚ) = x := le_antisymm hfl (le_trans h hb)
    rw [roundHalfEven_of_floor_eq x hx]
    have : (⌊x⌋ : ℚ) ≤ (b : ℚ) := by rw [hx]; exact h
    exact_mod_cast this

theorem Float64.round_eq (q : ℚ) (k : Int) (hk : k = max (Int.log 2 |q|) (-1022) - 52) :
    Float64.round q =
      if (2 : ℚ) ^ (1024 : Int) ≤ |(roundHalfEven (q / 2 ^ k) : ℚ) * 2 ^ k| then
        (if 0 < q then .posInf else .negInf)
      else .finite ((roundHalfEven (q / 2 ^ k) : ℚ) * 2 ^ k) := by
  subst hk
  rfl

theorem Float64.round_bracket (q : ℚ) (k : Int) (A B : Int) (hA : (A : ℚ) * 2 ^ k ≤ q) (hB : q ≤ (B : ℚ) * 2 ^ k) :
    (A : ℚ) * 2 ^ k ≤ (roundHalfEven (q / 2 ^ k) : ℚ) * 2 ^ k ∧
    (roundHalfEven (q / 2 ^ k) : ℚ) * 2 ^ k ≤ (B : ℚ) * 2 ^ k := by
  have hpos : (0 : ℚ) < 2 ^ k := zpow_pos (by norm_num) k
  have h1 : A ≤ roundHalfEven (q / 2 ^ k) := le_roundHalfEven (by rw [le_div_iff₀ hpos]; exact hA)
  have h2 : roundHalfEven (q / 2 ^ k) ≤ B := roundHalfEven_le (by rw [div_le_iff₀ hpos]; exact hB)
  constructor
  · exact mul_le_mul_of_nonneg_right (by exact_mod_cast h1) hpos.le
  · exact mul_le_mul_of_nonneg_right (by exact_mod_cast h2) hpos.le

theorem Float64.log_le_of_abs_le (q : ℚ) (m : Int) (hm : 0 ≤ m ∨ q ≠ 0) (hq : |q| ≤ 2 ^ m) :
    Int.log 2 |q| ≤ m := by
  by_cases h0 : q = 0
  · subst h0
    rcases hm with hm | hm
    · simpa using hm
    · exact absurd rfl hm
  · have hpos : 0 < |q| := abs_pos.2 h0
    have := Int.lt_zpow_succ_log_self (b := 2) (by norm_num) |q|
    by_contra hlt
    push_neg at hlt
    have h1 : ((2 : ℕ) : ℚ) ^ (m + 1) ≤ ((2 : ℕ) : ℚ) ^ Int.log 2 |q| :=
      zpow_le_zpow_right₀ (by norm_num) (by omega)
    have h2 := Int.zpow_log_le_self (b := 2) (by norm_num) hpos
    have h3 : ((2 : ℕ) : ℚ) ^ m < ((2 : ℕ) : ℚ) ^ (m + 1) :=
      zpow_lt_zpow_right₀ (by norm_num) (by omega)
    have : |q| ≤ ((2 : ℕ) : ℚ) ^ m := by simpa using hq
    linarith


theorem Float64.round_of_abs_le (q : ℚ) (m : Int) (hm0 : 0 ≤ m) (hm1 : m < 1024)
    (hq : |q| ≤ 2 ^ m) :
    ∃ r : ℚ, Float64.round q = .finite r ∧ |r| ≤ 2 ^ m := by
  have hL := Float64.log_le_of_abs_le q m (Or.inl hm0) hq
  obtain ⟨k, hk⟩ : ∃ k : Int, k = max (Int.log 2 |q|) (-1022) - 52 := ⟨_, rfl⟩
  have hkm : k ≤ m := by
    have : max (Int.log 2 |q|) (-1022) ≤ m := max_le hL (by omega)
    omega
  obtain ⟨j, hj⟩ : ∃ j : ℕ, (j : Int) = m - k := ⟨(m - k).toNat, by omega⟩
  have hpow : ((2 ^ j : ℕ) : ℚ) * 2 ^ k = 2 ^ m := by
    have : m = (j : Int) + k := by omega
    rw [this, zpow_add₀ (by norm_num), zpow_natCast]
    push_cast
    rfl
  have habs := abs_le.1 hq
  obtain ⟨h1, h2⟩ := Float64.round_bracket q k (-(2 ^ j : ℕ) : Int) ((2 ^ j : ℕ) : Int)
    (by push_cast; push_cast at hpow; rw [neg_mul, hpow]; exact habs.1)
    (by push_cast; push_cast at hpow; rw [hpow]; exact habs.2)
  push_cast at h1 h2 hpow
  rw [neg_mul, hpow] at h1
  rw [hpow] at h2
  have hr : |(roundHalfEven (q / 2 ^ k) : ℚ) * 2 ^ k| ≤ 2 ^ m := abs_le.2 ⟨h1, h2⟩
  refine ⟨_, ?_, hr⟩
  rw [Float64.round_eq q k hk, if_neg]
  have : (2 : ℚ) ^ m < 2 ^ (1024 : Int) := zpow_lt_zpow_right₀ (by norm_num) hm1
  intro hc
  linarith

theorem Float64.round_between (q : ℚ) (lo hi : Int) (h1 : (lo : ℚ) ≤ q) (h2 : q ≤ (hi : ℚ))
    (hlo : -9007199254740992 < lo) (hhi : hi < 9007199254740992) :
    ∃ r : ℚ, Float64.round q = .finite r ∧ (lo : ℚ) ≤ r ∧ r ≤ (hi : ℚ) := by
  have hq : |q| ≤ 2 ^ (53 : Int) := by
    rw [abs_le]
    have e : (2 : ℚ) ^ (53 : Int) = 9007199254740992 := by norm_num
    have a : (-9007199254740992 : ℚ) < lo := by exact_mod_cast hlo
    have b : (hi : ℚ) < 9007199254740992 := by exact_mod_cast hhi
    rw [e]
    constructor <;> linarith
  have hq' : |q| < 2 ^ (53 : Int) := by
    rw [abs_lt]
    have e : (2 : ℚ) ^ (53 : Int) = 9007199254740992 := by norm_num
    have a : (-9007199254740992 : ℚ) < lo := by exact_mod_cast hlo
    have b : (hi : ℚ) < 9007199254740992 := by exact_mod_cast hhi
    rw [e]
    constructor <;> linarith
  have hL : Int.log 2 |q| < 53 := by
    by_cases h0 : q = 0
    · subst h0; simp
    · exact (Int.lt_zpow_iff_log_lt (b := 2) (by norm_num) (abs_pos.2 h0)).1 (by simpa using hq')
  obtain ⟨k, hk⟩ : ∃ k : Int, k = max (Int.log 2 |q|) (-1022) - 52 := ⟨_, rfl⟩
  have hk0 : k ≤ 0 := by
    have : max (Int.log 2 |q|) (-1022) ≤ 52 := max_le (by omega) (by omega)
    omega
  obtain ⟨j, hj⟩ : ∃ j : ℕ, (j : Int) = -k := ⟨(-k).toNat, by omega⟩
  have hone : ((2 ^ j : ℕ) : ℚ) * 2 ^ k = 1 := by
    have : k = -(j : Int) := by omega
    rw [this, zpow_neg, zpow_natCast]
    push_cast
    exact mul_inv_cancel₀ (by positivity)
  obtain ⟨b1, b2⟩ := Float64.round_bracket q k (lo * (2 ^ j : ℕ)) (hi * (2 ^ j : ℕ))
    (by push_cast; push_cast at hone; rw [mul_assoc, hone, mul_one]; exact h1)
    (by push_cast; push_cast at hone; rw [mul_assoc, hone, mul_one]; exact h2)
  push_cast at b1 b2 hone
  rw [mul_assoc, hone, mul_one] at b1 b2
  refine ⟨_, ?_, b1, b2⟩
  rw [Float64.round_eq q k hk, if_neg]
  intro hc
  have e : (2 : ℚ) ^ (1024 : Int) > 9007199254740992 := by
    have : (2 : ℚ) ^ (53 : Int) < 2 ^ (1024 : Int) := zpow_lt_zpow_right₀ (by norm_num) (by norm_num)
    have e : (2 : ℚ) ^ (53 : Int) = 9007199254740992 := by norm_num
    linarith
  have a : (-9007199254740992 : ℚ) < lo := by exact_mod_cast hlo
  have b : (hi : ℚ) < 9007199254740992 := by exact_mod_cast hhi
  have := abs_le.2 ⟨le_trans a.le b1, le_trans b2 b.le⟩
  linarith

theorem Float64.round_intCast (n : Int) (hlo : -9007199254740992 < n)
    (hhi : n < 9007199254740992) : Float64.round (n : ℚ) = .finite n := by
  obtain ⟨r, hr, h1, h2⟩ := Float64.round_between (n : ℚ) n n le_rfl le_rfl hlo hhi
  rw [hr, le_antisymm h2 h1]

theorem Float64.round_of_one_le (q : ℚ) (hq : 1 ≤ q) :
    Float64.round q = .posInf ∨ ∃ r : ℚ, Float64.round q = .finite r ∧ 1 ≤ r := by
  have hpos : 0 < q := by linarith
  have habs : |q| = q := abs_of_pos hpos
  obtain ⟨k, hk⟩ : ∃ k : Int, k = max (Int.log 2 |q|) (-1022) - 52 := ⟨_, rfl⟩
  have hL0 : 0 ≤ Int.log 2 |q| := by
    rw [habs]
    exact (Int.zpow_le_iff_le_log (b := 2) (by norm_num) hpos).1 (by simpa using hq)
  have hkL : k = Int.log 2 |q| - 52 := by
    rw [hk, max_eq_left (by omega)]
  have hle := Int.zpow_log_le_self (b := 2) (by norm_num) (show 0 < |q| by rw [habs]; exact hpos)
  have hpow : ((2 ^ 52 : ℕ) : ℚ) * 2 ^ k = 2 ^ Int.log 2 |q| := by
    have : Int.log 2 |q| = ((52 : ℕ) : Int) + k := by omega
    rw [this, zpow_add₀ (by norm_num), zpow_natCast]
    push_cast
    rfl
  have hkpos : (0 : ℚ) < 2 ^ k := zpow_pos (by norm_num) k
  have h1 : ((2 ^ 52 : ℕ) : Int) ≤ roundHalfEven (q / 2 ^ k) := by
    apply le_roundHalfEven
    rw [le_div_iff₀ hkpos]
    push_cast
    push_cast at hpow
    rw [hpow]
    rw [habs] at hle ⊢
    simpa using hle
  have h2 : (1 : ℚ) ≤ (roundHalfEven (q / 2 ^ k) : ℚ) * 2 ^ k := by
    have a : ((2 ^ 52 : ℕ) : ℚ) * 2 ^ k ≤ (roundHalfEven (q / 2 ^ k) : ℚ) * 2 ^ k :=
      mul_le_mul_of_nonneg_right (by exact_mod_cast h1) hkpos.le
    have b : (1 : ℚ) ≤ 2 ^ Int.log 2 |q| := one_le_zpow₀ (by norm_num) hL0
    rw [hpow] at a
    linarith
  rw [Float64.round_eq q k hk]
  split_ifs
  · exact Or.inl rfl
  · exact Or.inr ⟨_, rfl, h2⟩


theorem Float64.log_eq (q : ℚ) (e : Int) (hq : 0 < q) (h1 : (2 : ℚ) ^ e ≤ q)
    (h2 : q < (2 : ℚ) ^ (e + 1)) : Int.log 2 |q| = e := by
  rw [abs_of_pos hq]
  have a := (Int.zpow_le_iff_le_log (b := 2) (by norm_num) hq).1 (by simpa using h1)
  have b := (Int.lt_zpow_iff_log_lt (b := 2) (by norm_num) hq).1 (by simpa using h2)
  omega

theorem Float64.ofInt_of_small (n : Int) (hlo : -9007199254740992 < n)
    (hhi : n < 9007199254740992) : Float64.ofInt n = .finite n :=
  Float64.round_intCast n hlo hhi

/-! ### Validation -/

theorem firstViolation_eq (v : Vehicle) (hnum : v.NoNaN) :
    firstViolation v = Default.InsertChecks v := by
  have hft : ∀ s : String, s ∈ ["gasoline", "gas", "diesel", "biodiesel"] ↔
      ¬ (s = "" ∨ (s ≠ "gasoline" ∧ s ≠ "gas" ∧ s ≠ "diesel" ∧ s ≠ "biodiesel")) := by
    intro s
    simp only [List.mem_cons, List.mem_singleton, List.mem_nil_iff, or_false]
    constructor
    · rintro (h | h | h | h) <;> subst h <;> decide
    · intro h
      by_contra hc
      exact h (Or.inr ⟨fun e => hc (by simp [e]), fun e => hc (by simp [e]),
        fun e => hc (by simp [e]), fun e => hc (by simp [e])⟩)
  have htr : ∀ s : String, s ∈ ["automatic", "semi-automatic", "manual"] ↔
      ¬ (s = "" ∨ (s ≠ "automatic" ∧ s ≠ "semi-automatic" ∧ s ≠ "manual")) := by
    intro s
    simp only [List.mem_cons, List.mem_singleton, List.mem_nil_iff, or_false]
    constructor
    · rintro (h | h | h) <;> subst h <;> decide
    · intro h
      by_contra hc
      exact h (Or.inr ⟨fun e => hc (by simp [e]), fun e => hc (by simp [e]),
        fun e => hc (by simp [e])⟩)
  have hfl : ∀ a : Float64, a ≠ .NaN → ((1 : Float64) ≤ a ↔ ¬ a < 1) := by
    intro a ha
    exact ⟨Float64.not_lt_of_le, Float64.le_of_not_lt (by decide) ha⟩
  obtain ⟨n1, n2, n3⟩ := hnum
  unfold firstViolation fieldRules Default.InsertChecks
  by_cases h1 : v.Attributes.Brand = ""
  · rw [List.find?_cons_of_pos _ (by simp [h1]), if_pos h1]; rfl
  rw [List.find?_cons_of_neg _ (by simp [h1]), if_neg h1]
  by_cases h2 : v.Attributes.Model = ""
  · rw [List.find?_cons_of_pos _ (by simp [h2]), if_pos h2]; rfl
  rw [List.find?_cons_of_neg _ (by simp [h2]), if_neg h2]
  by_cases h3 : v.Attributes.Registration = ""
  · rw [List.find?_cons_of_pos _ (by simp [h3]), if_pos h3]; rfl
  rw [List.find?_cons_of_neg _ (by simp [h3]), if_neg h3]
  by_cases h4 : v.Attributes.Year < 1887
  · rw [List.find?_cons_of_pos _ (by simp [h4]), if_pos h4]; rfl
  rw [List.find?_cons_of_neg _ (by simp [h4]), if_neg h4]
  by_cases h5 : v.Attributes.Color = ""
  · rw [List.find?_cons_of_pos _ (by simp [h5]), if_pos h5]; rfl
  rw [List.find?_cons_of_neg _ (by simp [h5]), if_neg h5]
  by_cases h6 : v.Attributes.MaxSpeed < 1 ∨ v.Attributes.MaxSpeed > 999
  · rw [List.find?_cons_of_pos _ (by
      simp only [Bool.not_eq_true', decide_eq_false_iff_not, not_and_or, not_le]
      exact h6), if_pos h6]; rfl
  rw [List.find?_cons_of_neg _ (by
    simp only [Bool.not_eq_true', decide_eq_false_iff_not, not_not]
    exact ⟨not_lt.1 (fun h => h6 (Or.inl h)), not_lt.1 (fun h => h6 (Or.inr h))⟩), if_neg h6]
  by_cases h7 : v.Attributes.FuelType = "" ∨
      (v.Attributes.FuelType ≠ "gasoline" ∧ v.Attributes.FuelType ≠ "gas" ∧
        v.Attributes.FuelType ≠ "diesel" ∧ v.Attributes.FuelType ≠ "biodiesel")
  · rw [List.find?_cons_of_pos _ (by simpa [hft] using h7), if_pos h7]; rfl
  rw [List.find?_cons_of_neg _ (by simpa [hft] using h7), if_neg h7]
  by_cases h8 : v.Attributes.Transmission = "" ∨
      (v.Attributes.Transmission ≠ "automatic" ∧
        v.Attributes.Transmission ≠ "semi-automatic" ∧
        v.Attributes.Transmission ≠ "manual")
  · rw [List.find?_cons_of_pos _ (by simpa [htr] using h8), if_pos h8]; rfl
  rw [List.find?_cons_of_neg _ (by simpa [htr] using h8), if_neg h8]
  by_cases h9 : v.Attributes.Passengers < 1 ∨ v.Attributes.Passengers > 6
  · rw [List.find?_cons_of_pos _ (by
      simp only [Bool.not_eq_true', decide_eq_false_iff_not, not_and_or, not_le]
      exact h9), if_pos h9]; rfl
  rw [List.find?_cons_of_neg _ (by
    simp only [Bool.not_eq_true', decide_eq_false_iff_not, not_not]
    exact ⟨not_lt.1 (fun h => h9 (Or.inl h)), not_lt.1 (fun h => h9 (Or.inr h))⟩), if_neg h9]
  by_cases h10 : v.Attributes.Height < 1
  · rw [List.find?_cons_of_pos _ (by simpa [hfl _ n1] using h10), if_pos h10]; rfl
  rw [List.find?_cons_of_neg _ (by simpa [hfl _ n1] using h10), if_neg h10]
  by_cases h11 : v.Attributes.Width < 1
  · rw [List.find?_cons_of_pos _ (by simpa [hfl _ n2] using h11), if_pos h11]; rfl
  rw [List.find?_cons_of_neg _ (by simpa [hfl _ n2] using h11), if_neg h11]
  by_cases h12 : v.Attributes.Weight < 1
  · rw [List.find?_cons_of_pos _ (by simpa [hfl _ n3] using h12), if_pos h12]; rfl
  rw [List.find?_cons_of_neg _ (by simpa [hfl _ n3] using h12), if_neg h12]
  rfl

theorem firstViolation_isInvalidX (v : Vehicle) (e : GoError)
    (h : firstViolation v = some e) : isInvalidX e = true := by
  unfold firstViolation at h
  rw [Option.map_eq_some'] at h
  obtain ⟨rule, hfind, rfl⟩ := h
  have hmem := List.mem_of_find?_eq_some hfind
  simp only [fieldRules, List.mem_cons, List.mem_singleton, List.not_mem_nil, or_false] at hmem
  rcases hmem with h | h | h | h | h | h | h | h | h | h | h | h <;> rw [h] <;> rfl

theorem firstViolation_eq_none_iff (v : Vehicle) :
    firstViolation v = none ↔ ∀ rule ∈ fieldRules, rule.1 v.Attributes = true := by
  unfold firstViolation
  rw [Option.map_eq_none', List.find?_eq_none]
  constructor
  · intro h rule hr
    have := h rule hr
    simpa using this
  · intro h rule hr
    simp [h rule hr]

theorem Vehicle.NoNaN_of_rules (v : Vehicle)
    (h : ∀ rule ∈ fieldRules, rule.1 v.Attributes = true) : v.NoNaN := by
  have h10 := h (fun a => a.Height ≥ 1, .ErrServiceInvalidVehicleHeight) (by simp [fieldRules])
  have h11 := h (fun a => a.Width ≥ 1, .ErrServiceInvalidVehicleWidth) (by simp [fieldRules])
  have h12 := h (fun a => a.Weight ≥ 1, .ErrServiceInvalidVehicleWeight) (by simp [fieldRules])
  simp only [decide_eq_true_eq] at h10 h11 h12
  exact ⟨(Float64.ne_NaN_of_le h10).2, (Float64.ne_NaN_of_le h11).2,
    (Float64.ne_NaN_of_le h12).2⟩

theorem Default.InsertChecks_of_firstViolation (v : Vehicle) (h : firstViolation v = none) :
    Default.InsertChecks v = none := by
  rw [← firstViolation_eq v (Vehicle.NoNaN_of_rules v ((firstViolation_eq_none_iff v).1 h))]
  exact h

theorem Default.InsertChecks_isInvalidX (v : Vehicle) (e : GoError)
    (h : Default.InsertChecks v = some e) : isInvalidX e = true := by
  unfold Default.InsertChecks at h
  by_cases h1 : v.Attributes.Brand = ""
  · rw [if_pos h1] at h; cases h; rfl
  rw [if_neg h1] at h
  by_cases h2 : v.Attributes.Model = ""
  · rw [if_pos h2] at h; cases h; rfl
  rw [if_neg h2] at h
  by_cases h3 : v.Attributes.Registration = ""
  · rw [if_pos h3] at h; cases h; rfl
  rw [if_neg h3] at h
  by_cases h4 : v.Attributes.Year < 1887
  · rw [if_pos h4] at h; cases h; rfl
  rw [if_neg h4] at h
  by_cases h5 : v.Attributes.Color = ""
  · rw [if_pos h5] at h; cases h; rfl
  rw [if_neg h5] at h
  by_cases h6 : v.Attributes.MaxSpeed < 1 ∨ v.Attributes.MaxSpeed > 999
  · rw [if_pos h6] at h; cases h; rfl
  rw [if_neg h6] at h
  by_cases h7 : v.Attributes.FuelType = "" ∨
      (v.Attributes.FuelType ≠ "gasoline" ∧ v.Attributes.FuelType ≠ "gas" ∧
        v.Attributes.FuelType ≠ "diesel" ∧ v.Attributes.FuelType ≠ "biodiesel")
  · rw [if_pos h7] at h; cases h; rfl
  rw [if_neg h7] at h
  by_cases h8 : v.Attributes.Transmission = "" ∨
      (v.Attributes.Transmission ≠ "automatic" ∧
        v.Attributes.Transmission ≠ "semi-automatic" ∧
        v.Attributes.Transmission ≠ "manual")
  · rw [if_pos h8] at h; cases h; rfl
  rw [if_neg h8] at h
  by_cases h9 : v.Attributes.Passengers < 1 ∨ v.Attributes.Passengers > 6
  · rw [if_pos h9] at h; cases h; rfl
  rw [if_neg h9] at h
  by_cases h10 : v.Attributes.Height < 1
  · rw [if_pos h10] at h; cases h; rfl
  rw [if_neg h10] at h
  by_cases h11 : v.Attributes.Width < 1
  · rw [if_pos h11] at h; cases h; rfl
  rw [if_neg h11] at h
  by_cases h12 : v.Attributes.Weight < 1
  · rw [if_pos h12] at h; cases h; rfl
  rw [if_neg h12] at h
  cases h

theorem Default.Insert_eq (sv : Default) (v : Vehicle) :
    sv.Insert v =
      match Default.InsertChecks v with
      | some e => { state := sv, val := Vehicle.zero, err := some e }
      | none =>
        match (sv.rp.Insert v).err with
        | some err =>
          if errorsIs err .ErrRepositoryVehicleIdAlreadyExists then
            { state := { rp := (sv.rp.Insert v).state }, val := Vehicle.zero,
              err := some .ErrServiceVehicleIdAlreadyExists }
          else
            { state := { rp := (sv.rp.Insert v).state }, val := Vehicle.zero, err := some err }
        | none =>
          { state := { rp := (sv.rp.Insert v).state }, val := (sv.rp.Insert v).val,
            err := none } := by
  unfold Default.InsertChecks Default.Insert
  by_cases h1 : v.Attributes.Brand = ""
  · rw [if_pos h1, if_pos h1]
  rw [if_neg h1, if_neg h1]
  by_cases h2 : v.Attributes.Model = ""
  · rw [if_pos h2, if_pos h2]
  rw [if_neg h2, if_neg h2]
  by_cases h3 : v.Attributes.Registration = ""
  · rw [if_pos h3, if_pos h3]
  rw [if_neg h3, if_neg h3]
  by_cases h4 : v.Attributes.Year < 1887
  · rw [if_pos h4, if_pos h4]
  rw [if_neg h4, if_neg h4]
  by_cases h5 : v.Attributes.Color = ""
  · rw [if_pos h5, if_pos h5]
  rw [if_neg h5, if_neg h5]
  by_cases h6 : v.Attributes.MaxSpeed < 1 ∨ v.Attributes.MaxSpeed > 999
  · rw [if_pos h6, if_pos h6]
  rw [if_neg h6, if_neg h6]
  by_cases h7 : v.Attributes.FuelType = "" ∨
      (v.Attributes.FuelType ≠ "gasoline" ∧ v.Attributes.FuelType ≠ "gas" ∧
        v.Attributes.FuelType ≠ "diesel" ∧ v.Attributes.FuelType ≠ "biodiesel")
  · rw [if_pos h7, if_pos h7]
  rw [if_neg h7, if_neg h7]
  by_cases h8 : v.Attributes.Transmission = "" ∨
      (v.Attributes.Transmission ≠ "automatic" ∧
        v.Attributes.Transmission ≠ "semi-automatic" ∧
        v.Attributes.Transmission ≠ "manual")
  · rw [if_pos h8, if_pos h8]
  rw [if_neg h8, if_neg h8]
  by_cases h9 : v.Attributes.Passengers < 1 ∨ v.Attributes.Passengers > 6
  · rw [if_pos h9, if_pos h9]
  rw [if_neg h9, if_neg h9]
  by_cases h10 : v.Attributes.Height < 1
  · rw [if_pos h10, if_pos h10]
  rw [if_neg h10, if_neg h10]
  by_cases h11 : v.Attributes.Width < 1
  · rw [if_pos h11, if_pos h11]
  rw [if_neg h11, if_neg h11]
  by_cases h12 : v.Attributes.Weight < 1
  · rw [if_pos h12, if_pos h12]
  rw [if_neg h12, if_neg h12]

theorem Default.Insert_of_violation (sv : Default) (v : Vehicle) (e : GoError)
    (h : Default.InsertChecks v = some e) :
    sv.Insert v = { state := sv, val := Vehicle.zero, err := some e } := by
  rw [Default.Insert_eq, h]

theorem Default.Insert_of_valid (sv : Default) (v : Vehicle)
    (h : Default.InsertChecks v = none) :
    sv.Insert v =
      match (sv.rp.Insert v).err with
      | some err =>
        if errorsIs err .ErrRepositoryVehicleIdAlreadyExists then
          { state := { rp := (sv.rp.Insert v).state }, val := Vehicle.zero,
            err := some .ErrServiceVehicleIdAlreadyExists }
        else { state := { rp := (sv.rp.Insert v).state }, val := Vehicle.zero, err := some err }
      | none => { state := { rp := (sv.rp.Insert v).state }, val := (sv.rp.Insert v).val,
                  err := none } := by
  rw [Default.Insert_eq, h]

theorem VehicleSlice.Insert_err (r : VehicleSlice) (v : Vehicle) :
    (r.Insert v).err =
      if v.ID = r.lastId + 1 then some .ErrRepositoryVehicleIdAlreadyExists else none := by
  unfold VehicleSlice.Insert
  simp only
  split_ifs <;> rfl

theorem Default.Insert_err_of_valid (sv : Default) (v : Vehicle)
    (h : Default.InsertChecks v = none) :
    (sv.Insert v).err =
      if v.ID = sv.rp.lastId + 1 then some .ErrServiceVehicleIdAlreadyExists else none := by
  rw [Default.Insert_of_valid sv v h, VehicleSlice.Insert_err]
  split_ifs
  · simp [errorsIs]
  · rfl

/-- C1, as amended: a record whose height, width and weight are numbers (not
NaN) and that violates at least one field rule makes service `Insert` return
the violation signal of the first rule it violates in the fixed order (an
empty brand with year 1800 gives `InvalidBrand`), and a record that violates
no rule gets no `InvalidX` error. -/
theorem Default.Insert_reports_first_violation (sv : Default) (v : Vehicle) :
    (v.NoNaN → (∃ rule ∈ fieldRules, rule.1 v.Attributes = false) →
      ∃ e, firstViolation v = some e ∧ isInvalidX e = true ∧ (sv.Insert v).err = some e) ∧
    ((∀ rule ∈ fieldRules, rule.1 v.Attributes = true) →
      ∀ e, (sv.Insert v).err = some e → isInvalidX e = false) ∧
    (v.Attributes.Brand = "" → v.Attributes.Year = 1800 →
      (sv.Insert v).err = some .ErrServiceInvalidVehicleBrand) := by
  refine ⟨?_, ?_, ?_⟩
  · rintro hnum ⟨rule, hr, hv⟩
    cases hfv : firstViolation v with
    | none =>
      have := (firstViolation_eq_none_iff v).1 hfv rule hr
      rw [hv] at this
      exact absurd this (by decide)
    | some e =>
      exact ⟨e, rfl, firstViolation_isInvalidX v e hfv,
        by rw [Default.Insert_of_violation sv v e (by rw [← firstViolation_eq v hnum, hfv])]⟩
  · intro hall e he
    have hfv := Default.InsertChecks_of_firstViolation v ((firstViolation_eq_none_iff v).2 hall)
    rw [Default.Insert_err_of_valid sv v hfv] at he
    split_ifs at he with hid
    cases he
    rfl
  · intro hb _
    have hfv : Default.InsertChecks v = some .ErrServiceInvalidVehicleBrand := by
      rw [Default.InsertChecks, if_pos hb]
    rw [Default.Insert_of_violation sv v _ hfv]

/-- C1, the claim as stated fails for a height that is NaN: the record
violates the height rule, which is its first violation, and service `Insert`
stores it, because `Height < 1` is false for NaN. -/
theorem Default.Insert_accepts_NaN_height :
    (∃ rule ∈ fieldRules, rule.1 nanHeight.Attributes = false) ∧
    firstViolation nanHeight = some .ErrServiceInvalidVehicleHeight ∧
    ((NewDefault (NewVehicleSlice [] 0)).Insert nanHeight).err = none ∧
    ((NewDefault (NewVehicleSlice [] 0)).Insert nanHeight).state.rp.db
      = [{ nanHeight with ID := 1 }] := by
  decide!

/-- C1, at a concrete input: a record with an empty brand and year 1800
offered to the empty store gets `InvalidBrand`, and a Corolla of year 1800,
whose dimensions are numbers, gets `InvalidYear`, its first violation. -/
theorem Default.Insert_reports_first_violation_witness :
    ((NewDefault (NewVehicleSlice [] 0)).Insert
      { corolla with Attributes := { corolla.Attributes with Brand := "", Year := 1800 } }).err
      = some .ErrServiceInvalidVehicleBrand ∧
    (∃ e, firstViolation year1800 = some e ∧ isInvalidX e = true ∧
      ((NewDefault (NewVehicleSlice [] 0)).Insert year1800).err = some e) :=
  ⟨(Default.Insert_reports_first_violation (NewDefault (NewVehicleSlice [] 0))
      { corolla with Attributes := { corolla.Attributes with Brand := "", Year := 1800 } }).2.2
      (by decide!) (by decide!),
    (Default.Insert_reports_first_violation (NewDefault (NewVehicleSlice [] 0)) year1800).1
      (by decide!) ⟨(fun a => a.Year ≥ 1887, .ErrServiceInvalidVehicleYear),
        by simp [fieldRules], by decide!⟩⟩

theorem VehicleSlice.Insert_state_of_collision (r : VehicleSlice) (v : Vehicle)
    (h : v.ID = r.lastId + 1) : (r.Insert v).state = r := by
  unfold VehicleSlice.Insert
  simp only [h, if_true]
  cases r
  simp

/-- C2: a record with non-empty brand, model and registration and a year
below 1887 makes service `Insert` return `InvalidYear` and leaves the
collection and the id counter as they were; and whenever service `Insert`
returns an `InvalidX` error the store is unchanged. -/
theorem Default.Insert_invalid_leaves_store (sv : Default) (v : Vehicle) :
    (v.Attributes.Brand ≠ "" → v.Attributes.Model ≠ "" → v.Attributes.Registration ≠ "" →
      v.Attributes.Year < 1887 →
      (sv.Insert v).err = some .ErrServiceInvalidVehicleYear ∧
      (sv.Insert v).state.rp.db = sv.rp.db ∧
      (sv.Insert v).state.rp.lastId = sv.rp.lastId) ∧
    (∀ e, isInvalidX e = true → (sv.Insert v).err = some e →
      (sv.Insert v).state.rp.db = sv.rp.db ∧
      (sv.Insert v).state.rp.lastId = sv.rp.lastId) := by
  constructor
  · intro hb hm hr hy
    have hfv : Default.InsertChecks v = some .ErrServiceInvalidVehicleYear := by
      rw [Default.InsertChecks, if_neg hb, if_neg hm, if_neg hr, if_pos hy]
    rw [Default.Insert_of_violation sv v _ hfv]
    exact ⟨rfl, rfl, rfl⟩
  · intro e hinv he
    cases hfv : Default.InsertChecks v with
    | some e1 =>
      rw [Default.Insert_of_violation sv v e1 hfv]
      exact ⟨rfl, rfl⟩
    | none =>
      rw [Default.Insert_err_of_valid sv v hfv] at he
      split_ifs at he
      cases he
      exact absurd hinv (by decide)

/-- C2, at a concrete input: a Corolla of year 1800 offered to a store that
holds one record and has counter 1. -/
theorem Default.Insert_invalid_leaves_store_witness :
    ((NewDefault (NewVehicleSlice [{ corolla with ID := 1 }] 1)).Insert
        { corolla with Attributes := { corolla.Attributes with Year := 1800 } }).err
      = some .ErrServiceInvalidVehicleYear ∧
    ((NewDefault (NewVehicleSlice [{ corolla with ID := 1 }] 1)).Insert
        { corolla with Attributes := { corolla.Attributes with Year := 1800 } }).state.rp.db
      = [{ corolla with ID := 1 }] ∧
    ((NewDefault (NewVehicleSlice [{ corolla with ID := 1 }] 1)).Insert
        { corolla with Attributes := { corolla.Attributes with Year := 1800 } }).state.rp.lastId
      = 1 :=
  (Default.Insert_invalid_leaves_store (NewDefault (NewVehicleSlice [{ corolla with ID := 1 }] 1))
    { corolla with Attributes := { corolla.Attributes with Year := 1800 } }).1
    (by decide!) (by decide!) (by decide!) (by decide!)

theorem VehicleSlice.Insert_success (r : VehicleSlice) (v : Vehicle)
    (h : v.ID ≠ r.lastId + 1) :
    (r.Insert v).err = none ∧
    (r.Insert v).val.ID = r.lastId + 1 ∧
    (r.Insert v).val.Attributes = v.Attributes ∧
    (r.Insert v).state.db = r.db ++ [(r.Insert v).val] ∧
    (r.Insert v).state.lastId = r.lastId + 1 := by
  unfold VehicleSlice.Insert
  simp [if_neg h]

/-- C6: when the record's id is not counter+1, store `Insert` succeeds, the
returned record has id counter+1 and the attributes of the record given, the
collection is the old one with the returned record appended, and the counter
is counter+1. -/
theorem VehicleSlice.Insert_assigns_next_id (r : VehicleSlice) (v : Vehicle)
    (h : v.ID ≠ r.lastId + 1) :
    (r.Insert v).err = none ∧
    (r.Insert v).val.ID = r.lastId + 1 ∧
    (r.Insert v).val.Attributes = v.Attributes ∧
    (r.Insert v).state.db = r.db ++ [(r.Insert v).val] ∧
    (r.Insert v).state.lastId = r.lastId + 1 :=
  VehicleSlice.Insert_success r v h

/-- C6, at a concrete input: a record with id 0 inserted into a store with
one record and counter 1. -/
theorem VehicleSlice.Insert_assigns_next_id_witness :
    ((NewVehicleSlice [{ corolla with ID := 1 }] 1).Insert corolla).err = none ∧
    ((NewVehicleSlice [{ corolla with ID := 1 }] 1).Insert corolla).val.ID = 1 + 1 ∧
    ((NewVehicleSlice [{ corolla with ID := 1 }] 1).Insert corolla).val.Attributes
      = corolla.Attributes ∧
    ((NewVehicleSlice [{ corolla with ID := 1 }] 1).Insert corolla).state.db
      = [{ corolla with ID := 1 }] ++
        [((NewVehicleSlice [{ corolla with ID := 1 }] 1).Insert corolla).val] ∧
    ((NewVehicleSlice [{ corolla with ID := 1 }] 1).Insert corolla).state.lastId = 1 + 1 :=
  VehicleSlice.Insert_assigns_next_id (NewVehicleSlice [{ corolla with ID := 1 }] 1) corolla
    (by decide!)

/-- C7: store `Insert` fails with `IdAlreadyExists` exactly when the record's
id is counter+1, whatever the collection holds; on that failure the collection
and the counter are as before the call; and service `Insert` of a record that
violates no rule reports it as `VehicleIdAlreadyExists`. -/
theorem VehicleSlice.Insert_fails_iff_next_id (r : VehicleSlice) (v : Vehicle) :
    ((r.Insert v).err = some .ErrRepositoryVehicleIdAlreadyExists ↔ v.ID = r.lastId + 1) ∧
    ((r.Insert v).err ≠ none ↔ v.ID = r.lastId + 1) ∧
    (v.ID = r.lastId + 1 →
      (r.Insert v).state.db = r.db ∧ (r.Insert v).state.lastId = r.lastId) ∧
    (v.ID = r.lastId + 1 → firstViolation v = none →
      ((NewDefault r).Insert v).err = some .ErrServiceVehicleIdAlreadyExists ∧
      ((NewDefault r).Insert v).state.rp.db = r.db ∧
      ((NewDefault r).Insert v).state.rp.lastId = r.lastId) := by
  refine ⟨?_, ?_, ?_, ?_⟩
  · rw [VehicleSlice.Insert_err]
    split_ifs with h <;> simp [h]
  · rw [VehicleSlice.Insert_err]
    split_ifs with h <;> simp [h]
  · intro h
    rw [VehicleSlice.Insert_state_of_collision r v h]
    exact ⟨rfl, rfl⟩
  · intro h hfv
    have herr : (r.Insert v).err = some .ErrRepositoryVehicleIdAlreadyExists := by
      rw [VehicleSlice.Insert_err, if_pos h]
    rw [Default.Insert_of_valid _ v (Default.InsertChecks_of_firstViolation v hfv)]
    simp only [NewDefault, herr, errorsIs, decide_True, if_true,
      VehicleSlice.Insert_state_of_collision r v h]
    trivial

/-- C7, at a concrete input: a valid record with id 6 offered to an empty
store with counter 5. -/
theorem VehicleSlice.Insert_fails_iff_next_id_witness :
    ((NewDefault (NewVehicleSlice [] 5)).Insert { corolla with ID := 6 }).err
      = some .ErrServiceVehicleIdAlreadyExists ∧
    ((NewDefault (NewVehicleSlice [] 5)).Insert { corolla with ID := 6 }).state.rp.db = [] ∧
    ((NewDefault (NewVehicleSlice [] 5)).Insert { corolla with ID := 6 }).state.rp.lastId = 5 :=
  (VehicleSlice.Insert_fails_iff_next_id (NewVehicleSlice [] 5) { corolla with ID := 6 }).2.2.2
    (by decide!) (by decide!)

theorem Default.InsertManyChecks_cons (vh : Vehicle) (rest : List Vehicle) :
    Default.InsertManyChecks (vh :: rest) =
      match Default.InsertChecks vh with
      | some e => some e
      | none => Default.InsertManyChecks rest := by
  unfold Default.InsertChecks
  conv_lhs => rw [Default.InsertManyChecks]
  by_cases h1 : vh.Attributes.Brand = ""
  · rw [if_pos h1, if_pos h1]
  rw [if_neg h1, if_neg h1]
  by_cases h2 : vh.Attributes.Model = ""
  · rw [if_pos h2, if_pos h2]
  rw [if_neg h2, if_neg h2]
  by_cases h3 : vh.Attributes.Registration = ""
  · rw [if_pos h3, if_pos h3]
  rw [if_neg h3, if_neg h3]
  by_cases h4 : vh.Attributes.Year < 1887
  · rw [if_pos h4, if_pos h4]
  rw [if_neg h4, if_neg h4]
  by_cases h5 : vh.Attributes.Color = ""
  · rw [if_pos h5, if_pos h5]
  rw [if_neg h5, if_neg h5]
  by_cases h6 : vh.Attributes.MaxSpeed < 1 ∨ vh.Attributes.MaxSpeed > 999
  · rw [if_pos h6, if_pos h6]
  rw [if_neg h6, if_neg h6]
  by_cases h7 : vh.Attributes.FuelType = "" ∨
      (vh.Attributes.FuelType ≠ "gasoline" ∧ vh.Attributes.FuelType ≠ "gas" ∧
        vh.Attributes.FuelType ≠ "diesel" ∧ vh.Attributes.FuelType ≠ "biodiesel")
  · rw [if_pos h7, if_pos h7]
  rw [if_neg h7, if_neg h7]
  by_cases h8 : vh.Attributes.Transmission = "" ∨
      (vh.Attributes.Transmission ≠ "automatic" ∧
        vh.Attributes.Transmission ≠ "semi-automatic" ∧
        vh.Attributes.Transmission ≠ "manual")
  · rw [if_pos h8, if_pos h8]
  rw [if_neg h8, if_neg h8]
  by_cases h9 : vh.Attributes.Passengers < 1 ∨ vh.Attributes.Passengers > 6
  · rw [if_pos h9, if_pos h9]
  rw [if_neg h9, if_neg h9]
  by_cases h10 : vh.Attributes.Height < 1
  · rw [if_pos h10, if_pos h10]
  rw [if_neg h10, if_neg h10]
  by_cases h11 : vh.Attributes.Width < 1
  · rw [if_pos h11, if_pos h11]
  rw [if_neg h11, if_neg h11]
  by_cases h12 : vh.Attributes.Weight < 1
  · rw [if_pos h12, if_pos h12]
  rw [if_neg h12, if_neg h12]

theorem Default.InsertManyChecks_append (pre : List Vehicle) (rest : List Vehicle)
    (h : ∀ u ∈ pre, Default.InsertChecks u = none) :
    Default.InsertManyChecks (pre ++ rest) = Default.InsertManyChecks rest := by
  induction pre with
  | nil => rfl
  | cons u pre ih =>
    rw [List.cons_append, Default.InsertManyChecks_cons, h u (List.mem_cons_self _ _)]
    exact ih (fun w hw => h w (List.mem_cons_of_mem _ hw))

theorem Default.InsertManyChecks_eq_none (batch : List Vehicle) :
    Default.InsertManyChecks batch = none ↔ ∀ u ∈ batch, Default.InsertChecks u = none := by
  induction batch with
  | nil => simp [Default.InsertManyChecks]
  | cons u rest ih =>
    rw [Default.InsertManyChecks_cons]
    cases hfv : Default.InsertChecks u with
    | some e => simp [hfv]
    | none => simp [hfv, ih]

theorem exists_first_invalid (batch : List Vehicle)
    (h : ∃ v ∈ batch, Default.InsertChecks v ≠ none) :
    ∃ pre v post e, batch = pre ++ v :: post ∧ (∀ u ∈ pre, Default.InsertChecks u = none) ∧
      Default.InsertChecks v = some e := by
  induction batch with
  | nil => simp at h
  | cons u rest ih =>
    cases hfv : Default.InsertChecks u with
    | some e => exact ⟨[], u, rest, e, rfl, by simp, hfv⟩
    | none =>
      obtain ⟨v, hv, hne⟩ := h
      rcases List.mem_cons.1 hv with rfl | hv
      · exact absurd hfv hne
      · obtain ⟨pre, w, post, e, hb, hpre, hw⟩ := ih ⟨v, hv, hne⟩
        refine ⟨u :: pre, w, post, e, by rw [hb]; rfl, ?_, hw⟩
        intro x hx
        rcases List.mem_cons.1 hx with rfl | hx
        · exact hfv
        · exact hpre x hx

/-- C8, as amended: when a batch of records whose height, width and weight
are numbers (not NaN) holds at least one record that violates a field rule,
service `InsertMany` returns the first violation of the first such record in
input order, returns no records, and leaves the collection and the counter
as they were, whatever valid records come before it. -/
theorem Default.InsertMany_first_invalid (sv : Default) (batch : List Vehicle)
    (hnum : ∀ v ∈ batch, v.NoNaN)
    (h : ∃ v ∈ batch, ∃ rule ∈ fieldRules, rule.1 v.Attributes = false) :
    ∃ pre v post e, batch = pre ++ v :: post ∧
      (∀ u ∈ pre, ∀ rule ∈ fieldRules, rule.1 u.Attributes = true) ∧
      firstViolation v = some e ∧ isInvalidX e = true ∧
      (sv.InsertMany batch).err = some e ∧
      (sv.InsertMany batch).val = [] ∧
      (sv.InsertMany batch).state.rp.db = sv.rp.db ∧
      (sv.InsertMany batch).state.rp.lastId = sv.rp.lastId := by
  have h1 : ∃ v ∈ batch, Default.InsertChecks v ≠ none := by
    obtain ⟨v, hv, rule, hr, hf⟩ := h
    refine ⟨v, hv, fun hn => ?_⟩
    rw [← firstViolation_eq v (hnum v hv)] at hn
    have := (firstViolation_eq_none_iff v).1 hn rule hr
    rw [hf] at this
    exact absurd this (by decide)
  obtain ⟨pre, v, post, e, hb, hpre, hv⟩ := exists_first_invalid batch h1
  have hmem : ∀ u ∈ pre, u ∈ batch := fun u hu => by
    rw [hb]; exact List.mem_append_left _ hu
  have hvmem : v ∈ batch := by
    rw [hb]; exact List.mem_append_right _ (List.mem_cons_self _ _)
  have hchk : Default.InsertManyChecks batch = some e := by
    rw [hb, Default.InsertManyChecks_append pre _ hpre, Default.InsertManyChecks_cons, hv]
  refine ⟨pre, v, post, e, hb, fun u hu => (firstViolation_eq_none_iff u).1 (by
      rw [firstViolation_eq u (hnum u (hmem u hu))]; exact hpre u hu),
    by rw [firstViolation_eq v (hnum v hvmem)]; exact hv,
    Default.InsertChecks_isInvalidX v e hv, ?_⟩
  unfold Default.InsertMany
  rw [hchk]
  exact ⟨rfl, rfl, rfl, rfl⟩

/-- C8, the claim as stated fails for a batch with a height that is NaN: the
record violates the height rule, and service `InsertMany` returns no error
and stores it. -/
theorem Default.InsertMany_accepts_NaN_height :
    (∃ v ∈ [nanHeight], ∃ rule ∈ fieldRules, rule.1 v.Attributes = false) ∧
    ((NewDefault (NewVehicleSlice [red2020] 1)).InsertMany [nanHeight]).err = none ∧
    ((NewDefault (NewVehicleSlice [red2020] 1)).InsertMany [nanHeight]).val
      = [{ nanHeight with ID := 2 }] ∧
    ((NewDefault (NewVehicleSlice [red2020] 1)).InsertMany [nanHeight]).state.rp.db
      = [red2020, { nanHeight with ID := 2 }] := by
  decide!

/-- C8, at a concrete input: a valid record followed by one of year 1800,
offered to a store that holds one record and has counter 1. -/
theorem Default.InsertMany_first_invalid_witness :
    ∃ pre v post e, [corolla, year1800] = pre ++ v :: post ∧
      (∀ u ∈ pre, ∀ rule ∈ fieldRules, rule.1 u.Attributes = true) ∧
      firstViolation v = some e ∧ isInvalidX e = true ∧
      ((NewDefault (NewVehicleSlice [red2020] 1)).InsertMany [corolla, year1800]).err = some e ∧
      ((NewDefault (NewVehicleSlice [red2020] 1)).InsertMany [corolla, year1800]).val = [] ∧
      ((NewDefault (NewVehicleSlice [red2020] 1)).InsertMany [corolla, year1800]).state.rp.db
        = (NewDefault (NewVehicleSlice [red2020] 1)).rp.db ∧
      ((NewDefault (NewVehicleSlice [red2020] 1)).InsertMany [corolla, year1800]).state.rp.lastId
        = (NewDefault (NewVehicleSlice [red2020] 1)).rp.lastId :=
  Default.InsertMany_first_invalid (NewDefault (NewVehicleSlice [red2020] 1)) [corolla, year1800]
    (by decide!)
    ⟨year1800, by decide!, (fun a => a.Year ≥ 1887, .ErrServiceInvalidVehicleYear),
      by simp [fieldRules], by decide!⟩

theorem VehicleSlice.InsertManyLoop_eq (batch : List Vehicle) :
    ∀ (r : VehicleSlice) (nvs : List Vehicle),
      VehicleSlice.InsertManyLoop r nvs batch =
        { state := (r.insertOneAtATime batch).state,
          val := nvs ++ (r.insertOneAtATime batch).val,
          err := (r.insertOneAtATime batch).err } := by
  induction batch with
  | nil =>
    intro r nvs
    simp [VehicleSlice.InsertManyLoop, VehicleSlice.insertOneAtATime]
  | cons v rest ih =>
    intro r nvs
    by_cases h : v.ID = r.lastId + 1
    · have herr : (r.Insert v).err = some .ErrRepositoryVehicleIdAlreadyExists := by
        rw [VehicleSlice.Insert_err, if_pos h]
      rw [VehicleSlice.InsertManyLoop, VehicleSlice.insertOneAtATime]
      simp only [herr, if_pos h, List.append_nil]
      simp [VehicleSlice.Insert, h]
    · have herr : (r.Insert v).err = none := by
        rw [VehicleSlice.Insert_err, if_neg h]
      rw [VehicleSlice.InsertManyLoop, VehicleSlice.insertOneAtATime]
      simp only [herr, if_neg h]
      rw [ih]
      simp [VehicleSlice.Insert, h]

theorem VehicleSlice.insertOneAtATime_ids (batch : List Vehicle) :
    ∀ r : VehicleSlice, (r.insertOneAtATime batch).err = none →
      (r.insertOneAtATime batch).val.map (fun nv => nv.ID) =
        (List.range batch.length).map (fun (i : Nat) => r.lastId + 1 + (i : GoInt)) := by
  induction batch with
  | nil => intro r _; rfl
  | cons v rest ih =>
    intro r hok
    by_cases h : v.ID = r.lastId + 1
    · have herr : (r.Insert v).err = some .ErrRepositoryVehicleIdAlreadyExists := by
        rw [VehicleSlice.Insert_err, if_pos h]
      rw [VehicleSlice.insertOneAtATime] at hok
      simp [herr] at hok
    · have herr : (r.Insert v).err = none := by
        rw [VehicleSlice.Insert_err, if_neg h]
      obtain ⟨_, hid, _, _, hlast⟩ := VehicleSlice.Insert_success r v h
      rw [VehicleSlice.insertOneAtATime] at hok ⊢
      simp only [herr] at hok ⊢
      rw [List.map_cons, ih _ hok, hid, hlast, List.length_cons, List.range_succ_eq_map,
        List.map_cons, List.map_map]
      congr 1
      · simp
      · apply List.map_congr_left
        intro i _
        simp only [Function.comp, Nat.succ_eq_add_one]
        push_cast
        ring

/-- C9: store `InsertMany` does what store `Insert` does when applied to the
records one at a time in input order, stopping at the first failure: the same
final collection, the same final counter, the same error or success, and on
success the same returned records, whose ids are counter+1, counter+2, ... in
input order. -/
theorem VehicleSlice.InsertMany_eq_insertOneAtATime (r : VehicleSlice) (batch : List Vehicle) :
    (r.InsertMany batch).state.db = (r.insertOneAtATime batch).state.db ∧
    (r.InsertMany batch).state.lastId = (r.insertOneAtATime batch).state.lastId ∧
    (r.InsertMany batch).err = (r.insertOneAtATime batch).err ∧
    ((r.InsertMany batch).err = none →
      (r.InsertMany batch).val = (r.insertOneAtATime batch).val ∧
      (r.InsertMany batch).val.map (fun nv => nv.ID) =
        (List.range batch.length).map (fun (i : Nat) => r.lastId + 1 + (i : GoInt))) := by
  unfold VehicleSlice.InsertMany
  rw [VehicleSlice.InsertManyLoop_eq]
  refine ⟨rfl, rfl, rfl, fun hok => ⟨by simp, ?_⟩⟩
  simp only [List.nil_append]
  exact VehicleSlice.insertOneAtATime_ids batch r hok

/-- C9, at a concrete input: two records inserted into a store with one
record and counter 1 receive the ids 2 and 3. -/
theorem VehicleSlice.InsertMany_eq_insertOneAtATime_witness :
    ((NewVehicleSlice [red2020] 1).InsertMany [corolla, red2019]).val
      = ((NewVehicleSlice [red2020] 1).insertOneAtATime [corolla, red2019]).val ∧
    ((NewVehicleSlice [red2020] 1).InsertMany [corolla, red2019]).val.map (fun nv => nv.ID)
      = (List.range [corolla, red2019].length).map
          (fun (i : Nat) => (NewVehicleSlice [red2020] 1).lastId + 1 + (i : GoInt)) :=
  (VehicleSlice.InsertMany_eq_insertOneAtATime (NewVehicleSlice [red2020] 1)
    [corolla, red2019]).2.2.2 (by decide!)

theorem rangeAppendIf_eq (p : Vehicle → Bool) (vehicles : List Vehicle) :
    ∀ acc : List Vehicle, rangeAppendIf p acc vehicles = acc ++ vehicles.filter p := by
  induction vehicles with
  | nil => intro acc; simp [rangeAppendIf]
  | cons x rest ih =>
    intro acc
    rw [rangeAppendIf]
    by_cases hp : p x = true
    · rw [if_pos hp, ih, List.filter_cons_of_pos hp, List.append_assoc]; rfl
    · rw [if_neg hp, ih, List.filter_cons_of_neg hp]

theorem Default.FindAll_eq (sv : Default) :
    sv.FindAll =
      if sv.rp.db = [] then
        { state := sv, val := [],
          err := some (.Errorf .ErrServiceVehiclesNotFound .ErrRepositoryVehiclesNotFound) }
      else { state := sv, val := sv.rp.db, err := none } := by
  unfold Default.FindAll VehicleSlice.FindAll
  by_cases h : sv.rp.db = []
  · simp [h, errorsIs]
  · have hl : ¬ sv.rp.db.length = 0 := fun hl => h (List.length_eq_zero.1 hl)
    simp [h, hl]

theorem Default.FindAllByColorAndYear_eq (sv : Default) (c : String) (y : GoInt) :
    sv.FindAllByColorAndYear c y =
      if c = "" then { state := sv, val := [], err := some .ErrServiceInvalidVehicleColor }
      else if y < 1887 then
        { state := sv, val := [], err := some .ErrServiceInvalidVehicleYear }
      else if sv.rp.db = [] then
        { state := sv, val := [],
          err := some (.Errorf .ErrServiceVehiclesNotFound .ErrRepositoryVehiclesNotFound) }
      else if sv.rp.db.filter
          (fun vehicle => vehicle.Attributes.Color = c ∧ vehicle.Attributes.Year = y) = [] then
        { state := sv, val := [], err := some .ErrServiceVehiclesNotFound }
      else
        { state := sv,
          val := sv.rp.db.filter
            (fun vehicle => vehicle.Attributes.Color = c ∧ vehicle.Attributes.Year = y),
          err := none } := by
  unfold Default.FindAllByColorAndYear
  by_cases hc : c = ""
  · rw [if_pos hc, if_pos hc]
  rw [if_neg hc, if_neg hc]
  by_cases hy : y < 1887
  · rw [if_pos hy, if_pos hy]
  rw [if_neg hy, if_neg hy, Default.FindAll_eq]
  by_cases hdb : sv.rp.db = []
  · simp [hdb, errorsIs]
  · rw [if_neg hdb, if_neg hdb]
    simp only [rangeAppendIf_eq, List.nil_append, List.length_eq_zero]

/-- C10: for a non-empty color and a year of at least 1887, a successful
`FindAllByColorAndYear` returns exactly the records of the store with that
color and that year: the store's collection filtered by the two equalities,
so every returned record has both, no such record of the store is left out,
each comes as often as the store holds it, and they are in store order. -/
theorem Default.FindAllByColorAndYear_exact (sv : Default) (c : String) (y : GoInt)
    (hc : c ≠ "") (hy : y ≥ 1887) (hok : (sv.FindAllByColorAndYear c y).err = none) :
    (sv.FindAllByColorAndYear c y).val =
      sv.rp.db.filter (fun v => v.Attributes.Color = c ∧ v.Attributes.Year = y) ∧
    (∀ v ∈ (sv.FindAllByColorAndYear c y).val,
      v ∈ sv.rp.db ∧ v.Attributes.Color = c ∧ v.Attributes.Year = y) ∧
    (∀ v ∈ sv.rp.db, v.Attributes.Color = c → v.Attributes.Year = y →
      v ∈ (sv.FindAllByColorAndYear c y).val) ∧
    (∀ v, v.Attributes.Color = c → v.Attributes.Year = y →
      (sv.FindAllByColorAndYear c y).val.count v = sv.rp.db.count v) ∧
    (sv.FindAllByColorAndYear c y).val.Sublist sv.rp.db := by
  have hy1 : ¬ y < 1887 := not_lt.2 hy
  have hval : (sv.FindAllByColorAndYear c y).val =
      sv.rp.db.filter (fun v => v.Attributes.Color = c ∧ v.Attributes.Year = y) := by
    rw [Default.FindAllByColorAndYear_eq, if_neg hc, if_neg hy1] at hok ⊢
    by_cases hdb : sv.rp.db = []
    · rw [if_pos hdb] at hok; cases hok
    rw [if_neg hdb] at hok ⊢
    by_cases hf : sv.rp.db.filter
        (fun vehicle => vehicle.Attributes.Color = c ∧ vehicle.Attributes.Year = y) = []
    · rw [if_pos hf] at hok; cases hok
    rw [if_neg hf]
  rw [hval]
  refine ⟨rfl, ?_, ?_, ?_, List.filter_sublist _⟩
  · intro v hv
    have := List.mem_filter.1 hv
    simpa using this
  · intro v hv h1 h2
    exact List.mem_filter.2 ⟨hv, by simp [h1, h2]⟩
  · intro v h1 h2
    rw [List.count_filter]
    simp [h1, h2]

/-- C10, at a concrete input: on a store holding one red-2020 and one
red-2019 record, the query for red and 2020 returns exactly the red-2020
record. -/
theorem Default.FindAllByColorAndYear_exact_witness :
    ((NewDefault (NewVehicleSlice [red2020, red2019] 2)).FindAllByColorAndYear "red" 2020).val
      = [red2020] ∧
    ((NewDefault (NewVehicleSlice [red2020, red2019] 2)).FindAllByColorAndYear "red" 2020).val
      = (NewDefault (NewVehicleSlice [red2020, red2019] 2)).rp.db.filter
          (fun v => v.Attributes.Color = "red" ∧ v.Attributes.Year = 2020) :=
  ⟨by decide!,
    (Default.FindAllByColorAndYear_exact (NewDefault (NewVehicleSlice [red2020, red2019] 2))
      "red" 2020 (by decide!) (by decide!) (by decide!)).1⟩

/-! ### Effect of each repository call on the collection and the counter -/

theorem VehicleSlice.Insert_state (r : VehicleSlice) (v : Vehicle) :
    (r.Insert v).state =
      if v.ID = r.lastId + 1 then r
      else { db := r.db ++ [{ v with ID := r.lastId + 1 }], lastId := r.lastId + 1 } := by
  by_cases h : v.ID = r.lastId + 1
  · rw [if_pos h, VehicleSlice.Insert_state_of_collision r v h]
  · rw [if_neg h]
    unfold VehicleSlice.Insert
    simp [if_neg h]

theorem VehicleSlice.InsertMany_state (r : VehicleSlice) (batch : List Vehicle) :
    (r.InsertMany batch).state = (r.insertOneAtATime batch).state := by
  unfold VehicleSlice.InsertMany
  rw [VehicleSlice.InsertManyLoop_eq]

theorem VehicleSlice.insertOneAtATime_induction (P : VehicleSlice → Prop)
    (batch : List Vehicle)
    (step : ∀ (r : VehicleSlice) (v : Vehicle), v ∈ batch → P r → P (r.Insert v).state) :
    ∀ r : VehicleSlice, P r → P (r.insertOneAtATime batch).state := by
  induction batch with
  | nil => intro r h; exact h
  | cons v rest ih =>
    intro r h
    have hv := step r v (List.mem_cons_self _ _) h
    rw [VehicleSlice.insertOneAtATime]
    cases herr : (r.Insert v).err with
    | some e => exact hv
    | none => exact ih (fun r1 w hw => step r1 w (List.mem_cons_of_mem _ hw)) _ hv

theorem updateFirstById_map {β : Type} (f : Vehicle → β) (id : GoInt) (set : Vehicle → Vehicle)
    (hf : ∀ x, f (set x) = f x) (l : List Vehicle) :
    ∀ (l1 : List Vehicle) (uv : Vehicle), updateFirstById id set l = some (l1, uv) →
      l1.map f = l.map f := by
  induction l with
  | nil => intro l1 uv h; simp [updateFirstById] at h
  | cons x rest ih =>
    intro l1 uv h
    rw [updateFirstById] at h
    by_cases hx : x.ID = id
    · rw [if_pos hx] at h
      cases h
      simp [hf]
    · rw [if_neg hx] at h
      cases hrec : updateFirstById id set rest with
      | none => rw [hrec] at h; cases h
      | some pr =>
        obtain ⟨rest1, uv1⟩ := pr
        rw [hrec] at h
        cases h
        simp [ih _ _ hrec]

theorem updateFirstById_forall (P : Vehicle → Prop) (id : GoInt) (set : Vehicle → Vehicle)
    (hP : ∀ x, P x → P (set x)) (l : List Vehicle) :
    ∀ (l1 : List Vehicle) (uv : Vehicle), updateFirstById id set l = some (l1, uv) →
      (∀ x ∈ l, P x) → ∀ x ∈ l1, P x := by
  induction l with
  | nil => intro l1 uv h; simp [updateFirstById] at h
  | cons x rest ih =>
    intro l1 uv h hall
    rw [updateFirstById] at h
    by_cases hx : x.ID = id
    · rw [if_pos hx] at h
      cases h
      intro y hy
      rcases List.mem_cons.1 hy with rfl | hy
      · exact hP x (hall x (List.mem_cons_self _ _))
      · exact hall y (List.mem_cons_of_mem _ hy)
    · rw [if_neg hx] at h
      cases hrec : updateFirstById id set rest with
      | none => rw [hrec] at h; cases h
      | some pr =>
        obtain ⟨rest1, uv1⟩ := pr
        rw [hrec] at h
        cases h
        intro y hy
        rcases List.mem_cons.1 hy with rfl | hy
        · exact hall y (List.mem_cons_self _ _)
        · exact ih _ _ hrec (fun z hz => hall z (List.mem_cons_of_mem _ hz)) y hy

theorem VehicleSlice.Delete_state (r : VehicleSlice) (id : GoInt) :
    (r.Delete id).state.lastId = r.lastId ∧ (r.Delete id).state.db.Sublist r.db := by
  unfold VehicleSlice.Delete
  cases h : indexById id r.db with
  | none => exact ⟨rfl, List.Sublist.refl _⟩
  | some index =>
    refine ⟨rfl, ?_⟩
    show (r.db.take index ++ r.db.drop (index + 1)).Sublist r.db
    rw [← List.eraseIdx_eq_take_drop_succ]
    exact List.eraseIdx_sublist _ _

theorem VehicleSlice.UpdateMaxSpeedById_state (r : VehicleSlice) (id ms : GoInt) :
    (r.UpdateMaxSpeedById id ms).state.lastId = r.lastId ∧
    (r.UpdateMaxSpeedById id ms).state.db.map (fun v => v.ID) = r.db.map (fun v => v.ID) := by
  unfold VehicleSlice.UpdateMaxSpeedById
  cases h : updateFirstById id
      (fun x => { x with Attributes := { x.Attributes with MaxSpeed := ms } }) r.db with
  | none => exact ⟨rfl, rfl⟩
  | some pr =>
    obtain ⟨db1, uv⟩ := pr
    refine ⟨rfl, updateFirstById_map (fun v => v.ID) id _ ?_ r.db db1 uv h⟩
    intro x
    rfl

theorem VehicleSlice.UpdateFuelTypeById_state (r : VehicleSlice) (id : GoInt) (ft : String) :
    (r.UpdateFuelTypeById id ft).state.lastId = r.lastId ∧
    (r.UpdateFuelTypeById id ft).state.db.map (fun v => v.ID) = r.db.map (fun v => v.ID) := by
  unfold VehicleSlice.UpdateFuelTypeById
  cases h : updateFirstById id
      (fun x => { x with Attributes := { x.Attributes with FuelType := ft } }) r.db with
  | none => exact ⟨rfl, rfl⟩
  | some pr =>
    obtain ⟨db1, uv⟩ := pr
    refine ⟨rfl, updateFirstById_map (fun v => v.ID) id _ ?_ r.db db1 uv h⟩
    intro x
    rfl

theorem VehicleSlice.store_FindAll_state (r : VehicleSlice) : r.FindAll.state = r := by
  unfold VehicleSlice.FindAll
  split_ifs <;> rfl

theorem VehicleSlice.UniqueIds_iff (r : VehicleSlice) :
    r.UniqueIds ↔
      (r.db.map (fun v => v.ID)).Pairwise (fun a b => a ≠ b) ∧
      ∀ i ∈ r.db.map (fun v => v.ID), i ≤ r.lastId := by
  unfold VehicleSlice.UniqueIds
  rw [List.pairwise_map]
  simp

theorem GoInt.toInt_succ (a : GoInt) (h : a.toInt < 9223372036854775807) :
    (a + 1).toInt = a.toInt + 1 := by
  have := a.lo
  rw [GoInt.toInt_add, GoInt.toInt_one]
  omega

theorem GoInt.toInt_add_natCast (a : GoInt) (n : ℕ)
    (h : a.toInt + (n : Int) ≤ 9223372036854775807) :
    (a + (n : GoInt)).toInt = a.toInt + (n : Int) := by
  have := a.lo
  rw [GoInt.toInt_add, GoInt.toInt_natCast]
  omega

theorem VehicleSlice.Insert_UniqueIds (r : VehicleSlice) (v : Vehicle) (h : r.UniqueIds)
    (hmax : r.lastId.toInt < 9223372036854775807) :
    (r.Insert v).state.UniqueIds := by
  have hs := GoInt.toInt_succ r.lastId hmax
  rw [VehicleSlice.Insert_state]
  split_ifs with hid
  · exact h
  · obtain ⟨hp, hb⟩ := h
    refine ⟨List.pairwise_append.2 ⟨hp, List.pairwise_singleton _ _, ?_⟩, ?_⟩
    · intro a ha b hb1
      rw [List.mem_singleton.1 hb1]
      have := GoInt.le_iff.1 (hb a ha)
      show a.ID ≠ r.lastId + 1
      intro hc
      rw [hc, hs] at this
      omega
    · intro x hx
      rcases List.mem_append.1 hx with hx | hx
      · have := GoInt.le_iff.1 (hb x hx)
        show x.ID ≤ r.lastId + 1
        rw [GoInt.le_iff, hs]
        omega
      · rw [List.mem_singleton.1 hx]

theorem VehicleSlice.Insert_lastId_bounds (r : VehicleSlice) (v : Vehicle)
    (hmax : r.lastId.toInt < 9223372036854775807) :
    r.lastId.toInt ≤ (r.Insert v).state.lastId.toInt ∧
    (r.Insert v).state.lastId.toInt ≤ r.lastId.toInt + 1 := by
  have hs := GoInt.toInt_succ r.lastId hmax
  rw [VehicleSlice.Insert_state]
  split_ifs
  · constructor <;> omega
  · show r.lastId.toInt ≤ (r.lastId + 1).toInt ∧ (r.lastId + 1).toInt ≤ r.lastId.toInt + 1
    rw [hs]
    constructor <;> omega

theorem VehicleSlice.insertOneAtATime_bounded (P : VehicleSlice → Prop)
    (batch : List Vehicle)
    (step : ∀ (r : VehicleSlice) (v : Vehicle), r.lastId.toInt < 9223372036854775807 →
      P r → P (r.Insert v).state) :
    ∀ r : VehicleSlice, r.lastId.toInt + (batch.length : Int) ≤ 9223372036854775807 → P r →
      P (r.insertOneAtATime batch).state ∧
      r.lastId.toInt ≤ (r.insertOneAtATime batch).state.lastId.toInt ∧
      (r.insertOneAtATime batch).state.lastId.toInt ≤ r.lastId.toInt + (batch.length : Int) := by
  induction batch with
  | nil =>
    intro r _ h
    exact ⟨h, le_refl _, by simp [VehicleSlice.insertOneAtATime]⟩
  | cons v rest ih =>
    intro r hb h
    rw [List.length_cons] at hb ⊢
    push_cast at hb ⊢
    have hmax : r.lastId.toInt < 9223372036854775807 := by omega
    have hv := step r v hmax h
    obtain ⟨b1, b2⟩ := VehicleSlice.Insert_lastId_bounds r v hmax
    rw [VehicleSlice.insertOneAtATime]
    cases herr : (r.Insert v).err with
    | some e =>
      show P (r.Insert v).state ∧ r.lastId.toInt ≤ (r.Insert v).state.lastId.toInt ∧
        (r.Insert v).state.lastId.toInt ≤ r.lastId.toInt + ((rest.length : Int) + 1)
      exact ⟨hv, b1, by omega⟩
    | none =>
      obtain ⟨i1, i2, i3⟩ := ih (r.Insert v).state (by omega) hv
      show P ((r.Insert v).state.insertOneAtATime rest).state ∧
        r.lastId.toInt ≤ ((r.Insert v).state.insertOneAtATime rest).state.lastId.toInt ∧
        ((r.Insert v).state.insertOneAtATime rest).state.lastId.toInt
          ≤ r.lastId.toInt + ((rest.length : Int) + 1)
      exact ⟨i1, by omega, by omega⟩

theorem VehicleSlice.call_bounded (r : VehicleSlice) (c : RepositoryCall)
    (hb : r.lastId.toInt + (c.inserts : Int) ≤ 9223372036854775807) :
    (r.UniqueIds → (r.call c).UniqueIds) ∧
    r.lastId.toInt ≤ (r.call c).lastId.toInt ∧
    (r.call c).lastId.toInt ≤ r.lastId.toInt + (c.inserts : Int) := by
  cases c with
  | FindAll =>
    rw [VehicleSlice.call, VehicleSlice.store_FindAll_state]
    exact ⟨id, le_refl _, by simp [RepositoryCall.inserts]⟩
  | Insert v =>
    have hmax : r.lastId.toInt < 9223372036854775807 := by
      simp only [RepositoryCall.inserts] at hb
      omega
    obtain ⟨b1, b2⟩ := VehicleSlice.Insert_lastId_bounds r v hmax
    exact ⟨fun h => VehicleSlice.Insert_UniqueIds r v h hmax, b1,
      by simpa [RepositoryCall.inserts] using b2⟩
  | InsertMany batch =>
    rw [VehicleSlice.call, VehicleSlice.InsertMany_state]
    obtain ⟨_, b1, b2⟩ := VehicleSlice.insertOneAtATime_bounded (fun _ => True) batch
      (fun _ _ _ _ => trivial) r hb trivial
    refine ⟨fun h => ?_, b1, b2⟩
    exact (VehicleSlice.insertOneAtATime_bounded _ batch
      (fun r1 v hm h1 => VehicleSlice.Insert_UniqueIds r1 v h1 hm) r hb h).1
  | UpdateMaxSpeedById id ms =>
    obtain ⟨h1, h2⟩ := VehicleSlice.UpdateMaxSpeedById_state r id ms
    refine ⟨fun h => ?_, ?_, ?_⟩
    · rw [VehicleSlice.call, VehicleSlice.UniqueIds_iff, h1, h2]
      exact (VehicleSlice.UniqueIds_iff r).1 h
    · rw [VehicleSlice.call, h1]
    · rw [VehicleSlice.call, h1]; simp [RepositoryCall.inserts]
  | Delete id =>
    obtain ⟨h1, h2⟩ := VehicleSlice.Delete_state r id
    refine ⟨fun h => ⟨h.1.sublist h2, fun x hx => ?_⟩, ?_, ?_⟩
    · show x.ID ≤ (r.Delete id).state.lastId
      rw [h1]
      exact h.2 x (h2.subset hx)
    · rw [VehicleSlice.call, h1]
    · rw [VehicleSlice.call, h1]; simp [RepositoryCall.inserts]
  | UpdateFuelTypeById id ft =>
    obtain ⟨h1, h2⟩ := VehicleSlice.UpdateFuelTypeById_state r id ft
    refine ⟨fun h => ?_, ?_, ?_⟩
    · rw [VehicleSlice.call, VehicleSlice.UniqueIds_iff, h1, h2]
      exact (VehicleSlice.UniqueIds_iff r).1 h
    · rw [VehicleSlice.call, h1]
    · rw [VehicleSlice.call, h1]; simp [RepositoryCall.inserts]

theorem VehicleSlice.calls_bounded (cs : List RepositoryCall) :
    ∀ r : VehicleSlice, r.lastId.toInt + (insertsOffered cs : Int) ≤ 9223372036854775807 →
      (r.UniqueIds → (r.calls cs).UniqueIds) ∧
      r.lastId.toInt ≤ (r.calls cs).lastId.toInt ∧
      (r.calls cs).lastId.toInt ≤ r.lastId.toInt + (insertsOffered cs : Int) := by
  induction cs with
  | nil =>
    intro r _
    exact ⟨id, le_refl _, by simp [VehicleSlice.calls, insertsOffered]⟩
  | cons c cs ih =>
    intro r hb
    rw [insertsOffered] at hb ⊢
    push_cast at hb ⊢
    obtain ⟨c1, c2, c3⟩ := VehicleSlice.call_bounded r c (by omega)
    obtain ⟨i1, i2, i3⟩ := ih (r.call c) (by omega)
    rw [VehicleSlice.calls]
    exact ⟨fun h => i1 (c1 h), by omega, by omega⟩

/-- C4, as amended: from a store whose record ids are pairwise distinct and
none greater than the counter, every sequence of `Insert`, `InsertMany`,
`UpdateMaxSpeedById`, `UpdateFuelTypeById` and `Delete` (and `FindAll`) that
does not take the counter past the greatest `int` (the counter plus the number
of records offered for insertion is at most `2^63 - 1`) leads to a store
whose record ids are pairwise distinct and none greater than the counter. -/
theorem VehicleSlice.calls_UniqueIds (r : VehicleSlice) (cs : List RepositoryCall)
    (h : r.UniqueIds)
    (hno : r.lastId.toInt + (insertsOffered cs : Int) ≤ 9223372036854775807) :
    (r.calls cs).UniqueIds :=
  (VehicleSlice.calls_bounded cs r hno).1 h

/-- C4, the claim as stated fails when the counter is the greatest `int`: the
store's one record has the least id, which is distinct and not greater than
the counter; `Insert` increments the counter, which wraps around to the least
`int`, and stores a second record with that id. -/
theorem VehicleSlice.Insert_at_MaxInt64_duplicates_id :
    counterAtMax.UniqueIds ∧
    ¬ (counterAtMax.calls [.Insert corolla]).UniqueIds ∧
    (counterAtMax.Insert corolla).err = none ∧
    (counterAtMax.calls [.Insert corolla]).db.map (fun v => v.ID)
      = [GoInt.MinInt64, GoInt.MinInt64] := by
  decide!

/-- C4, at a concrete input: a run of five calls from a store of two
records. -/
theorem VehicleSlice.calls_UniqueIds_witness :
    (NewVehicleSlice [red2020, red2019] 2).UniqueIds ∧
    ((NewVehicleSlice [red2020, red2019] 2).calls
      [.Insert corolla, .Delete 1, .InsertMany [corolla, year1800],
        .UpdateMaxSpeedById 2 100, .UpdateFuelTypeById 3 "gas"]).UniqueIds :=
  ⟨by decide!,
    VehicleSlice.calls_UniqueIds (NewVehicleSlice [red2020, red2019] 2)
      [.Insert corolla, .Delete 1, .InsertMany [corolla, year1800],
        .UpdateMaxSpeedById 2 100, .UpdateFuelTypeById 3 "gas"] (by decide!) (by decide!)⟩

/-! ### The counter never goes down, and returned ids lie above it -/

theorem VehicleSlice.insertOneAtATime_lastId (batch : List Vehicle) :
    ∀ r : VehicleSlice, (r.insertOneAtATime batch).err = none →
      (r.insertOneAtATime batch).state.lastId = r.lastId + (batch.length : GoInt) := by
  induction batch with
  | nil => intro r _; simp [VehicleSlice.insertOneAtATime]
  | cons v rest ih =>
    intro r hok
    by_cases h : v.ID = r.lastId + 1
    · have herr : (r.Insert v).err = some .ErrRepositoryVehicleIdAlreadyExists := by
        rw [VehicleSlice.Insert_err, if_pos h]
      rw [VehicleSlice.insertOneAtATime] at hok
      simp [herr] at hok
    · have herr : (r.Insert v).err = none := by
        rw [VehicleSlice.Insert_err, if_neg h]
      obtain ⟨_, _, _, _, hlast⟩ := VehicleSlice.Insert_success r v h
      rw [VehicleSlice.insertOneAtATime] at hok ⊢
      simp only [herr] at hok ⊢
      rw [ih _ hok, hlast, List.length_cons]
      push_cast
      ring

theorem VehicleSlice.InsertMany_ids (r : VehicleSlice) (batch : List Vehicle)
    (hok : (r.InsertMany batch).err = none) :
    (r.InsertMany batch).val.map (fun nv => nv.ID) =
      (List.range batch.length).map (fun (i : Nat) => r.lastId + 1 + (i : GoInt)) ∧
    (r.InsertMany batch).state.lastId = r.lastId + (batch.length : GoInt) := by
  unfold VehicleSlice.InsertMany at hok ⊢
  rw [VehicleSlice.InsertManyLoop_eq] at hok ⊢
  simp only [List.nil_append]
  exact ⟨VehicleSlice.insertOneAtATime_ids batch r hok,
    VehicleSlice.insertOneAtATime_lastId batch r hok⟩

theorem VehicleSlice.returnedIds_bounds (r : VehicleSlice) (c : RepositoryCall)
    (hb : r.lastId.toInt + (c.inserts : Int) ≤ 9223372036854775807) :
    (r.returnedIds c).Pairwise (fun a b => a < b) ∧
    ∀ i ∈ r.returnedIds c, r.lastId < i ∧ i ≤ (r.call c).lastId := by
  cases c with
  | Insert v =>
    have hmax : r.lastId.toInt < 9223372036854775807 := by
      simp only [RepositoryCall.inserts] at hb
      omega
    have hs := GoInt.toInt_succ r.lastId hmax
    simp only [VehicleSlice.returnedIds, VehicleSlice.call]
    by_cases h : v.ID = r.lastId + 1
    · have herr : (r.Insert v).err ≠ none := by
        rw [VehicleSlice.Insert_err, if_pos h]; simp
      rw [if_neg herr]
      simp
    · obtain ⟨herr, hid, _, _, hlast⟩ := VehicleSlice.Insert_success r v h
      rw [if_pos herr, hid, hlast]
      refine ⟨List.pairwise_singleton _ _, fun i hi => ?_⟩
      rw [List.mem_singleton.1 hi]
      refine ⟨?_, le_refl _⟩
      rw [GoInt.lt_iff, hs]
      omega
  | InsertMany batch =>
    simp only [RepositoryCall.inserts] at hb
    have hid : ∀ k : Nat, k < batch.length →
        (r.lastId + 1 + (k : GoInt)).toInt = r.lastId.toInt + 1 + (k : Int) := by
      intro k hk
      have e : r.lastId + 1 + (k : GoInt) = r.lastId + ((k + 1 : Nat) : GoInt) := by
        push_cast; ring
      rw [e, GoInt.toInt_add_natCast _ _ (by push_cast; omega)]
      push_cast
      ring
    simp only [VehicleSlice.returnedIds, VehicleSlice.call]
    by_cases hok : (r.InsertMany batch).err = none
    · obtain ⟨hids, hlast⟩ := VehicleSlice.InsertMany_ids r batch hok
      rw [if_pos hok, hids, hlast]
      constructor
      · rw [List.pairwise_map]
        refine (List.Pairwise.and_mem.1 (List.pairwise_lt_range batch.length)).imp ?_
        rintro a b ⟨ha, hb1, hab⟩
        rw [GoInt.lt_iff, hid a (List.mem_range.1 ha), hid b (List.mem_range.1 hb1)]
        omega
      · intro i hi
        obtain ⟨k, hk, rfl⟩ := List.mem_map.1 hi
        have hk1 := List.mem_range.1 hk
        rw [GoInt.lt_iff, GoInt.le_iff, hid k hk1, GoInt.toInt_add_natCast _ _ hb]
        constructor <;> omega
    · rw [if_neg hok]
      simp
  | FindAll => simp [VehicleSlice.returnedIds]
  | UpdateMaxSpeedById id ms => simp [VehicleSlice.returnedIds]
  | Delete id => simp [VehicleSlice.returnedIds]
  | UpdateFuelTypeById id ft => simp [VehicleSlice.returnedIds]

theorem VehicleSlice.idsReturned_increasing (cs : List RepositoryCall) :
    ∀ r : VehicleSlice, r.lastId.toInt + (insertsOffered cs : Int) ≤ 9223372036854775807 →
      (r.idsReturned cs).Pairwise (fun a b => a < b) ∧
      ∀ i ∈ r.idsReturned cs, r.lastId < i := by
  induction cs with
  | nil => intro r _; simp [VehicleSlice.idsReturned]
  | cons c cs ih =>
    intro r hno
    rw [insertsOffered] at hno
    push_cast at hno
    obtain ⟨hp, hb⟩ := VehicleSlice.returnedIds_bounds r c (by omega)
    obtain ⟨_, c2, c3⟩ := VehicleSlice.call_bounded r c (by omega)
    obtain ⟨ihp, ihb⟩ := ih (r.call c) (by omega)
    rw [VehicleSlice.idsReturned]
    constructor
    · refine List.pairwise_append.2 ⟨hp, ihp, ?_⟩
      intro a ha b hb1
      exact lt_of_le_of_lt (hb a ha).2 (ihb b hb1)
    · intro i hi
      rcases List.mem_append.1 hi with hi | hi
      · exact (hb i hi).1
      · exact lt_of_le_of_lt (GoInt.le_iff.2 c2) (ihb i hi)

/-- C5, as amended: along every sequence of store calls that does not take
the counter past the greatest `int` (the counter plus the number of records
offered for insertion is at most `2^63 - 1`), from every store, the ids that
successful `Insert` and `InsertMany` calls return are strictly increasing in
the order they are returned, and all lie above the initial counter, deletions
or not; and from the empty store with counter 0, two successful inserts get
ids 1 and 2 and, after `Delete(1)`, the next successful insert gets id 3. -/
theorem VehicleSlice.returned_ids_never_reused :
    (∀ (r : VehicleSlice) (cs : List RepositoryCall),
      r.lastId.toInt + (insertsOffered cs : Int) ≤ 9223372036854775807 →
      (r.idsReturned cs).Pairwise (fun earlier later => earlier < later) ∧
      ∀ i ∈ r.idsReturned cs, r.lastId < i) ∧
    (∀ a b c : Vehicle, a.ID ≠ 1 → b.ID ≠ 2 → c.ID ≠ 3 →
      (NewVehicleSlice [] 0).idsReturned [.Insert a, .Insert b, .Delete 1, .Insert c]
        = [1, 2, 3] ∧
      ((NewVehicleSlice [] 0).calls [.Insert a, .Insert b]).db.map (fun v => v.ID) = [1, 2] ∧
      ((NewVehicleSlice [] 0).calls [.Insert a, .Insert b, .Delete 1, .Insert c]).db.map
        (fun v => v.ID) = [2, 3]) := by
  refine ⟨fun r cs hno => VehicleSlice.idsReturned_increasing cs r hno, ?_⟩
  intro a b c ha hb hc
  have e1 : (0 : GoInt) + 1 = 1 := by norm_num
  have e2 : (1 : GoInt) + 1 = 2 := by norm_num
  have e3 : (2 : GoInt) + 1 = 3 := by norm_num
  have n12 : (1 : GoInt) ≠ 2 := by decide!
  have n21 : (2 : GoInt) ≠ 1 := by decide!
  simp [VehicleSlice.idsReturned, VehicleSlice.returnedIds, VehicleSlice.calls,
    VehicleSlice.call, VehicleSlice.Insert, VehicleSlice.Delete, indexById, NewVehicleSlice,
    ha, hb, hc, e1, e2, e3, n12, n21]

/-- C5, the claim as stated fails when the counter reaches the greatest
`int`: from the counter `2^63 - 2` two successful inserts return the greatest
`int` and then the least, which is not greater than the id returned before
it. -/
theorem VehicleSlice.returned_ids_wrap_around :
    (NewVehicleSlice [] (GoInt.MaxInt64 - 1)).idsReturned [.Insert corolla, .Insert corolla]
      = [GoInt.MaxInt64, GoInt.MinInt64] ∧
    ¬ ((NewVehicleSlice [] (GoInt.MaxInt64 - 1)).idsReturned
      [.Insert corolla, .Insert corolla]).Pairwise (fun earlier later => earlier < later) := by
  decide!

/-- C5, at a concrete input: three Corollas inserted around a deletion. -/
theorem VehicleSlice.returned_ids_never_reused_witness :
    (NewVehicleSlice [] 0).idsReturned
      [.Insert corolla, .Insert corolla, .Delete 1, .Insert corolla] = [1, 2, 3] ∧
    ((NewVehicleSlice [] 0).idsReturned
      [.Insert corolla, .Insert corolla, .Delete 1, .Insert corolla]).Pairwise
        (fun earlier later => earlier < later) :=
  ⟨(VehicleSlice.returned_ids_never_reused.2 corolla corolla corolla
      (by decide!) (by decide!) (by decide!)).1,
    (VehicleSlice.returned_ids_never_reused.1 (NewVehicleSlice [] 0)
      [.Insert corolla, .Insert corolla, .Delete 1, .Insert corolla] (by decide!)).1⟩

/-! ### Reads leave the service as it is -/

theorem Default.FindAll_state (sv : Default) : sv.FindAll.state = sv := by
  rw [Default.FindAll_eq]
  split_ifs <;> rfl

theorem Default.FindAllByColorAndYear_state (sv : Default) (c : String) (y : GoInt) :
    (sv.FindAllByColorAndYear c y).state = sv := by
  rw [Default.FindAllByColorAndYear_eq]
  split_ifs <;> rfl

theorem Default.FindAllByBrandAndBetweenYears_state (sv : Default) (b : String) (sy ey : GoInt) :
    (sv.FindAllByBrandAndBetweenYears b sy ey).state = sv := by
  unfold Default.FindAllByBrandAndBetweenYears
  rw [Default.FindAll_eq]
  split_ifs <;> simp only [] <;> split_ifs <;> rfl

theorem Default.FindAllByFuelType_state (sv : Default) (ft : String) :
    (sv.FindAllByFuelType ft).state = sv := by
  unfold Default.FindAllByFuelType
  rw [Default.FindAll_eq]
  split_ifs <;> simp only [] <;> split_ifs <;> rfl

theorem Default.FindAllByTransmission_state (sv : Default) (t : String) :
    (sv.FindAllByTransmission t).state = sv := by
  unfold Default.FindAllByTransmission
  rw [Default.FindAll_eq]
  split_ifs <;> simp only [] <;> split_ifs <;> rfl

theorem Default.FindAllByDimensions_state (sv : Default) (minH maxH minW maxW : Float64) :
    (sv.FindAllByDimensions minH maxH minW maxW).state = sv := by
  unfold Default.FindAllByDimensions
  rw [Default.FindAll_eq]
  split_ifs <;> simp only [] <;> split_ifs <;> rfl

theorem Default.FindAllByWeight_state (sv : Default) (minW maxW : Float64) :
    (sv.FindAllByWeight minW maxW).state = sv := by
  unfold Default.FindAllByWeight
  rw [Default.FindAll_eq]
  split_ifs <;> simp only [] <;> split_ifs <;> rfl

theorem Default.CalculateAverageSpeedByBrand_state (sv : Default) (b : String) :
    (sv.CalculateAverageSpeedByBrand b).state = sv := by
  unfold Default.CalculateAverageSpeedByBrand
  rw [Default.FindAll_eq]
  split_ifs <;> simp only [] <;> split_ifs <;> rfl

theorem Default.CalculateAverageCapacityByBrand_state (sv : Default) (b : String) :
    (sv.CalculateAverageCapacityByBrand b).state = sv := by
  unfold Default.CalculateAverageCapacityByBrand
  rw [Default.FindAll_eq]
  split_ifs <;> simp only [] <;> split_ifs <;> rfl

/-! ### Validity of the stored records -/

theorem Vehicle.Valid_iff (v : Vehicle) : v.Valid ↔ firstViolation v = none := by
  rw [firstViolation_eq_none_iff]
  unfold Vehicle.Valid fieldRules
  simp only [List.forall_mem_cons, List.not_mem_nil, false_implies, implies_true, and_true,
    decide_eq_true_eq, ge_iff_le, ne_eq, decide_not, Bool.not_eq_true', decide_eq_false_iff_not]
  tauto

theorem Vehicle.Valid_of_attributes (v w : Vehicle) (h : w.Attributes = v.Attributes)
    (hv : v.Valid) : w.Valid := by
  unfold Vehicle.Valid at hv ⊢
  rw [h]
  exact hv

theorem fuelType_accepted (ft : String)
    (h : ¬ (ft = "" ∨ (ft ≠ "gasoline" ∧ ft ≠ "gas" ∧ ft ≠ "diesel" ∧ ft ≠ "biodiesel"))) :
    ft ∈ ["gasoline", "gas", "diesel", "biodiesel"] := by
  simp only [List.mem_cons, List.mem_singleton, List.mem_nil_iff, or_false]
  by_contra hc
  exact h (Or.inr ⟨fun e => hc (by simp [e]), fun e => hc (by simp [e]),
    fun e => hc (by simp [e]), fun e => hc (by simp [e])⟩)

theorem Default.Insert_AllValid (sv : Default) (v : Vehicle) (h : sv.AllValid)
    (hnum : v.NoNaN) : (sv.Insert v).state.AllValid := by
  cases hfv : firstViolation v with
  | some e =>
    rw [Default.Insert_of_violation sv v e (by rw [← firstViolation_eq v hnum]; exact hfv)]
    exact h
  | none =>
    have hst : (sv.Insert v).state.rp = (sv.rp.Insert v).state := by
      rw [Default.Insert_of_valid sv v (Default.InsertChecks_of_firstViolation v hfv)]
      cases (sv.rp.Insert v).err with
      | none => rfl
      | some e => simp only []; split_ifs <;> rfl
    unfold Default.AllValid
    rw [hst, VehicleSlice.Insert_state]
    split_ifs
    · exact h
    · intro x hx
      rcases List.mem_append.1 hx with hx | hx
      · exact h x hx
      · rw [List.mem_singleton.1 hx]
        exact Vehicle.Valid_of_attributes v _ rfl ((Vehicle.Valid_iff v).2 hfv)

theorem Default.InsertMany_AllValid (sv : Default) (batch : List Vehicle) (h : sv.AllValid)
    (hnum : ∀ v ∈ batch, v.NoNaN) : (sv.InsertMany batch).state.AllValid := by
  unfold Default.InsertMany
  cases hchk : Default.InsertManyChecks batch with
  | some e => exact h
  | none =>
    have hall := (Default.InsertManyChecks_eq_none batch).1 hchk
    have hst : ∀ x ∈ (sv.rp.InsertMany batch).state.db, x.Valid := by
      rw [VehicleSlice.InsertMany_state]
      refine VehicleSlice.insertOneAtATime_induction (fun r => ∀ x ∈ r.db, x.Valid) batch ?_
        sv.rp h
      intro r v hv hr
      rw [VehicleSlice.Insert_state]
      split_ifs
      · exact hr
      · intro x hx
        rcases List.mem_append.1 hx with hx | hx
        · exact hr x hx
        · rw [List.mem_singleton.1 hx]
          exact Vehicle.Valid_of_attributes v _ rfl
            ((Vehicle.Valid_iff v).2 (by rw [firstViolation_eq v (hnum v hv)]; exact hall v hv))
    simp only []
    cases (sv.rp.InsertMany batch).err with
    | none => exact hst
    | some e => simp only []; split_ifs <;> exact hst

theorem Default.UpdateMaxSpeedById_AllValid (sv : Default) (id ms : GoInt) (h : sv.AllValid) :
    (sv.UpdateMaxSpeedById id ms).state.AllValid := by
  unfold Default.UpdateMaxSpeedById
  by_cases hms : ms < 1 ∨ ms > 999
  · rw [if_pos hms]; exact h
  rw [if_neg hms]
  have hst : ∀ x ∈ (sv.rp.UpdateMaxSpeedById id ms).state.db, x.Valid := by
    unfold VehicleSlice.UpdateMaxSpeedById
    cases hup : updateFirstById id
        (fun x => { x with Attributes := { x.Attributes with MaxSpeed := ms } }) sv.rp.db with
    | none => exact h
    | some pr =>
      obtain ⟨db1, uv⟩ := pr
      refine updateFirstById_forall Vehicle.Valid id _ ?_ sv.rp.db db1 uv hup h
      intro x hx
      unfold Vehicle.Valid at hx ⊢
      obtain ⟨h1, h2, h3, h4, h5, _, h7, h8, h9, h10, h11, h12⟩ := hx
      have hlo : (1 : GoInt) ≤ ms := not_lt.1 (fun hc => hms (Or.inl hc))
      have hhi : ms ≤ 999 := not_lt.1 (fun hc => hms (Or.inr hc))
      exact ⟨h1, h2, h3, h4, h5, ⟨hlo, hhi⟩, h7, h8, h9, h10, h11, h12⟩
  simp only []
  cases (sv.rp.UpdateMaxSpeedById id ms).err with
  | none => exact hst
  | some e => simp only []; split_ifs <;> exact hst

theorem Default.UpdateFuelTypeById_AllValid (sv : Default) (id : GoInt) (ft : String)
    (h : sv.AllValid) : (sv.UpdateFuelTypeById id ft).state.AllValid := by
  unfold Default.UpdateFuelTypeById
  by_cases hft : ft = "" ∨ (ft ≠ "gasoline" ∧ ft ≠ "gas" ∧ ft ≠ "diesel" ∧ ft ≠ "biodiesel")
  · rw [if_pos hft]; exact h
  rw [if_neg hft]
  have hst : ∀ x ∈ (sv.rp.UpdateFuelTypeById id ft).state.db, x.Valid := by
    unfold VehicleSlice.UpdateFuelTypeById
    cases hup : updateFirstById id
        (fun x => { x with Attributes := { x.Attributes with FuelType := ft } }) sv.rp.db with
    | none => exact h
    | some pr =>
      obtain ⟨db1, uv⟩ := pr
      refine updateFirstById_forall Vehicle.Valid id _ ?_ sv.rp.db db1 uv hup h
      intro x hx
      unfold Vehicle.Valid at hx ⊢
      obtain ⟨h1, h2, h3, h4, h5, h6, _, h8, h9, h10, h11, h12⟩ := hx
      exact ⟨h1, h2, h3, h4, h5, h6, fuelType_accepted ft hft, h8, h9, h10, h11, h12⟩
  simp only []
  cases (sv.rp.UpdateFuelTypeById id ft).err with
  | none => exact hst
  | some e => simp only []; split_ifs <;> exact hst

theorem Default.Delete_AllValid (sv : Default) (id : GoInt) (h : sv.AllValid) :
    (sv.Delete id).state.AllValid := by
  have hst : ∀ x ∈ (sv.rp.Delete id).state.db, x.Valid :=
    fun x hx => h x ((VehicleSlice.Delete_state sv.rp id).2.subset hx)
  unfold Default.Delete
  simp only []
  cases (sv.rp.Delete id).err with
  | none => exact hst
  | some e => simp only []; split_ifs <;> exact hst

theorem Default.call_AllValid (sv : Default) (c : ServiceCall) (h : sv.AllValid)
    (hnum : ∀ v ∈ c.offered, v.NoNaN) : (sv.call c).AllValid := by
  cases c with
  | FindAll => rw [Default.call, Default.FindAll_state]; exact h
  | Insert v =>
    exact Default.Insert_AllValid sv v h (hnum v (by simp [ServiceCall.offered]))
  | FindAllByColorAndYear c y => rw [Default.call, Default.FindAllByColorAndYear_state]; exact h
  | FindAllByBrandAndBetweenYears b sy ey =>
    rw [Default.call, Default.FindAllByBrandAndBetweenYears_state]; exact h
  | CalculateAverageSpeedByBrand b =>
    rw [Default.call, Default.CalculateAverageSpeedByBrand_state]; exact h
  | InsertMany batch => exact Default.InsertMany_AllValid sv batch h hnum
  | UpdateMaxSpeedById id ms => exact Default.UpdateMaxSpeedById_AllValid sv id ms h
  | FindAllByFuelType ft => rw [Default.call, Default.FindAllByFuelType_state]; exact h
  | Delete id => exact Default.Delete_AllValid sv id h
  | FindAllByTransmission t => rw [Default.call, Default.FindAllByTransmission_state]; exact h
  | UpdateFuelTypeById id ft => exact Default.UpdateFuelTypeById_AllValid sv id ft h
  | CalculateAverageCapacityByBrand b =>
    rw [Default.call, Default.CalculateAverageCapacityByBrand_state]; exact h
  | FindAllByDimensions minH maxH minW maxW =>
    rw [Default.call, Default.FindAllByDimensions_state]; exact h
  | FindAllByWeight minW maxW => rw [Default.call, Default.FindAllByWeight_state]; exact h

/-- C3, as amended: from a store in which every record satisfies the twelve
field constraints, every sequence of service calls (`Insert`, `InsertMany`,
`UpdateMaxSpeedById`, `UpdateFuelTypeById`, `Delete` and the nine reads) in
which no record offered for insertion has a NaN height, width or weight,
whether the calls succeed or fail, leads to a store in which every record
satisfies the twelve field constraints. -/
theorem Default.calls_AllValid (sv : Default) (cs : List ServiceCall)
    (h : ∀ v ∈ sv.rp.db, v.Valid)
    (hnum : ∀ c ∈ cs, ∀ v ∈ c.offered, v.NoNaN) : ∀ v ∈ (sv.calls cs).rp.db, v.Valid := by
  induction cs generalizing sv with
  | nil => exact h
  | cons c cs ih =>
    exact ih (sv.call c)
      (Default.call_AllValid sv c h (hnum c (List.mem_cons_self _ _)))
      (fun c1 hc1 => hnum c1 (List.mem_cons_of_mem _ hc1))

/-- C3, the claim as stated fails for a record whose height is NaN: every
comparison with NaN is false, so no check of `Insert` refuses it, and from the
empty store, whose records all satisfy the constraints, the call leaves a
stored record whose height is not at least 1. -/
theorem Default.calls_store_NaN_height :
    (∀ v ∈ (NewDefault (NewVehicleSlice [] 0)).rp.db, v.Valid) ∧
    ¬ (∀ v ∈ ((NewDefault (NewVehicleSlice [] 0)).calls [.Insert nanHeight]).rp.db, v.Valid) ∧
    ((NewDefault (NewVehicleSlice [] 0)).calls [.Insert nanHeight]).rp.db.map
      (fun v => v.Attributes.Height) = [.NaN] := by
  decide!

/-- C3, at a concrete input: a run of valid and invalid writes and a read on
a store of two valid records. -/
theorem Default.calls_AllValid_witness :
    (∀ v ∈ (NewDefault (NewVehicleSlice [red2020, red2019] 2)).rp.db, v.Valid) ∧
    (∀ v ∈ ((NewDefault (NewVehicleSlice [red2020, red2019] 2)).calls
        [.Insert corolla, .Insert year1800, .InsertMany [corolla, year1800],
          .UpdateMaxSpeedById 1 1000, .UpdateMaxSpeedById 1 120, .UpdateFuelTypeById 2 "coal",
          .UpdateFuelTypeById 2 "diesel", .Delete 3, .FindAllByColorAndYear "red" 2020]).rp.db,
      v.Valid) :=
  ⟨by decide!,
    Default.calls_AllValid (NewDefault (NewVehicleSlice [red2020, red2019] 2))
      [.Insert corolla, .Insert year1800, .InsertMany [corolla, year1800],
        .UpdateMaxSpeedById 1 1000, .UpdateMaxSpeedById 1 120, .UpdateFuelTypeById 2 "coal",
        .UpdateFuelTypeById 2 "diesel", .Delete 3, .FindAllByColorAndYear "red" 2020]
      (by decide!) (by decide!)⟩

/-! ### The six filtered reads -/

theorem Default.scan_of_FindAll (sv : Default) (p : Vehicle → Bool) :
    (match sv.FindAll.err with
      | some err =>
        if errorsIs err .ErrRepositoryVehiclesNotFound then
          { state := sv.FindAll.state, val := [], err := some .ErrServiceVehiclesNotFound }
        else { state := sv.FindAll.state, val := [], err := some err }
      | none =>
        if (rangeAppendIf p [] sv.FindAll.val).length = 0 then
          { state := sv.FindAll.state, val := [], err := some .ErrServiceVehiclesNotFound }
        else
          { state := sv.FindAll.state, val := rangeAppendIf p [] sv.FindAll.val, err := none })
      = sv.scan p := by
  unfold Default.scan
  rw [Default.FindAll_eq]
  by_cases hdb : sv.rp.db = []
  · simp [hdb, errorsIs]
  · rw [if_neg hdb, if_neg hdb]
    simp only [rangeAppendIf_eq, List.nil_append, List.length_eq_zero]

theorem Default.FindAllByColorAndYear_scan (sv : Default) (c : String) (y : GoInt)
    (hc : c ≠ "") (hy : ¬ y < 1887) :
    sv.FindAllByColorAndYear c y =
      sv.scan (fun vehicle => vehicle.Attributes.Color = c ∧ vehicle.Attributes.Year = y) := by
  unfold Default.FindAllByColorAndYear
  rw [if_neg hc, if_neg hy]
  exact Default.scan_of_FindAll sv _

theorem Default.FindAllByBrandAndBetweenYears_scan (sv : Default) (b : String) (sy ey : GoInt)
    (hb : b ≠ "") (hy : ¬ (sy < 1887 ∨ ey < sy)) :
    sv.FindAllByBrandAndBetweenYears b sy ey =
      sv.scan (fun vehicle => vehicle.Attributes.Brand = b ∧ vehicle.Attributes.Year > sy ∧
        vehicle.Attributes.Year < ey) := by
  unfold Default.FindAllByBrandAndBetweenYears
  rw [if_neg hb, if_neg hy]
  exact Default.scan_of_FindAll sv _

theorem Default.FindAllByFuelType_scan (sv : Default) (ft : String)
    (h : ¬ (ft = "" ∨ (ft ≠ "gasoline" ∧ ft ≠ "gas" ∧ ft ≠ "diesel" ∧ ft ≠ "biodiesel"))) :
    sv.FindAllByFuelType ft = sv.scan (fun vehicle => vehicle.Attributes.FuelType = ft) := by
  unfold Default.FindAllByFuelType
  rw [if_neg h]
  exact Default.scan_of_FindAll sv _

theorem Default.FindAllByTransmission_scan (sv : Default) (t : String)
    (h : ¬ (t = "" ∨ (t ≠ "automatic" ∧ t ≠ "semi-automatic" ∧ t ≠ "manual"))) :
    sv.FindAllByTransmission t =
      sv.scan (fun vehicle => vehicle.Attributes.Transmission = t) := by
  unfold Default.FindAllByTransmission
  rw [if_neg h]
  exact Default.scan_of_FindAll sv _

theorem Default.FindAllByDimensions_scan (sv : Default) (minH maxH minW maxW : Float64)
    (hh : ¬ (minH < 1 ∨ maxH < minH)) (hw : ¬ (minW < 1 ∨ maxW < minW)) :
    sv.FindAllByDimensions minH maxH minW maxW =
      sv.scan (fun vehicle => vehicle.Attributes.Height > minH ∧
        vehicle.Attributes.Height < maxH ∧ vehicle.Attributes.Width > minW ∧
        vehicle.Attributes.Width < maxW) := by
  unfold Default.FindAllByDimensions
  rw [if_neg hh, if_neg hw]
  exact Default.scan_of_FindAll sv _

theorem Default.FindAllByWeight_scan (sv : Default) (minW maxW : Float64)
    (h : ¬ (minW < 1 ∨ maxW < minW)) :
    sv.FindAllByWeight minW maxW =
      sv.scan (fun vehicle => vehicle.Attributes.Weight > minW ∧
        vehicle.Attributes.Weight < maxW) := by
  unfold Default.FindAllByWeight
  rw [if_neg h]
  exact Default.scan_of_FindAll sv _

theorem Default.scan_success (sv : Default) (p : Vehicle → Bool)
    (hok : (sv.scan p).err = none) :
    (sv.scan p).val = sv.rp.db.filter p ∧ (sv.scan p).val ≠ [] := by
  unfold Default.scan at hok ⊢
  by_cases hdb : sv.rp.db = []
  · rw [if_pos hdb] at hok; cases hok
  rw [if_neg hdb] at hok ⊢
  by_cases hf : sv.rp.db.filter p = []
  · rw [if_pos hf] at hok; cases hok
  rw [if_neg hf]
  exact ⟨rfl, hf⟩

theorem Default.scan_err (sv : Default) (p : Vehicle → Bool) :
    ((sv.scan p).err = none ↔ ∃ v ∈ sv.rp.db, p v = true) ∧
    (∀ e, (sv.scan p).err = some e →
      errorsIs e .ErrServiceVehiclesNotFound = true ∧
      errorsIs e .ErrRepositoryVehiclesNotFound = false) := by
  unfold Default.scan
  by_cases hdb : sv.rp.db = []
  · rw [if_pos hdb, hdb]
    refine ⟨by simp, ?_⟩
    intro e he
    cases he
    exact ⟨by decide!, by decide!⟩
  rw [if_neg hdb]
  by_cases hf : sv.rp.db.filter p = []
  · rw [if_pos hf]
    refine ⟨?_, ?_⟩
    · constructor
      · intro h; cases h
      · rintro ⟨v, hv, hp⟩
        have : v ∈ sv.rp.db.filter p := List.mem_filter.2 ⟨hv, hp⟩
        rw [hf] at this
        cases this
    · intro e he
      cases he
      exact ⟨by decide!, by decide!⟩
  · rw [if_neg hf]
    refine ⟨?_, ?_⟩
    · constructor
      · intro _
        obtain ⟨v, hv⟩ := List.exists_mem_of_ne_nil _ hf
        exact ⟨v, (List.mem_filter.1 hv).1, (List.mem_filter.1 hv).2⟩
      · intro _; rfl
    · intro e he
      cases he

theorem filter_exact (db : List Vehicle) (pred : Vehicle → Prop) [DecidablePred pred] :
    (∀ v ∈ db.filter (fun v => decide (pred v)), v ∈ db ∧ pred v) ∧
    (∀ v ∈ db, pred v → v ∈ db.filter (fun v => decide (pred v))) ∧
    (∀ v, pred v → (db.filter (fun v => decide (pred v))).count v = db.count v) ∧
    (db.filter (fun v => decide (pred v))).Sublist db := by
  refine ⟨?_, ?_, ?_, List.filter_sublist _⟩
  · intro v hv
    have := List.mem_filter.1 hv
    exact ⟨this.1, of_decide_eq_true this.2⟩
  · intro v hv hp
    exact List.mem_filter.2 ⟨hv, decide_eq_true hp⟩
  · intro v hp
    rw [List.count_filter]
    exact decide_eq_true hp

theorem Default.scan_NotFoundIffNoMatch (sv : Default) (pred : Vehicle → Prop)
    [DecidablePred pred] :
    NotFoundIffNoMatch sv (sv.scan (fun v => decide (pred v))) pred := by
  obtain ⟨h1, h2⟩ := Default.scan_err sv (fun v => decide (pred v))
  have hnone : (sv.scan (fun v => decide (pred v))).err = none ↔ ∃ v ∈ sv.rp.db, pred v := by
    rw [h1]
    constructor
    · rintro ⟨v, hv, hp⟩; exact ⟨v, hv, of_decide_eq_true hp⟩
    · rintro ⟨v, hv, hp⟩; exact ⟨v, hv, decide_eq_true hp⟩
  refine ⟨?_, ?_, ?_, ?_, h2⟩
  · constructor
    · rintro ⟨e, he, _⟩ v hv hp
      have := hnone.2 ⟨v, hv, hp⟩
      rw [he] at this
      cases this
    · intro hno
      cases herr : (sv.scan (fun v => decide (pred v))).err with
      | none =>
        obtain ⟨v, hv, hp⟩ := hnone.1 herr
        exact absurd hp (hno v hv)
      | some e => exact ⟨e, rfl, (h2 e herr).1⟩
  · intro hdb
    rw [Default.FindAll_eq, if_pos hdb]
    unfold Default.scan
    rw [if_pos hdb]
  · intro hex
    have := hnone.2 hex
    exact ⟨this, (Default.scan_success sv _ this).2⟩
  · intro hok
    exact (Default.scan_success sv _ hok).2

theorem fuelType_mem_iff (ft : String) :
    ft ∈ ["gasoline", "gas", "diesel", "biodiesel"] ↔
      ¬ (ft = "" ∨ (ft ≠ "gasoline" ∧ ft ≠ "gas" ∧ ft ≠ "diesel" ∧ ft ≠ "biodiesel")) := by
  constructor
  · intro h
    simp only [List.mem_cons, List.mem_singleton, List.mem_nil_iff, or_false] at h
    rcases h with h | h | h | h <;> subst h <;> decide
  · exact fuelType_accepted ft

theorem transmission_mem_iff (t : String) :
    t ∈ ["automatic", "semi-automatic", "manual"] ↔
      ¬ (t = "" ∨ (t ≠ "automatic" ∧ t ≠ "semi-automatic" ∧ t ≠ "manual")) := by
  simp only [List.mem_cons, List.mem_singleton, List.mem_nil_iff, or_false]
  constructor
  · rintro (h | h | h) <;> subst h <;> decide
  · intro h
    by_contra hc
    exact h (Or.inr ⟨fun e => hc (by simp [e]), fun e => hc (by simp [e]),
      fun e => hc (by simp [e])⟩)

/-- C11: for a non-empty brand and years with startYear at least 1887 and
endYear at least startYear, a successful `FindAllByBrandAndBetweenYears`
returns exactly the records of the store with that brand and a year strictly
between startYear and endYear, in store order; a record whose year is
startYear or endYear is never returned. -/
theorem Default.FindAllByBrandAndBetweenYears_exact (sv : Default) (b : String) (sy ey : GoInt)
    (hb : b ≠ "") (hsy : sy ≥ 1887) (hey : ey ≥ sy)
    (hok : (sv.FindAllByBrandAndBetweenYears b sy ey).err = none) :
    (sv.FindAllByBrandAndBetweenYears b sy ey).val =
      sv.rp.db.filter (fun v => v.Attributes.Brand = b ∧ sy < v.Attributes.Year ∧
        v.Attributes.Year < ey) ∧
    (∀ v ∈ (sv.FindAllByBrandAndBetweenYears b sy ey).val,
      v ∈ sv.rp.db ∧ v.Attributes.Brand = b ∧ sy < v.Attributes.Year ∧
        v.Attributes.Year < ey) ∧
    (∀ v ∈ sv.rp.db, v.Attributes.Brand = b → sy < v.Attributes.Year →
      v.Attributes.Year < ey → v ∈ (sv.FindAllByBrandAndBetweenYears b sy ey).val) ∧
    (∀ v ∈ (sv.FindAllByBrandAndBetweenYears b sy ey).val,
      v.Attributes.Year ≠ sy ∧ v.Attributes.Year ≠ ey) ∧
    (∀ v, v.Attributes.Brand = b → sy < v.Attributes.Year → v.Attributes.Year < ey →
      (sv.FindAllByBrandAndBetweenYears b sy ey).val.count v = sv.rp.db.count v) ∧
    (sv.FindAllByBrandAndBetweenYears b sy ey).val.Sublist sv.rp.db := by
  have hy : ¬ (sy < 1887 ∨ ey < sy) := fun h => h.elim (not_lt.2 hsy) (not_lt.2 hey)
  rw [Default.FindAllByBrandAndBetweenYears_scan sv b sy ey hb hy] at hok ⊢
  obtain ⟨f1, f2, f3, f4⟩ := filter_exact sv.rp.db
    (fun v => v.Attributes.Brand = b ∧ sy < v.Attributes.Year ∧ v.Attributes.Year < ey)
  have hval := (Default.scan_success sv _ hok).1
  rw [hval]
  refine ⟨rfl, f1, fun v hv h1 h2 h3 => f2 v hv ⟨h1, h2, h3⟩, ?_,
    fun v h1 h2 h3 => f3 v ⟨h1, h2, h3⟩, f4⟩
  intro v hv
  obtain ⟨_, _, h2, h3⟩ := f1 v hv
  exact ⟨ne_of_gt h2, ne_of_lt h3⟩

/-- C11, at a concrete input: for ("Toyota", 2015, 2020) on a store holding a
Toyota of 2015 and a Toyota of 2017, the one of 2015 is left out and the one
of 2017 is returned. -/
theorem Default.FindAllByBrandAndBetweenYears_exact_witness :
    ((NewDefault (NewVehicleSlice [toyota2015, toyota2017] 2)).FindAllByBrandAndBetweenYears
        "Toyota" 2015 2020).val = [toyota2017] ∧
    ((NewDefault (NewVehicleSlice [toyota2015, toyota2017] 2)).FindAllByBrandAndBetweenYears
        "Toyota" 2015 2020).val =
      (NewDefault (NewVehicleSlice [toyota2015, toyota2017] 2)).rp.db.filter
        (fun v => v.Attributes.Brand = "Toyota" ∧ 2015 < v.Attributes.Year ∧
          v.Attributes.Year < 2020) :=
  ⟨by decide!,
    (Default.FindAllByBrandAndBetweenYears_exact
      (NewDefault (NewVehicleSlice [toyota2015, toyota2017] 2)) "Toyota" 2015 2020
      (by decide!) (by decide!) (by decide!) (by decide!)).1⟩

/-- C12: for bounds with minHeight at least 1, maxHeight at least minHeight,
minWidth at least 1 and maxWidth at least minWidth, a successful
`FindAllByDimensions` returns exactly the records of the store with
minHeight < height < maxHeight and minWidth < width < maxWidth, in store
order; a record whose height is minHeight or maxHeight, or whose width is
minWidth or maxWidth, is never returned. -/
theorem Default.FindAllByDimensions_exact (sv : Default) (minH maxH minW maxW : Float64)
    (h1 : minH ≥ 1) (h2 : maxH ≥ minH) (h3 : minW ≥ 1) (h4 : maxW ≥ minW)
    (hok : (sv.FindAllByDimensions minH maxH minW maxW).err = none) :
    (sv.FindAllByDimensions minH maxH minW maxW).val =
      sv.rp.db.filter (fun v => minH < v.Attributes.Height ∧ v.Attributes.Height < maxH ∧
        minW < v.Attributes.Width ∧ v.Attributes.Width < maxW) ∧
    (∀ v ∈ (sv.FindAllByDimensions minH maxH minW maxW).val,
      v ∈ sv.rp.db ∧ minH < v.Attributes.Height ∧ v.Attributes.Height < maxH ∧
        minW < v.Attributes.Width ∧ v.Attributes.Width < maxW) ∧
    (∀ v ∈ sv.rp.db, minH < v.Attributes.Height → v.Attributes.Height < maxH →
      minW < v.Attributes.Width → v.Attributes.Width < maxW →
      v ∈ (sv.FindAllByDimensions minH maxH minW maxW).val) ∧
    (∀ v ∈ (sv.FindAllByDimensions minH maxH minW maxW).val,
      v.Attributes.Height ≠ maxH ∧ v.Attributes.Height ≠ minH ∧
      v.Attributes.Width ≠ minW ∧ v.Attributes.Width ≠ maxW) ∧
    (∀ v, minH < v.Attributes.Height → v.Attributes.Height < maxH →
      minW < v.Attributes.Width → v.Attributes.Width < maxW →
      (sv.FindAllByDimensions minH maxH minW maxW).val.count v = sv.rp.db.count v) ∧
    (sv.FindAllByDimensions minH maxH minW maxW).val.Sublist sv.rp.db := by
  have hh : ¬ (minH < 1 ∨ maxH < minH) := by
    rintro (h | h)
    · exact absurd h (Float64.not_lt_of_le h1)
    · exact absurd h (Float64.not_lt_of_le h2)
  have hw : ¬ (minW < 1 ∨ maxW < minW) := by
    rintro (h | h)
    · exact absurd h (Float64.not_lt_of_le h3)
    · exact absurd h (Float64.not_lt_of_le h4)
  rw [Default.FindAllByDimensions_scan sv minH maxH minW maxW hh hw] at hok ⊢
  obtain ⟨f1, f2, f3, f4⟩ := filter_exact sv.rp.db
    (fun v => minH < v.Attributes.Height ∧ v.Attributes.Height < maxH ∧
      minW < v.Attributes.Width ∧ v.Attributes.Width < maxW)
  have hval := (Default.scan_success sv _ hok).1
  rw [hval]
  refine ⟨rfl, f1, fun v hv a b c d => f2 v hv ⟨a, b, c, d⟩, ?_,
    fun v a b c d => f3 v ⟨a, b, c, d⟩, f4⟩
  intro v hv
  obtain ⟨_, a, b, c, d⟩ := f1 v hv
  exact ⟨Float64.ne_of_lt b, (Float64.ne_of_lt a).symm, (Float64.ne_of_lt c).symm,
    Float64.ne_of_lt d⟩

/-- C12, at a concrete input: for the bounds 1 to 3 and 1 to 3 on a store
holding a Corolla of height 2 and width 2 and a Fiesta of height 3 and width
2, only the Corolla is returned: the Fiesta's height is maxHeight. -/
theorem Default.FindAllByDimensions_exact_witness :
    ((NewDefault (NewVehicleSlice [red2020, fiesta] 3)).FindAllByDimensions 1 3 1 3).val
      = [red2020] ∧
    (∀ v ∈ ((NewDefault (NewVehicleSlice [red2020, fiesta] 3)).FindAllByDimensions 1 3 1 3).val,
      v.Attributes.Height ≠ 3 ∧ v.Attributes.Height ≠ 1 ∧
      v.Attributes.Width ≠ 1 ∧ v.Attributes.Width ≠ 3) :=
  ⟨by decide!,
    (Default.FindAllByDimensions_exact (NewDefault (NewVehicleSlice [red2020, fiesta] 3))
      1 3 1 3 (by decide!) (by decide!) (by decide!) (by decide!) (by decide!)).2.2.2.1⟩

/-- C13: `FindAllByWeight` returns `InvalidWeight` exactly when minWeight is
below 1 or maxWeight is below minWeight, whatever the store holds; in every
other case a successful call returns exactly the records of the store with
minWeight < weight < maxWeight, both bounds excluded, in store order. -/
theorem Default.FindAllByWeight_exact (sv : Default) (minW maxW : Float64) :
    ((sv.FindAllByWeight minW maxW).err = some .ErrServiceInvalidVehicleWeight ↔
      (minW < 1 ∨ maxW < minW)) ∧
    ((sv.FindAllByWeight minW maxW).err = none →
      (sv.FindAllByWeight minW maxW).val =
        sv.rp.db.filter (fun v => minW < v.Attributes.Weight ∧ v.Attributes.Weight < maxW) ∧
      (∀ v ∈ (sv.FindAllByWeight minW maxW).val,
        v ∈ sv.rp.db ∧ minW < v.Attributes.Weight ∧ v.Attributes.Weight < maxW) ∧
      (∀ v ∈ sv.rp.db, minW < v.Attributes.Weight → v.Attributes.Weight < maxW →
        v ∈ (sv.FindAllByWeight minW maxW).val) ∧
      (∀ v ∈ (sv.FindAllByWeight minW maxW).val,
        v.Attributes.Weight ≠ minW ∧ v.Attributes.Weight ≠ maxW) ∧
      (∀ v, minW < v.Attributes.Weight → v.Attributes.Weight < maxW →
        (sv.FindAllByWeight minW maxW).val.count v = sv.rp.db.count v) ∧
      (sv.FindAllByWeight minW maxW).val.Sublist sv.rp.db) := by
  by_cases h : minW < 1 ∨ maxW < minW
  · have herr : (sv.FindAllByWeight minW maxW).err = some .ErrServiceInvalidVehicleWeight := by
      unfold Default.FindAllByWeight
      rw [if_pos h]
    refine ⟨⟨fun _ => h, fun _ => herr⟩, ?_⟩
    intro hok
    rw [herr] at hok
    cases hok
  · rw [Default.FindAllByWeight_scan sv minW maxW h]
    constructor
    · constructor
      · intro he
        have := (Default.scan_err sv
          (fun vehicle => vehicle.Attributes.Weight > minW ∧
            vehicle.Attributes.Weight < maxW)).2 _ he
        exact absurd this.1 (by decide!)
      · intro h1
        exact absurd h1 h
    · intro hok
      obtain ⟨f1, f2, f3, f4⟩ := filter_exact sv.rp.db
        (fun v => minW < v.Attributes.Weight ∧ v.Attributes.Weight < maxW)
      have hval := (Default.scan_success sv _ hok).1
      rw [hval]
      refine ⟨rfl, f1, fun v hv a b => f2 v hv ⟨a, b⟩, ?_, fun v a b => f3 v ⟨a, b⟩, f4⟩
      intro v hv
      obtain ⟨_, a, b⟩ := f1 v hv
      exact ⟨(Float64.ne_of_lt a).symm, Float64.ne_of_lt b⟩

/-- C13, at a concrete input: the weights 900 and 1000 queried with the
bounds 900 and 1001 give the record of weight 1000 only, and the bounds 0 and
5 give `InvalidWeight`. -/
theorem Default.FindAllByWeight_exact_witness :
    ((NewDefault (NewVehicleSlice [red2020, fiesta] 3)).FindAllByWeight 900 1001).val
      = [red2020] ∧
    ((NewDefault (NewVehicleSlice [red2020, fiesta] 3)).FindAllByWeight 900 1001).val
      = (NewDefault (NewVehicleSlice [red2020, fiesta] 3)).rp.db.filter
          (fun v => (900 : Float64) < v.Attributes.Weight ∧ v.Attributes.Weight < 1001) ∧
    ((NewDefault (NewVehicleSlice [red2020, fiesta] 3)).FindAllByWeight 0 5).err
      = some .ErrServiceInvalidVehicleWeight :=
  ⟨by decide!,
    ((Default.FindAllByWeight_exact (NewDefault (NewVehicleSlice [red2020, fiesta] 3))
      900 1001).2 (by decide!)).1,
    (Default.FindAllByWeight_exact (NewDefault (NewVehicleSlice [red2020, fiesta] 3))
      0 5).1.2 (by decide!)⟩

/-- C14: each of the six filtered reads, called with valid arguments, returns
an error that `errors.Is` the engine's `VehiclesNotFound` if and only if no
record of the store satisfies its filter predicate (on an empty store it is
the error of `FindAll`); otherwise it succeeds with a non-empty sequence. A
success is never empty, and no returned error `errors.Is` the repository's
`VehiclesNotFound`. -/
theorem Default.filtered_reads_not_found_iff_no_match (sv : Default) :
    (∀ (c : String) (y : GoInt), c ≠ "" → y ≥ 1887 →
      NotFoundIffNoMatch sv (sv.FindAllByColorAndYear c y)
        (fun v => v.Attributes.Color = c ∧ v.Attributes.Year = y)) ∧
    (∀ (b : String) (sy ey : GoInt), b ≠ "" → sy ≥ 1887 → ey ≥ sy →
      NotFoundIffNoMatch sv (sv.FindAllByBrandAndBetweenYears b sy ey)
        (fun v => v.Attributes.Brand = b ∧ sy < v.Attributes.Year ∧ v.Attributes.Year < ey)) ∧
    (∀ ft : String, ft ∈ ["gasoline", "gas", "diesel", "biodiesel"] →
      NotFoundIffNoMatch sv (sv.FindAllByFuelType ft) (fun v => v.Attributes.FuelType = ft)) ∧
    (∀ t : String, t ∈ ["automatic", "semi-automatic", "manual"] →
      NotFoundIffNoMatch sv (sv.FindAllByTransmission t)
        (fun v => v.Attributes.Transmission = t)) ∧
    (∀ minH maxH minW maxW : Float64, minH ≥ 1 → maxH ≥ minH → minW ≥ 1 → maxW ≥ minW →
      NotFoundIffNoMatch sv (sv.FindAllByDimensions minH maxH minW maxW)
        (fun v => minH < v.Attributes.Height ∧ v.Attributes.Height < maxH ∧
          minW < v.Attributes.Width ∧ v.Attributes.Width < maxW)) ∧
    (∀ minW maxW : Float64, minW ≥ 1 → maxW ≥ minW →
      NotFoundIffNoMatch sv (sv.FindAllByWeight minW maxW)
        (fun v => minW < v.Attributes.Weight ∧ v.Attributes.Weight < maxW)) := by
  refine ⟨?_, ?_, ?_, ?_, ?_, ?_⟩
  · intro c y hc hy
    rw [Default.FindAllByColorAndYear_scan sv c y hc (not_lt.2 hy)]
    exact Default.scan_NotFoundIffNoMatch sv _
  · intro b sy ey hb hsy hey
    rw [Default.FindAllByBrandAndBetweenYears_scan sv b sy ey hb
      (fun h => h.elim (not_lt.2 hsy) (not_lt.2 hey))]
    exact Default.scan_NotFoundIffNoMatch sv
      (fun v => v.Attributes.Brand = b ∧ sy < v.Attributes.Year ∧ v.Attributes.Year < ey)
  · intro ft hft
    rw [Default.FindAllByFuelType_scan sv ft ((fuelType_mem_iff ft).1 hft)]
    exact Default.scan_NotFoundIffNoMatch sv _
  · intro t ht
    rw [Default.FindAllByTransmission_scan sv t ((transmission_mem_iff t).1 ht)]
    exact Default.scan_NotFoundIffNoMatch sv _
  · intro minH maxH minW maxW h1 h2 h3 h4
    have hh : ¬ (minH < 1 ∨ maxH < minH) := by
      rintro (h | h)
      · exact absurd h (Float64.not_lt_of_le h1)
      · exact absurd h (Float64.not_lt_of_le h2)
    have hw : ¬ (minW < 1 ∨ maxW < minW) := by
      rintro (h | h)
      · exact absurd h (Float64.not_lt_of_le h3)
      · exact absurd h (Float64.not_lt_of_le h4)
    rw [Default.FindAllByDimensions_scan sv minH maxH minW maxW hh hw]
    exact Default.scan_NotFoundIffNoMatch sv
      (fun v => minH < v.Attributes.Height ∧ v.Attributes.Height < maxH ∧
        minW < v.Attributes.Width ∧ v.Attributes.Width < maxW)
  · intro minW maxW h1 h2
    have h : ¬ (minW < 1 ∨ maxW < minW) := by
      rintro (h | h)
      · exact absurd h (Float64.not_lt_of_le h1)
      · exact absurd h (Float64.not_lt_of_le h2)
    rw [Default.FindAllByWeight_scan sv minW maxW h]
    exact Default.scan_NotFoundIffNoMatch sv
      (fun v => minW < v.Attributes.Weight ∧ v.Attributes.Weight < maxW)

/-- C14, at a concrete input: the fuel-type read for "gas" on the empty store
returns the error of `FindAll`, which `errors.Is` `VehiclesNotFound`, and the
read for "diesel" on a store holding one gasoline record returns an error
that `errors.Is` `VehiclesNotFound`. -/
theorem Default.filtered_reads_not_found_iff_no_match_witness :
    (∃ e, ((NewDefault (NewVehicleSlice [] 0)).FindAllByFuelType "gas").err = some e ∧
      errorsIs e .ErrServiceVehiclesNotFound = true) ∧
    ((NewDefault (NewVehicleSlice [] 0)).FindAllByFuelType "gas").err
      = (NewDefault (NewVehicleSlice [] 0)).FindAll.err ∧
    (∃ e, ((NewDefault (NewVehicleSlice [red2020] 1)).FindAllByFuelType "diesel").err = some e ∧
      errorsIs e .ErrServiceVehiclesNotFound = true) :=
  ⟨((Default.filtered_reads_not_found_iff_no_match (NewDefault (NewVehicleSlice [] 0))).2.2.1
      "gas" (by decide!)).1.2 (by decide!),
    ((Default.filtered_reads_not_found_iff_no_match (NewDefault (NewVehicleSlice [] 0))).2.2.1
      "gas" (by decide!)).2.1 (by decide!),
    ((Default.filtered_reads_not_found_iff_no_match (NewDefault (NewVehicleSlice [red2020] 1))).2.2.1
      "diesel" (by decide!)).1.2 (by decide!)⟩

/-! ### The two aggregates -/

theorem rangeAppendSum_eq (b : String) (f : Vehicle → GoInt) (vehicles : List Vehicle) :
    ∀ (acc : List Vehicle) (sum : GoInt),
      rangeAppendSum b f acc sum vehicles =
        (acc ++ vehicles.filter (fun v => v.Attributes.Brand = b),
          sum + ((vehicles.filter (fun v => v.Attributes.Brand = b)).map f).sum) := by
  induction vehicles with
  | nil => intro acc sum; simp [rangeAppendSum]
  | cons x rest ih =>
    intro acc sum
    rw [rangeAppendSum]
    by_cases hx : x.Attributes.Brand = b
    · rw [if_pos hx, ih]
      simp [hx, add_assoc]
    · rw [if_neg hx, ih]
      simp [hx]

theorem GoInt.toInt_sum_of_small (xs : List GoInt)
    (h1 : -9223372036854775808 ≤ (xs.map GoInt.toInt).sum)
    (h2 : (xs.map GoInt.toInt).sum ≤ 9223372036854775807) :
    xs.sum.toInt = (xs.map GoInt.toInt).sum := by
  rw [GoInt.sum_eq_wrap, GoInt.toInt_wrap_of_range _ h1 h2]

theorem Float64.div_ofInt_of_small (s : Int) (n : ℕ) (hs1 : -9007199254740992 < s)
    (hs2 : s < 9007199254740992) (hn0 : n ≠ 0) (hn : n < 9007199254740992) :
    Float64.div (Float64.ofInt s) (Float64.ofInt (n : Int)) =
      Float64.round ((s : ℚ) / (n : ℚ)) := by
  rw [Float64.ofInt_of_small s hs1 hs2,
    Float64.ofInt_of_small (n : Int) (by omega) (by exact_mod_cast hn)]
  have hq : ((n : Int) : ℚ) ≠ 0 := by exact_mod_cast hn0
  simp only [Float64.div, if_neg hq]
  push_cast
  rfl

theorem Float64.div_ofInt_finite (s : GoInt) (n : ℕ) (hn : 1 ≤ n) :
    ∃ r : ℚ, Float64.div (Float64.ofInt s.toInt) (Float64.ofInt (n : Int)) = .finite r := by
  have hs : |(s.toInt : ℚ)| ≤ 2 ^ (63 : Int) := by
    have h1 := s.lo
    have h2 := s.hi
    rw [abs_le]
    constructor
    · have : ((-9223372036854775808 : Int) : ℚ) ≤ (s.toInt : ℚ) := by exact_mod_cast h1
      norm_num at this ⊢
      linarith
    · have : (s.toInt : ℚ) ≤ ((9223372036854775807 : Int) : ℚ) := by exact_mod_cast h2
      norm_num at this ⊢
      linarith
  obtain ⟨a, ha, hab⟩ := Float64.round_of_abs_le (s.toInt : ℚ) 63 (by norm_num) (by norm_num) hs
  have hn1 : (1 : ℚ) ≤ (((n : Int)) : ℚ) := by exact_mod_cast hn
  unfold Float64.ofInt
  rw [ha]
  rcases Float64.round_of_one_le _ hn1 with hb | ⟨bq, hb, hb1⟩
  · rw [hb]
    exact ⟨0, rfl⟩
  · rw [hb]
    have hb0 : bq ≠ 0 := by linarith
    simp only [Float64.div, if_neg hb0]
    have hq : |a / bq| ≤ 2 ^ (63 : Int) := by
      rw [abs_div, abs_of_pos (by linarith : (0 : ℚ) < bq)]
      calc |a| / bq ≤ |a| / 1 := by
            apply div_le_div_of_nonneg_left (abs_nonneg a) (by norm_num) hb1
        _ = |a| := by simp
        _ ≤ _ := hab
    obtain ⟨r, hr, _⟩ := Float64.round_of_abs_le (a / bq) 63 (by norm_num) (by norm_num) hq
    exact ⟨r, hr⟩

theorem sum_toInt_bounds (lo hi : Int) (xs : List GoInt)
    (h : ∀ x ∈ xs, lo ≤ x.toInt ∧ x.toInt ≤ hi) :
    lo * (xs.length : Int) ≤ (xs.map GoInt.toInt).sum ∧
    (xs.map GoInt.toInt).sum ≤ hi * (xs.length : Int) := by
  induction xs with
  | nil => simp
  | cons x rest ih =>
    obtain ⟨h1, h2⟩ := ih (fun y hy => h y (List.mem_cons_of_mem _ hy))
    obtain ⟨h3, h4⟩ := h x (List.mem_cons_self _ _)
    simp only [List.map_cons, List.sum_cons, List.length_cons]
    push_cast
    constructor <;> nlinarith

theorem quotient_between (lo hi : Int) (xs : List GoInt) (hne : xs ≠ [])
    (hlen : xs.length ≤ 8796093022208) (hlo : 0 ≤ lo) (hhi : hi ≤ 1000)
    (h : ∀ x ∈ xs, lo ≤ x.toInt ∧ x.toInt ≤ hi) :
    ∃ r : ℚ, Float64.div (Float64.ofInt xs.sum.toInt) (Float64.ofInt (xs.length : Int))
        = .finite r ∧ (lo : ℚ) ≤ r ∧ r ≤ (hi : ℚ) := by
  obtain ⟨h1, h2⟩ := sum_toInt_bounds lo hi xs h
  have hpos : 0 < xs.length := List.length_pos.2 hne
  have hL : (xs.length : Int) ≤ 8796093022208 := by exact_mod_cast hlen
  have hL0 : (0 : Int) < (xs.length : Int) := by exact_mod_cast hpos
  have hS1 : (0 : Int) ≤ (xs.map GoInt.toInt).sum := le_trans (mul_nonneg hlo hL0.le) h1
  have hS2 : (xs.map GoInt.toInt).sum ≤ 8796093022208000 := by nlinarith
  rw [GoInt.toInt_sum_of_small xs (by omega) (by omega),
    Float64.div_ofInt_of_small _ _ (by omega) (by omega) (by omega) (by omega)]
  have hq0 : (0 : ℚ) < (xs.length : ℚ) := by exact_mod_cast hpos
  have hlo1 : -9007199254740992 < lo := by omega
  have hhi1 : hi < 9007199254740992 := by omega
  refine Float64.round_between _ lo hi ?_ ?_ hlo1 hhi1
  · rw [le_div_iff₀ hq0]
    exact_mod_cast h1
  · rw [div_le_iff₀ hq0]
    exact_mod_cast h2

theorem Float64.round_301_div_3 :
    Float64.round (301 / 3) = .finite (7060330665825621 / 70368744177664) := by
  have hL : Int.log 2 |(301 / 3 : ℚ)| = 6 :=
    Float64.log_eq _ 6 (by norm_num) (by norm_num) (by norm_num)
  rw [Float64.round_eq _ (-46) (by rw [hL]; norm_num)]
  have hfl : ⌊(301 / 3 : ℚ) / 2 ^ (-46 : Int)⌋ = 7060330665825621 := by
    rw [Int.floor_eq_iff]
    constructor <;> norm_num
  have hr : roundHalfEven ((301 / 3 : ℚ) / 2 ^ (-46 : Int)) = 7060330665825621 := by
    unfold roundHalfEven
    rw [hfl, if_pos (by norm_num)]
  rw [hr, if_neg (by rw [abs_of_pos (by norm_num)]; norm_num)]
  norm_num

theorem Default.CalculateAverageSpeedByBrand_eq (sv : Default) (b : String) :
    sv.CalculateAverageSpeedByBrand b =
      if b = "" then { state := sv, val := 0, err := some .ErrServiceInvalidVehicleBrand }
      else if sv.rp.db = [] then
        { state := sv, val := 0,
          err := some (.Errorf .ErrServiceVehiclesNotFound .ErrRepositoryVehiclesNotFound) }
      else if sv.rp.db.filter (fun v => v.Attributes.Brand = b) = [] then
        { state := sv, val := 0, err := some .ErrServiceVehiclesNotFound }
      else
        { state := sv,
          val := Float64.div
            (Float64.ofInt (GoInt.toInt ((sv.rp.db.filter (fun v => v.Attributes.Brand = b)).map
              (fun v => v.Attributes.MaxSpeed)).sum))
            (Float64.ofInt (((sv.rp.db.filter (fun v => v.Attributes.Brand = b)).map
              (fun v => v.Attributes.MaxSpeed)).length : Int)),
          err := none } := by
  unfold Default.CalculateAverageSpeedByBrand
  by_cases hb : b = ""
  · rw [if_pos hb, if_pos hb]
  rw [if_neg hb, if_neg hb, Default.FindAll_eq]
  by_cases hdb : sv.rp.db = []
  · simp [hdb, errorsIs]
  · rw [if_neg hdb, if_neg hdb]
    simp only [rangeAppendSum_eq, List.nil_append, List.length_eq_zero, zero_add,
      List.length_map]

theorem Default.CalculateAverageCapacityByBrand_eq (sv : Default) (b : String) :
    sv.CalculateAverageCapacityByBrand b =
      if b = "" then { state := sv, val := 0, err := some .ErrServiceInvalidVehicleBrand }
      else if sv.rp.db = [] then
        { state := sv, val := 0,
          err := some (.Errorf .ErrServiceVehiclesNotFound .ErrRepositoryVehiclesNotFound) }
      else if sv.rp.db.filter (fun v => v.Attributes.Brand = b) = [] then
        { state := sv, val := 0, err := some .ErrServiceVehiclesNotFound }
      else
        { state := sv,
          val := Float64.div
            (Float64.ofInt (GoInt.toInt ((sv.rp.db.filter (fun v => v.Attributes.Brand = b)).map
              (fun v => v.Attributes.Passengers)).sum))
            (Float64.ofInt (((sv.rp.db.filter (fun v => v.Attributes.Brand = b)).map
              (fun v => v.Attributes.Passengers)).length : Int)),
          err := none } := by
  unfold Default.CalculateAverageCapacityByBrand
  by_cases hb : b = ""
  · rw [if_pos hb, if_pos hb]
  rw [if_neg hb, if_neg hb, Default.FindAll_eq]
  by_cases hdb : sv.rp.db = []
  · simp [hdb, errorsIs]
  · rw [if_neg hdb, if_neg hdb]
    simp only [rangeAppendSum_eq, List.nil_append, List.length_eq_zero, zero_add,
      List.length_map]

theorem filter_brand_ne_nil (db : List Vehicle) (b : String)
    (hex : ∃ v ∈ db, v.Attributes.Brand = b) :
    db ≠ [] ∧ db.filter (fun v => v.Attributes.Brand = b) ≠ [] := by
  obtain ⟨v, hv, hb⟩ := hex
  constructor
  · intro h; rw [h] at hv; cases hv
  · intro h
    have : v ∈ db.filter (fun v => v.Attributes.Brand = b) :=
      List.mem_filter.2 ⟨hv, decide_eq_true hb⟩
    rw [h] at this
    cases this

theorem filter_brand_eq_nil (db : List Vehicle) (b : String)
    (hno : ∀ v ∈ db, v.Attributes.Brand ≠ b) :
    db.filter (fun v => v.Attributes.Brand = b) = [] := by
  rw [List.filter_eq_nil_iff]
  intro v hv
  simpa using hno v hv

theorem quotient_eq_round_mean (xs : List GoInt) (hne : xs ≠ [])
    (hcount : xs.length < 9007199254740992)
    (hsum : -9007199254740992 < (xs.map GoInt.toInt).sum ∧
      (xs.map GoInt.toInt).sum < 9007199254740992) :
    Float64.div (Float64.ofInt xs.sum.toInt) (Float64.ofInt (xs.length : Int)) =
      Float64.round (mean (xs.map GoInt.toInt)) := by
  have hpos : 0 < xs.length := List.length_pos.2 hne
  rw [GoInt.toInt_sum_of_small xs (by omega) (by omega),
    Float64.div_ofInt_of_small _ _ hsum.1 hsum.2 (by omega) hcount]
  unfold mean
  rw [List.length_map]

/-- C15, as amended: for a non-empty brand of which the store holds at least
one record, fewer than `2^53` of them, both aggregates succeed; when the sum
of `MaxSpeed` over exactly the records of that brand lies strictly between
`-2^53` and `2^53`, `CalculateAverageSpeedByBrand` returns their arithmetic
mean (their sum divided by their count) rounded to the nearest `float64`, and
`CalculateAverageCapacityByBrand` does the same over `Passengers`. -/
theorem Default.averages_are_means (sv : Default) (b : String) (hb : b ≠ "")
    (hex : ∃ v ∈ sv.rp.db, v.Attributes.Brand = b)
    (hcount : (sv.rp.db.filter (fun v => v.Attributes.Brand = b)).length < 9007199254740992) :
    (sv.CalculateAverageSpeedByBrand b).err = none ∧
    ((-9007199254740992 < ((sv.rp.db.filter (fun v => v.Attributes.Brand = b)).map
          (fun v => v.Attributes.MaxSpeed.toInt)).sum ∧
        ((sv.rp.db.filter (fun v => v.Attributes.Brand = b)).map
          (fun v => v.Attributes.MaxSpeed.toInt)).sum < 9007199254740992) →
      (sv.CalculateAverageSpeedByBrand b).val =
        Float64.round (mean ((sv.rp.db.filter (fun v => v.Attributes.Brand = b)).map
          (fun v => v.Attributes.MaxSpeed.toInt)))) ∧
    (sv.CalculateAverageCapacityByBrand b).err = none ∧
    ((-9007199254740992 < ((sv.rp.db.filter (fun v => v.Attributes.Brand = b)).map
          (fun v => v.Attributes.Passengers.toInt)).sum ∧
        ((sv.rp.db.filter (fun v => v.Attributes.Brand = b)).map
          (fun v => v.Attributes.Passengers.toInt)).sum < 9007199254740992) →
      (sv.CalculateAverageCapacityByBrand b).val =
        Float64.round (mean ((sv.rp.db.filter (fun v => v.Attributes.Brand = b)).map
          (fun v => v.Attributes.Passengers.toInt)))) := by
  obtain ⟨hdb, hf⟩ := filter_brand_ne_nil sv.rp.db b hex
  rw [Default.CalculateAverageSpeedByBrand_eq, Default.CalculateAverageCapacityByBrand_eq,
    if_neg hb, if_neg hdb, if_neg hf, if_neg hb, if_neg hdb, if_neg hf]
  refine ⟨rfl, fun hs => ?_, rfl, fun hs => ?_⟩
  · have := quotient_eq_round_mean
      ((sv.rp.db.filter (fun v => v.Attributes.Brand = b)).map (fun v => v.Attributes.MaxSpeed))
      (by simpa using hf) (by simpa using hcount) (by simpa [List.map_map] using hs)
    simpa [List.map_map] using this
  · have := quotient_eq_round_mean
      ((sv.rp.db.filter (fun v => v.Attributes.Brand = b)).map
        (fun v => v.Attributes.Passengers))
      (by simpa using hf) (by simpa using hcount) (by simpa [List.map_map] using hs)
    simpa [List.map_map] using this

/-- C15, the claim as stated fails where the mean is not a `float64`: three
Toyotas of maximum speed 100, 100 and 101 have the mean `301/3`, and
`CalculateAverageSpeedByBrand` returns the `float64` nearest to it,
`7060330665825621 / 2^46`, which is another number. -/
theorem Default.average_speed_is_rounded :
    ((NewDefault speeds301).CalculateAverageSpeedByBrand "Toyota").err = none ∧
    (speeds301.db.filter (fun v => v.Attributes.Brand = "Toyota")).map
      (fun v => v.Attributes.MaxSpeed.toInt) = [100, 100, 101] ∧
    ((NewDefault speeds301).CalculateAverageSpeedByBrand "Toyota").val
      = .finite (7060330665825621 / 70368744177664) ∧
    ((NewDefault speeds301).CalculateAverageSpeedByBrand "Toyota").val
      ≠ .finite (mean [100, 100, 101]) := by
  have hval : ((NewDefault speeds301).CalculateAverageSpeedByBrand "Toyota").val
      = .finite (7060330665825621 / 70368744177664) := by
    rw [Default.CalculateAverageSpeedByBrand_eq, if_neg (by decide), if_neg (by decide!),
      if_neg (by decide!)]
    have hs : GoInt.toInt (((NewDefault speeds301).rp.db.filter
        (fun v => v.Attributes.Brand = "Toyota")).map
          (fun v => v.Attributes.MaxSpeed)).sum = 301 := by decide!
    have hl : (((NewDefault speeds301).rp.db.filter
        (fun v => v.Attributes.Brand = "Toyota")).map
          (fun v => v.Attributes.MaxSpeed)).length = 3 := by decide!
    show Float64.div (Float64.ofInt _) (Float64.ofInt _) = _
    rw [hs, hl, Float64.div_ofInt_of_small 301 3 (by norm_num) (by norm_num) (by norm_num)
      (by norm_num)]
    norm_num [Float64.round_301_div_3]
  refine ⟨by decide!, by decide!, hval, ?_⟩
  rw [hval]
  intro h
  injection h with h
  norm_num [mean] at h

/-- C15, at a concrete input: a store with two Toyotas of maximum speed 100
and 150 and one Ford gives 125 for Toyota. -/
theorem Default.averages_are_means_witness :
    ((NewDefault (NewVehicleSlice [toyota100, toyota150, fiesta] 3)).CalculateAverageSpeedByBrand
      "Toyota").err = none ∧
    ((NewDefault (NewVehicleSlice [toyota100, toyota150, fiesta] 3)).CalculateAverageSpeedByBrand
      "Toyota").val = 125 :=
  ⟨(Default.averages_are_means (NewDefault (NewVehicleSlice [toyota100, toyota150, fiesta] 3))
      "Toyota" (by decide!) ⟨toyota100, by decide!, by decide!⟩ (by decide!)).1,
    ((Default.averages_are_means (NewDefault (NewVehicleSlice [toyota100, toyota150, fiesta] 3))
      "Toyota" (by decide!) ⟨toyota100, by decide!, by decide!⟩ (by decide!)).2.1
        (by decide!)).trans (by
        have h : ((NewDefault (NewVehicleSlice [toyota100, toyota150, fiesta] 3)).rp.db.filter
            (fun v => v.Attributes.Brand = "Toyota")).map (fun v => v.Attributes.MaxSpeed.toInt)
            = [100, 150] := by decide!
        have e : mean [100, 150] = ((125 : Int) : ℚ) := by norm_num [mean]
        rw [h, e, Float64.round_intCast 125 (by norm_num) (by norm_num)]
        norm_num
        rfl)⟩

/-- C16: for a non-empty brand of which the store, empty or not, holds no
record, both aggregates return an error that `errors.Is` the engine's
`VehiclesNotFound` (the sentinel itself on a non-empty store, the error of
`FindAll` on an empty one); and whenever an aggregate succeeds, what it
returns is the quotient `float64(sum) / float64(count)` over the records of
the brand with a count of at least 1, and it is a finite number: not NaN and
not an infinity. -/
theorem Default.averages_not_found (sv : Default) (b : String) (hb : b ≠ "") :
    ((∀ v ∈ sv.rp.db, v.Attributes.Brand ≠ b) →
      (∃ e, (sv.CalculateAverageSpeedByBrand b).err = some e ∧
        errorsIs e .ErrServiceVehiclesNotFound = true) ∧
      (∃ e, (sv.CalculateAverageCapacityByBrand b).err = some e ∧
        errorsIs e .ErrServiceVehiclesNotFound = true) ∧
      (sv.rp.db ≠ [] →
        (sv.CalculateAverageSpeedByBrand b).err = some .ErrServiceVehiclesNotFound ∧
        (sv.CalculateAverageCapacityByBrand b).err = some .ErrServiceVehiclesNotFound) ∧
      (sv.rp.db = [] →
        (sv.CalculateAverageSpeedByBrand b).err = sv.FindAll.err ∧
        (sv.CalculateAverageCapacityByBrand b).err = sv.FindAll.err)) ∧
    ((sv.CalculateAverageSpeedByBrand b).err = none →
      1 ≤ ((sv.rp.db.filter (fun v => v.Attributes.Brand = b)).map
        (fun v => v.Attributes.MaxSpeed)).length ∧
      (sv.CalculateAverageSpeedByBrand b).val =
        Float64.div
          (Float64.ofInt (GoInt.toInt ((sv.rp.db.filter (fun v => v.Attributes.Brand = b)).map
            (fun v => v.Attributes.MaxSpeed)).sum))
          (Float64.ofInt (((sv.rp.db.filter (fun v => v.Attributes.Brand = b)).map
            (fun v => v.Attributes.MaxSpeed)).length : Int)) ∧
      ∃ r : ℚ, (sv.CalculateAverageSpeedByBrand b).val = .finite r) ∧
    ((sv.CalculateAverageCapacityByBrand b).err = none →
      1 ≤ ((sv.rp.db.filter (fun v => v.Attributes.Brand = b)).map
        (fun v => v.Attributes.Passengers)).length ∧
      (sv.CalculateAverageCapacityByBrand b).val =
        Float64.div
          (Float64.ofInt (GoInt.toInt ((sv.rp.db.filter (fun v => v.Attributes.Brand = b)).map
            (fun v => v.Attributes.Passengers)).sum))
          (Float64.ofInt (((sv.rp.db.filter (fun v => v.Attributes.Brand = b)).map
            (fun v => v.Attributes.Passengers)).length : Int)) ∧
      ∃ r : ℚ, (sv.CalculateAverageCapacityByBrand b).val = .finite r) := by
  rw [Default.CalculateAverageSpeedByBrand_eq, Default.CalculateAverageCapacityByBrand_eq,
    Default.FindAll_eq, if_neg hb, if_neg hb]
  refine ⟨?_, ?_, ?_⟩
  · intro hno
    have hf := filter_brand_eq_nil sv.rp.db b hno
    by_cases hdb : sv.rp.db = []
    · rw [if_pos hdb, if_pos hdb, if_pos hdb]
      exact ⟨⟨_, rfl, by decide!⟩, ⟨_, rfl, by decide!⟩, fun h => absurd hdb h,
        fun _ => ⟨rfl, rfl⟩⟩
    · rw [if_neg hdb, if_neg hdb, if_pos hf, if_pos hf]
      exact ⟨⟨_, rfl, by decide!⟩, ⟨_, rfl, by decide!⟩, fun _ => ⟨rfl, rfl⟩,
        fun h => absurd h hdb⟩
  · intro hok
    by_cases hdb : sv.rp.db = []
    · rw [if_pos hdb] at hok; cases hok
    rw [if_neg hdb] at hok ⊢
    by_cases hf : sv.rp.db.filter (fun v => v.Attributes.Brand = b) = []
    · rw [if_pos hf] at hok; cases hok
    rw [if_neg hf]
    have hlen : 1 ≤ ((sv.rp.db.filter (fun v => v.Attributes.Brand = b)).map
        (fun v => v.Attributes.MaxSpeed)).length := by
      rw [List.length_map]
      exact Nat.one_le_iff_ne_zero.2 (fun h => hf (List.length_eq_zero.1 h))
    exact ⟨hlen, rfl, Float64.div_ofInt_finite _ _ hlen⟩
  · intro hok
    by_cases hdb : sv.rp.db = []
    · rw [if_pos hdb] at hok; cases hok
    rw [if_neg hdb] at hok ⊢
    by_cases hf : sv.rp.db.filter (fun v => v.Attributes.Brand = b) = []
    · rw [if_pos hf] at hok; cases hok
    rw [if_neg hf]
    have hlen : 1 ≤ ((sv.rp.db.filter (fun v => v.Attributes.Brand = b)).map
        (fun v => v.Attributes.Passengers)).length := by
      rw [List.length_map]
      exact Nat.one_le_iff_ne_zero.2 (fun h => hf (List.length_eq_zero.1 h))
    exact ⟨hlen, rfl, Float64.div_ofInt_finite _ _ hlen⟩

/-- C16, at a concrete input: the average speed of "Ford" on a store of two
Toyotas is `VehiclesNotFound`, and on the empty store it is the error of
`FindAll`. -/
theorem Default.averages_not_found_witness :
    ((NewDefault (NewVehicleSlice [toyota100, toyota150] 2)).CalculateAverageSpeedByBrand
      "Ford").err = some .ErrServiceVehiclesNotFound ∧
    ((NewDefault (NewVehicleSlice [] 0)).CalculateAverageSpeedByBrand "Ford").err
      = (NewDefault (NewVehicleSlice [] 0)).FindAll.err :=
  ⟨(((Default.averages_not_found (NewDefault (NewVehicleSlice [toyota100, toyota150] 2))
      "Ford" (by decide!)).1 (by decide!)).2.2.1 (by decide!)).1,
    (((Default.averages_not_found (NewDefault (NewVehicleSlice [] 0))
      "Ford" (by decide!)).1 (by decide!)).2.2.2 (by decide!)).1⟩

/-! ### Lookup by id: the first record with the id -/

theorem exists_first_with_id (l : List Vehicle) (id : GoInt) (h : ∃ v ∈ l, v.ID = id) :
    ∃ pre x post, l = pre ++ x :: post ∧ (∀ u ∈ pre, u.ID ≠ id) ∧ x.ID = id := by
  induction l with
  | nil => obtain ⟨v, hv, _⟩ := h; cases hv
  | cons y rest ih =>
    by_cases hy : y.ID = id
    · exact ⟨[], y, rest, rfl, fun u hu => absurd hu (List.not_mem_nil u), hy⟩
    · obtain ⟨v, hv, hid⟩ := h
      rcases List.mem_cons.1 hv with rfl | hv
      · exact absurd hid hy
      · obtain ⟨pre, x, post, hl, hpre, hx⟩ := ih ⟨v, hv, hid⟩
        refine ⟨y :: pre, x, post, by rw [hl]; rfl, ?_, hx⟩
        intro u hu
        rcases List.mem_cons.1 hu with rfl | hu
        · exact hy
        · exact hpre u hu

theorem updateFirstById_split (id : GoInt) (set : Vehicle → Vehicle) (x : Vehicle)
    (post : List Vehicle) (hx : x.ID = id) :
    ∀ pre : List Vehicle, (∀ u ∈ pre, u.ID ≠ id) →
      updateFirstById id set (pre ++ x :: post) = some (pre ++ set x :: post, set x) := by
  intro pre
  induction pre with
  | nil => intro _; simp [updateFirstById, hx]
  | cons y pre ih =>
    intro hpre
    have hy : ¬ y.ID = id := hpre y (List.mem_cons_self _ _)
    rw [List.cons_append, updateFirstById, if_neg hy,
      ih (fun u hu => hpre u (List.mem_cons_of_mem _ hu))]
    rfl

theorem updateFirstById_none (id : GoInt) (set : Vehicle → Vehicle) (l : List Vehicle)
    (h : ∀ v ∈ l, v.ID ≠ id) : updateFirstById id set l = none := by
  induction l with
  | nil => rfl
  | cons y rest ih =>
    have hy : ¬ y.ID = id := h y (List.mem_cons_self _ _)
    rw [updateFirstById, if_neg hy, ih (fun u hu => h u (List.mem_cons_of_mem _ hu))]

theorem indexById_split (id : GoInt) (x : Vehicle) (post : List Vehicle) (hx : x.ID = id) :
    ∀ pre : List Vehicle, (∀ u ∈ pre, u.ID ≠ id) →
      indexById id (pre ++ x :: post) = some pre.length := by
  intro pre
  induction pre with
  | nil => intro _; simp [indexById, hx]
  | cons y pre ih =>
    intro hpre
    have hy : ¬ y.ID = id := hpre y (List.mem_cons_self _ _)
    rw [List.cons_append, indexById, if_neg hy,
      ih (fun u hu => hpre u (List.mem_cons_of_mem _ hu))]
    rfl

theorem indexById_none (id : GoInt) (l : List Vehicle) (h : ∀ v ∈ l, v.ID ≠ id) :
    indexById id l = none := by
  induction l with
  | nil => rfl
  | cons y rest ih =>
    have hy : ¬ y.ID = id := h y (List.mem_cons_self _ _)
    rw [indexById, if_neg hy, ih (fun u hu => h u (List.mem_cons_of_mem _ hu))]

/-- C17: when some record has the id, store `UpdateMaxSpeedById` sets the
`MaxSpeed` of the first record with that id to the new speed and returns that
record as it is afterwards; its other fields, the records before and after
it, the length of the collection and the counter stay as they were. When no
record has the id it returns not-found and the store stays as it was. -/
theorem VehicleSlice.UpdateMaxSpeedById_frame (r : VehicleSlice) (id ms : GoInt) :
    ((∃ v ∈ r.db, v.ID = id) →
      ∃ pre x post, r.db = pre ++ x :: post ∧ (∀ u ∈ pre, u.ID ≠ id) ∧ x.ID = id ∧
        (r.UpdateMaxSpeedById id ms).err = none ∧
        (r.UpdateMaxSpeedById id ms).val =
          { x with Attributes := { x.Attributes with MaxSpeed := ms } } ∧
        (r.UpdateMaxSpeedById id ms).val.Attributes.MaxSpeed = ms ∧
        (r.UpdateMaxSpeedById id ms).state.db =
          pre ++ (r.UpdateMaxSpeedById id ms).val :: post ∧
        (r.UpdateMaxSpeedById id ms).state.db.length = r.db.length ∧
        (r.UpdateMaxSpeedById id ms).state.lastId = r.lastId) ∧
    ((∀ v ∈ r.db, v.ID ≠ id) →
      (r.UpdateMaxSpeedById id ms).err = some .ErrRepositoryVehicleNotFound ∧
      (r.UpdateMaxSpeedById id ms).state.db = r.db ∧
      (r.UpdateMaxSpeedById id ms).state.lastId = r.lastId) := by
  constructor
  · intro hex
    obtain ⟨pre, x, post, hl, hpre, hx⟩ := exists_first_with_id r.db id hex
    refine ⟨pre, x, post, hl, hpre, hx, ?_⟩
    unfold VehicleSlice.UpdateMaxSpeedById
    rw [hl, updateFirstById_split id _ x post hx pre hpre]
    simp
  · intro hno
    unfold VehicleSlice.UpdateMaxSpeedById
    rw [updateFirstById_none id _ r.db hno]
    exact ⟨rfl, rfl, rfl⟩

/-- C17, at a concrete input: the speed of record 2 of a store of two
records set to 90. -/
theorem VehicleSlice.UpdateMaxSpeedById_frame_witness :
    ∃ pre x post, (NewVehicleSlice [red2020, red2019] 2).db = pre ++ x :: post ∧
      (∀ u ∈ pre, u.ID ≠ 2) ∧ x.ID = 2 ∧
      ((NewVehicleSlice [red2020, red2019] 2).UpdateMaxSpeedById 2 90).err = none ∧
      ((NewVehicleSlice [red2020, red2019] 2).UpdateMaxSpeedById 2 90).val =
        { x with Attributes := { x.Attributes with MaxSpeed := 90 } } ∧
      ((NewVehicleSlice [red2020, red2019] 2).UpdateMaxSpeedById 2 90).val.Attributes.MaxSpeed
        = 90 ∧
      ((NewVehicleSlice [red2020, red2019] 2).UpdateMaxSpeedById 2 90).state.db =
        pre ++ ((NewVehicleSlice [red2020, red2019] 2).UpdateMaxSpeedById 2 90).val :: post ∧
      ((NewVehicleSlice [red2020, red2019] 2).UpdateMaxSpeedById 2 90).state.db.length =
        (NewVehicleSlice [red2020, red2019] 2).db.length ∧
      ((NewVehicleSlice [red2020, red2019] 2).UpdateMaxSpeedById 2 90).state.lastId =
        (NewVehicleSlice [red2020, red2019] 2).lastId :=
  (VehicleSlice.UpdateMaxSpeedById_frame (NewVehicleSlice [red2020, red2019] 2) 2 90).1
    ⟨red2019, by decide!, by decide!⟩

theorem Default.UpdateFuelTypeById_of_mem (sv : Default) (id : GoInt) (ft : String)
    (hft : ft ∈ ["gasoline", "gas", "diesel", "biodiesel"]) :
    sv.UpdateFuelTypeById id ft =
      match updateFirstById id
          (fun x => { x with Attributes := { x.Attributes with FuelType := ft } }) sv.rp.db with
      | some (db1, uv) => { state := { rp := { sv.rp with db := db1 } }, val := uv, err := none }
      | none => { state := sv, val := Vehicle.zero, err := some .ErrServiceVehicleNotFound } := by
  unfold Default.UpdateFuelTypeById VehicleSlice.UpdateFuelTypeById
  rw [if_neg ((fuelType_mem_iff ft).1 hft)]
  cases updateFirstById id
      (fun x => { x with Attributes := { x.Attributes with FuelType := ft } }) sv.rp.db with
  | none => simp [errorsIs]
  | some pr => rfl

/-- C18: for a fuel type of the closed set, service `UpdateFuelTypeById`
returns the engine's `VehicleNotFound` if and only if no record of the store
has the id, and then the store is unchanged; when a record has the id the
call succeeds and the returned record has that id and the new fuel type. -/
theorem Default.UpdateFuelTypeById_not_found_iff (sv : Default) (id : GoInt) (ft : String)
    (hft : ft ∈ ["gasoline", "gas", "diesel", "biodiesel"]) :
    ((sv.UpdateFuelTypeById id ft).err = some .ErrServiceVehicleNotFound ↔
      ∀ v ∈ sv.rp.db, v.ID ≠ id) ∧
    ((∀ v ∈ sv.rp.db, v.ID ≠ id) →
      (sv.UpdateFuelTypeById id ft).state.rp.db = sv.rp.db ∧
      (sv.UpdateFuelTypeById id ft).state.rp.lastId = sv.rp.lastId) ∧
    ((∃ v ∈ sv.rp.db, v.ID = id) →
      (sv.UpdateFuelTypeById id ft).err = none ∧
      (sv.UpdateFuelTypeById id ft).val.ID = id ∧
      (sv.UpdateFuelTypeById id ft).val.Attributes.FuelType = ft) := by
  rw [Default.UpdateFuelTypeById_of_mem sv id ft hft]
  have hsome : (∃ v ∈ sv.rp.db, v.ID = id) →
      ∃ (pre : List Vehicle) (x : Vehicle) (post : List Vehicle), x.ID = id ∧ updateFirstById id
        (fun x => { x with Attributes := { x.Attributes with FuelType := ft } }) sv.rp.db =
          some (pre ++ { x with Attributes := { x.Attributes with FuelType := ft } } :: post,
            { x with Attributes := { x.Attributes with FuelType := ft } }) := by
    intro hex
    obtain ⟨pre, x, post, hl, hpre, hx⟩ := exists_first_with_id sv.rp.db id hex
    exact ⟨pre, x, post, hx, by rw [hl, updateFirstById_split id _ x post hx pre hpre]⟩
  refine ⟨?_, ?_, ?_⟩
  · constructor
    · intro herr v hv hid
      obtain ⟨pre, x, post, _, hup⟩ := hsome ⟨v, hv, hid⟩
      rw [hup] at herr
      cases herr
    · intro hno
      rw [updateFirstById_none id _ sv.rp.db hno]
  · intro hno
    rw [updateFirstById_none id _ sv.rp.db hno]
    exact ⟨rfl, rfl⟩
  · intro hex
    obtain ⟨pre, x, post, hx, hup⟩ := hsome hex
    rw [hup]
    exact ⟨rfl, hx, rfl⟩

/-- C18, at a concrete input: the fuel type of the absent id 7, and of the
present id 2, set to "diesel" on a store of two records. -/
theorem Default.UpdateFuelTypeById_not_found_iff_witness :
    ((NewDefault (NewVehicleSlice [red2020, red2019] 2)).UpdateFuelTypeById 7 "diesel").err
      = some .ErrServiceVehicleNotFound ∧
    ((NewDefault (NewVehicleSlice [red2020, red2019] 2)).UpdateFuelTypeById 2 "diesel").err
      = none ∧
    ((NewDefault (NewVehicleSlice [red2020, red2019] 2)).UpdateFuelTypeById 2 "diesel").val.ID
      = 2 ∧
    ((NewDefault (NewVehicleSlice [red2020, red2019] 2)).UpdateFuelTypeById 2
      "diesel").val.Attributes.FuelType = "diesel" :=
  ⟨(Default.UpdateFuelTypeById_not_found_iff (NewDefault (NewVehicleSlice [red2020, red2019] 2))
      7 "diesel" (by decide!)).1.2 (by decide!),
    (Default.UpdateFuelTypeById_not_found_iff (NewDefault (NewVehicleSlice [red2020, red2019] 2))
      2 "diesel" (by decide!)).2.2 ⟨red2019, by decide!, by decide!⟩⟩

/-- C20: when some record has the id, `Delete` succeeds, the new collection is
the old one without the first record of that id, the other records as they
were and in their order, and the counter is unchanged; when no record has the
id, store `Delete` returns not-found, service `Delete` returns
`VehicleNotFound`, and the store is unchanged. -/
theorem VehicleSlice.Delete_removes_first (r : VehicleSlice) (id : GoInt) :
    ((∃ v ∈ r.db, v.ID = id) →
      ∃ pre x post, r.db = pre ++ x :: post ∧ (∀ u ∈ pre, u.ID ≠ id) ∧ x.ID = id ∧
        (r.Delete id).err = none ∧
        (r.Delete id).state.db = pre ++ post ∧
        (r.Delete id).state.lastId = r.lastId ∧
        ((NewDefault r).Delete id).err = none ∧
        ((NewDefault r).Delete id).state.rp.db = pre ++ post ∧
        ((NewDefault r).Delete id).state.rp.lastId = r.lastId) ∧
    ((∀ v ∈ r.db, v.ID ≠ id) →
      (r.Delete id).err = some .ErrRepositoryVehicleNotFound ∧
      (r.Delete id).state.db = r.db ∧
      (r.Delete id).state.lastId = r.lastId ∧
      ((NewDefault r).Delete id).err = some .ErrServiceVehicleNotFound ∧
      ((NewDefault r).Delete id).state.rp.db = r.db ∧
      ((NewDefault r).Delete id).state.rp.lastId = r.lastId) := by
  constructor
  · intro hex
    obtain ⟨pre, x, post, hl, hpre, hx⟩ := exists_first_with_id r.db id hex
    refine ⟨pre, x, post, hl, hpre, hx, ?_⟩
    unfold Default.Delete NewDefault VehicleSlice.Delete
    simp only []
    rw [hl, indexById_split id x post hx pre hpre]
    simp
  · intro hno
    unfold Default.Delete NewDefault VehicleSlice.Delete
    simp only []
    rw [indexById_none id r.db hno]
    simp [errorsIs]

/-- C20, at a concrete input: record 1 deleted from a store of two records,
and the absent id 7 not found. -/
theorem VehicleSlice.Delete_removes_first_witness :
    (∃ pre x post, (NewVehicleSlice [red2020, red2019] 2).db = pre ++ x :: post ∧
      (∀ u ∈ pre, u.ID ≠ 1) ∧ x.ID = 1 ∧
      ((NewVehicleSlice [red2020, red2019] 2).Delete 1).err = none ∧
      ((NewVehicleSlice [red2020, red2019] 2).Delete 1).state.db = pre ++ post ∧
      ((NewVehicleSlice [red2020, red2019] 2).Delete 1).state.lastId
        = (NewVehicleSlice [red2020, red2019] 2).lastId ∧
      ((NewDefault (NewVehicleSlice [red2020, red2019] 2)).Delete 1).err = none ∧
      ((NewDefault (NewVehicleSlice [red2020, red2019] 2)).Delete 1).state.rp.db = pre ++ post ∧
      ((NewDefault (NewVehicleSlice [red2020, red2019] 2)).Delete 1).state.rp.lastId
        = (NewVehicleSlice [red2020, red2019] 2).lastId) ∧
    ((NewDefault (NewVehicleSlice [red2020, red2019] 2)).Delete 7).err
      = some .ErrServiceVehicleNotFound :=
  ⟨(VehicleSlice.Delete_removes_first (NewVehicleSlice [red2020, red2019] 2) 1).1
      ⟨red2020, by decide!, by decide!⟩,
    ((VehicleSlice.Delete_removes_first (NewVehicleSlice [red2020, red2019] 2) 7).2
      (by decide!)).2.2.2.1⟩

/-! ### The targeted updates validate like `Insert` -/

theorem Default.UpdateMaxSpeedById_of_valid (sv : Default) (id ms : GoInt)
    (hms : ¬ (ms < 1 ∨ ms > 999)) :
    sv.UpdateMaxSpeedById id ms =
      match updateFirstById id
          (fun x => { x with Attributes := { x.Attributes with MaxSpeed := ms } }) sv.rp.db with
      | some (db1, uv) => { state := { rp := { sv.rp with db := db1 } }, val := uv, err := none }
      | none => { state := sv, val := Vehicle.zero, err := some .ErrServiceVehicleNotFound } := by
  unfold Default.UpdateMaxSpeedById VehicleSlice.UpdateMaxSpeedById
  rw [if_neg hms]
  cases updateFirstById id
      (fun x => { x with Attributes := { x.Attributes with MaxSpeed := ms } }) sv.rp.db with
  | none => simp [errorsIs]
  | some pr => rfl

theorem Default.UpdateMaxSpeedById_err_iff (sv : Default) (id ms : GoInt) :
    (sv.UpdateMaxSpeedById id ms).err = some .ErrServiceInvalidVehicleMaxSpeed ↔
      (ms < 1 ∨ ms > 999) := by
  by_cases hms : ms < 1 ∨ ms > 999
  · unfold Default.UpdateMaxSpeedById
    rw [if_pos hms]
    exact ⟨fun _ => hms, fun _ => rfl⟩
  · rw [Default.UpdateMaxSpeedById_of_valid sv id ms hms]
    refine ⟨fun h => ?_, fun h => absurd h hms⟩
    cases hup : updateFirstById id
        (fun x => { x with Attributes := { x.Attributes with MaxSpeed := ms } }) sv.rp.db with
    | none => rw [hup] at h; cases h
    | some pr => rw [hup] at h; cases h

theorem Default.UpdateFuelTypeById_err_iff (sv : Default) (id : GoInt) (ft : String) :
    (sv.UpdateFuelTypeById id ft).err = some .ErrServiceInvalidVehicleFuelType ↔
      ft ∉ ["gasoline", "gas", "diesel", "biodiesel"] := by
  by_cases hft : ft ∈ ["gasoline", "gas", "diesel", "biodiesel"]
  · rw [Default.UpdateFuelTypeById_of_mem sv id ft hft]
    refine ⟨fun h => ?_, fun h => absurd hft h⟩
    cases hup : updateFirstById id
        (fun x => { x with Attributes := { x.Attributes with FuelType := ft } }) sv.rp.db with
    | none => rw [hup] at h; cases h
    | some pr => rw [hup] at h; cases h
  · have hc : ft = "" ∨ (ft ≠ "gasoline" ∧ ft ≠ "gas" ∧ ft ≠ "diesel" ∧ ft ≠ "biodiesel") := by
      by_contra hn
      exact hft ((fuelType_mem_iff ft).2 hn)
    unfold Default.UpdateFuelTypeById
    rw [if_pos hc]
    exact ⟨fun _ => hft, fun _ => rfl⟩

theorem Default.Insert_withMaxSpeed_err_iff (sv : Default) (v : Vehicle) (ms : GoInt)
    (hv : firstViolation v = none) :
    (sv.Insert { v with Attributes := { v.Attributes with MaxSpeed := ms } }).err =
        some .ErrServiceInvalidVehicleMaxSpeed ↔ (ms < 1 ∨ ms > 999) := by
  have hV := (Vehicle.Valid_iff v).2 hv
  unfold Vehicle.Valid at hV
  obtain ⟨h1, h2, h3, h4, h5, h6, h7, h8, h9, h10, h11, h12⟩ := hV
  by_cases hms : ms < 1 ∨ ms > 999
  · have hfv : Default.InsertChecks
        { v with Attributes := { v.Attributes with MaxSpeed := ms } } =
        some .ErrServiceInvalidVehicleMaxSpeed := by
      unfold Default.InsertChecks
      dsimp only
      rw [if_neg h1, if_neg h2, if_neg h3, if_neg (not_lt.2 h5), if_neg h4, if_pos hms]
    rw [Default.Insert_of_violation sv _ _ hfv]
    exact ⟨fun _ => hms, fun _ => rfl⟩
  · have hfv : firstViolation { v with Attributes := { v.Attributes with MaxSpeed := ms } } =
        none := by
      rw [← Vehicle.Valid_iff]
      unfold Vehicle.Valid
      have hlo : (1 : GoInt) ≤ ms := not_lt.1 (fun hc => hms (Or.inl hc))
      have hhi : ms ≤ 999 := not_lt.1 (fun hc => hms (Or.inr hc))
      exact ⟨h1, h2, h3, h4, h5, ⟨hlo, hhi⟩, h7, h8, h9, h10, h11, h12⟩
    rw [Default.Insert_err_of_valid sv _ (Default.InsertChecks_of_firstViolation _ hfv)]
    refine ⟨fun h => ?_, fun h => absurd h hms⟩
    split_ifs at h
    cases h

theorem Default.Insert_withFuelType_err_iff (sv : Default) (v : Vehicle) (ft : String)
    (hv : firstViolation v = none) :
    (sv.Insert { v with Attributes := { v.Attributes with FuelType := ft } }).err =
        some .ErrServiceInvalidVehicleFuelType ↔
      ft ∉ ["gasoline", "gas", "diesel", "biodiesel"] := by
  have hV := (Vehicle.Valid_iff v).2 hv
  unfold Vehicle.Valid at hV
  obtain ⟨h1, h2, h3, h4, h5, h6, h7, h8, h9, h10, h11, h12⟩ := hV
  by_cases hft : ft ∈ ["gasoline", "gas", "diesel", "biodiesel"]
  · have hfv : firstViolation { v with Attributes := { v.Attributes with FuelType := ft } } =
        none := by
      rw [← Vehicle.Valid_iff]
      unfold Vehicle.Valid
      exact ⟨h1, h2, h3, h4, h5, h6, hft, h8, h9, h10, h11, h12⟩
    rw [Default.Insert_err_of_valid sv _ (Default.InsertChecks_of_firstViolation _ hfv)]
    refine ⟨fun h => ?_, fun h => absurd hft h⟩
    split_ifs at h
    cases h
  · have hc : ft = "" ∨ (ft ≠ "gasoline" ∧ ft ≠ "gas" ∧ ft ≠ "diesel" ∧ ft ≠ "biodiesel") := by
      by_contra hn
      exact hft ((fuelType_mem_iff ft).2 hn)
    have hms : ¬ (v.Attributes.MaxSpeed < 1 ∨ v.Attributes.MaxSpeed > 999) :=
      fun h => h.elim (not_lt.2 h6.1) (not_lt.2 h6.2)
    have hfv : Default.InsertChecks
        { v with Attributes := { v.Attributes with FuelType := ft } } =
        some .ErrServiceInvalidVehicleFuelType := by
      unfold Default.InsertChecks
      dsimp only
      rw [if_neg h1, if_neg h2, if_neg h3, if_neg (not_lt.2 h5), if_neg h4, if_neg hms,
        if_pos hc]
    rw [Default.Insert_of_violation sv _ _ hfv]
    exact ⟨fun _ => hft, fun _ => rfl⟩

/-- C19: service `UpdateMaxSpeedById` returns `InvalidMaxSpeed` exactly for a
speed outside 1..999 and service `UpdateFuelTypeById` returns
`InvalidFuelType` exactly for a fuel type outside the closed set, for every
id, present or not, and then the store is unchanged; and each update rejects
a value exactly when service `Insert` rejects a record, valid in every other
field, that carries the value in that field. -/
theorem Default.updates_validate_like_insert (sv : Default) (id : GoInt) :
    (∀ ms : GoInt,
      ((sv.UpdateMaxSpeedById id ms).err = some .ErrServiceInvalidVehicleMaxSpeed ↔
        ¬ (1 ≤ ms ∧ ms ≤ 999)) ∧
      (¬ (1 ≤ ms ∧ ms ≤ 999) →
        (sv.UpdateMaxSpeedById id ms).state.rp.db = sv.rp.db ∧
        (sv.UpdateMaxSpeedById id ms).state.rp.lastId = sv.rp.lastId) ∧
      (∀ v : Vehicle, firstViolation v = none →
        ((sv.UpdateMaxSpeedById id ms).err = some .ErrServiceInvalidVehicleMaxSpeed ↔
          (sv.Insert { v with Attributes := { v.Attributes with MaxSpeed := ms } }).err =
            some .ErrServiceInvalidVehicleMaxSpeed))) ∧
    (∀ ft : String,
      ((sv.UpdateFuelTypeById id ft).err = some .ErrServiceInvalidVehicleFuelType ↔
        ft ∉ ["gasoline", "gas", "diesel", "biodiesel"]) ∧
      (ft ∉ ["gasoline", "gas", "diesel", "biodiesel"] →
        (sv.UpdateFuelTypeById id ft).state.rp.db = sv.rp.db ∧
        (sv.UpdateFuelTypeById id ft).state.rp.lastId = sv.rp.lastId) ∧
      (∀ v : Vehicle, firstViolation v = none →
        ((sv.UpdateFuelTypeById id ft).err = some .ErrServiceInvalidVehicleFuelType ↔
          (sv.Insert { v with Attributes := { v.Attributes with FuelType := ft } }).err =
            some .ErrServiceInvalidVehicleFuelType))) := by
  constructor
  · intro ms
    have hiff : ¬ (1 ≤ ms ∧ ms ≤ 999) ↔ (ms < 1 ∨ ms > 999) := by
      simp only [not_and_or, not_le, gt_iff_lt]
    refine ⟨by rw [hiff]; exact Default.UpdateMaxSpeedById_err_iff sv id ms, ?_, ?_⟩
    · intro h
      unfold Default.UpdateMaxSpeedById
      rw [if_pos (hiff.1 h)]
      exact ⟨rfl, rfl⟩
    · intro v hv
      rw [Default.UpdateMaxSpeedById_err_iff, Default.Insert_withMaxSpeed_err_iff sv v ms hv]
  · intro ft
    refine ⟨Default.UpdateFuelTypeById_err_iff sv id ft, ?_, ?_⟩
    · intro h
      have hc : ft = "" ∨
          (ft ≠ "gasoline" ∧ ft ≠ "gas" ∧ ft ≠ "diesel" ∧ ft ≠ "biodiesel") := by
        by_contra hn
        exact h ((fuelType_mem_iff ft).2 hn)
      unfold Default.UpdateFuelTypeById
      rw [if_pos hc]
      exact ⟨rfl, rfl⟩
    · intro v hv
      rw [Default.UpdateFuelTypeById_err_iff, Default.Insert_withFuelType_err_iff sv v ft hv]

/-- C19, at a concrete input: speed 1000 and fuel type "coal" are rejected for
the present id 1 and for the absent id 7, and the store is unchanged. -/
theorem Default.updates_validate_like_insert_witness :
    ((NewDefault (NewVehicleSlice [red2020] 1)).UpdateMaxSpeedById 1 1000).err
      = some .ErrServiceInvalidVehicleMaxSpeed ∧
    ((NewDefault (NewVehicleSlice [red2020] 1)).UpdateMaxSpeedById 7 1000).err
      = some .ErrServiceInvalidVehicleMaxSpeed ∧
    ((NewDefault (NewVehicleSlice [red2020] 1)).UpdateFuelTypeById 1 "coal").err
      = some .ErrServiceInvalidVehicleFuelType ∧
    (((NewDefault (NewVehicleSlice [red2020] 1)).UpdateFuelTypeById 7 "coal").state.rp.db
        = (NewDefault (NewVehicleSlice [red2020] 1)).rp.db ∧
      ((NewDefault (NewVehicleSlice [red2020] 1)).UpdateFuelTypeById 7 "coal").state.rp.lastId
        = (NewDefault (NewVehicleSlice [red2020] 1)).rp.lastId) :=
  ⟨((Default.updates_validate_like_insert (NewDefault (NewVehicleSlice [red2020] 1)) 1).1
      1000).1.2 (by decide!),
    ((Default.updates_validate_like_insert (NewDefault (NewVehicleSlice [red2020] 1)) 7).1
      1000).1.2 (by decide!),
    ((Default.updates_validate_like_insert (NewDefault (NewVehicleSlice [red2020] 1)) 1).2
      "coal").1.2 (by decide!),
    ((Default.updates_validate_like_insert (NewDefault (NewVehicleSlice [red2020] 1)) 7).2
      "coal").2.1 (by decide!)⟩

/-! ### Size of the collection and movement of the counter -/

theorem VehicleSlice.Delete_of_mem (r : VehicleSlice) (id : GoInt)
    (hex : ∃ v ∈ r.db, v.ID = id) :
    ∃ pre x post, r.db = pre ++ x :: post ∧ (∀ u ∈ pre, u.ID ≠ id) ∧ x.ID = id ∧
      (r.Delete id).err = none ∧ (r.Delete id).state.db = pre ++ post ∧
      (r.Delete id).state.lastId = r.lastId := by
  obtain ⟨pre, x, post, hl, hpre, hx⟩ := exists_first_with_id r.db id hex
  refine ⟨pre, x, post, hl, hpre, hx, ?_⟩
  unfold VehicleSlice.Delete
  rw [hl, indexById_split id x post hx pre hpre]
  simp

theorem VehicleSlice.Delete_of_not_mem (r : VehicleSlice) (id : GoInt)
    (hno : ∀ v ∈ r.db, v.ID ≠ id) :
    (r.Delete id).err = some .ErrRepositoryVehicleNotFound ∧ (r.Delete id).state = r := by
  unfold VehicleSlice.Delete
  rw [indexById_none id r.db hno]
  exact ⟨rfl, rfl⟩

theorem VehicleSlice.Delete_mem_of_success (r : VehicleSlice) (id : GoInt)
    (hok : (r.Delete id).err = none) : ∃ v ∈ r.db, v.ID = id := by
  by_contra hno
  have hno1 : ∀ v ∈ r.db, v.ID ≠ id := fun v hv hid => hno ⟨v, hv, hid⟩
  rw [(VehicleSlice.Delete_of_not_mem r id hno1).1] at hok
  cases hok

theorem VehicleSlice.insertOneAtATime_db_length (batch : List Vehicle) :
    ∀ r : VehicleSlice, (r.insertOneAtATime batch).err = none →
      (r.insertOneAtATime batch).state.db.length = r.db.length + batch.length := by
  induction batch with
  | nil => intro r _; simp [VehicleSlice.insertOneAtATime]
  | cons v rest ih =>
    intro r hok
    by_cases h : v.ID = r.lastId + 1
    · have herr : (r.Insert v).err = some .ErrRepositoryVehicleIdAlreadyExists := by
        rw [VehicleSlice.Insert_err, if_pos h]
      rw [VehicleSlice.insertOneAtATime] at hok
      simp [herr] at hok
    · have herr : (r.Insert v).err = none := by
        rw [VehicleSlice.Insert_err, if_neg h]
      obtain ⟨_, _, _, hdb, _⟩ := VehicleSlice.Insert_success r v h
      rw [VehicleSlice.insertOneAtATime] at hok ⊢
      simp only [herr] at hok ⊢
      rw [ih _ hok, hdb]
      simp only [List.length_append, List.length_cons, List.length_nil]
      omega

/-- C21: the number of records in the collection is unchanged by a successful
`UpdateMaxSpeedById` or `UpdateFuelTypeById`, goes down by exactly one on a
successful `Delete`, up by exactly one on a successful `Insert`, and up by
exactly the batch size on a successful `InsertMany`. -/
theorem VehicleSlice.collection_size (r : VehicleSlice) :
    (∀ id ms : GoInt, (r.UpdateMaxSpeedById id ms).err = none →
      (r.UpdateMaxSpeedById id ms).state.db.length = r.db.length) ∧
    (∀ (id : GoInt) (ft : String), (r.UpdateFuelTypeById id ft).err = none →
      (r.UpdateFuelTypeById id ft).state.db.length = r.db.length) ∧
    (∀ id : GoInt, (r.Delete id).err = none →
      (r.Delete id).state.db.length + 1 = r.db.length) ∧
    (∀ v : Vehicle, (r.Insert v).err = none →
      (r.Insert v).state.db.length = r.db.length + 1) ∧
    (∀ batch : List Vehicle, (r.InsertMany batch).err = none →
      (r.InsertMany batch).state.db.length = r.db.length + batch.length) := by
  refine ⟨?_, ?_, ?_, ?_, ?_⟩
  · intro id ms _
    have := congrArg List.length (VehicleSlice.UpdateMaxSpeedById_state r id ms).2
    simpa using this
  · intro id ft _
    have := congrArg List.length (VehicleSlice.UpdateFuelTypeById_state r id ft).2
    simpa using this
  · intro id hok
    obtain ⟨pre, x, post, hl, _, _, _, hdb, _⟩ :=
      VehicleSlice.Delete_of_mem r id (VehicleSlice.Delete_mem_of_success r id hok)
    rw [hdb, hl]
    simp
    omega
  · intro v hok
    have hid : v.ID ≠ r.lastId + 1 := by
      intro h
      rw [VehicleSlice.Insert_err, if_pos h] at hok
      cases hok
    obtain ⟨_, _, _, hdb, _⟩ := VehicleSlice.Insert_success r v hid
    rw [hdb]
    simp
  · intro batch hok
    unfold VehicleSlice.InsertMany at hok ⊢
    rw [VehicleSlice.InsertManyLoop_eq] at hok ⊢
    exact VehicleSlice.insertOneAtATime_db_length batch r hok

/-- C21, at a concrete input: on a store of two records, an update keeps the
size 2, a delete gives 1, an insert gives 3 and a batch of two gives 4. -/
theorem VehicleSlice.collection_size_witness :
    ((NewVehicleSlice [red2020, red2019] 2).UpdateMaxSpeedById 1 90).state.db.length
      = (NewVehicleSlice [red2020, red2019] 2).db.length ∧
    ((NewVehicleSlice [red2020, red2019] 2).Delete 1).state.db.length + 1
      = (NewVehicleSlice [red2020, red2019] 2).db.length ∧
    ((NewVehicleSlice [red2020, red2019] 2).Insert corolla).state.db.length
      = (NewVehicleSlice [red2020, red2019] 2).db.length + 1 ∧
    ((NewVehicleSlice [red2020, red2019] 2).InsertMany [corolla, corolla]).state.db.length
      = (NewVehicleSlice [red2020, red2019] 2).db.length + [corolla, corolla].length :=
  ⟨(VehicleSlice.collection_size (NewVehicleSlice [red2020, red2019] 2)).1 1 90 (by decide!),
    (VehicleSlice.collection_size (NewVehicleSlice [red2020, red2019] 2)).2.2.1 1 (by decide!),
    (VehicleSlice.collection_size (NewVehicleSlice [red2020, red2019] 2)).2.2.2.1 corolla
      (by decide!),
    (VehicleSlice.collection_size (NewVehicleSlice [red2020, red2019] 2)).2.2.2.2
      [corolla, corolla] (by decide!)⟩

/-- C22, as amended: no call of `FindAll`, `Insert`, `InsertMany`,
`UpdateMaxSpeedById`, `UpdateFuelTypeById` or `Delete`, successful or failed,
and no sequence of such calls, that does not take the id counter past the
greatest `int` (the counter plus the number of records offered for insertion
is at most `2^63 - 1`) leaves the counter lower than it was; a failed `Insert`
leaves it at its previous value, `Delete` never changes it, a successful
`Insert` moves it to the next `int`, strictly higher unless the counter was
the greatest `int`, and a successful `InsertMany` moves it by exactly the
batch size, strictly higher when the batch is not empty and the counter stays
within the greatest `int`. -/
theorem VehicleSlice.counter_monotone (r : VehicleSlice) :
    (∀ c : RepositoryCall, r.lastId.toInt + (c.inserts : Int) ≤ 9223372036854775807 →
      r.lastId ≤ (r.call c).lastId) ∧
    (∀ cs : List RepositoryCall,
      r.lastId.toInt + (insertsOffered cs : Int) ≤ 9223372036854775807 →
      r.lastId ≤ (r.calls cs).lastId) ∧
    (∀ v : Vehicle, (r.Insert v).err ≠ none → (r.Insert v).state.lastId = r.lastId) ∧
    (∀ id : GoInt, (r.Delete id).state.lastId = r.lastId) ∧
    (∀ v : Vehicle, (r.Insert v).err = none →
      (r.Insert v).state.lastId = r.lastId + 1 ∧
      (r.lastId.toInt < 9223372036854775807 → r.lastId < (r.Insert v).state.lastId)) ∧
    (∀ batch : List Vehicle, (r.InsertMany batch).err = none →
      (r.InsertMany batch).state.lastId = r.lastId + (batch.length : GoInt) ∧
      (batch ≠ [] → r.lastId.toInt + (batch.length : Int) ≤ 9223372036854775807 →
        r.lastId < (r.InsertMany batch).state.lastId)) := by
  refine ⟨fun c hb => GoInt.le_iff.2 (VehicleSlice.call_bounded r c hb).2.1,
    fun cs hb => GoInt.le_iff.2 (VehicleSlice.calls_bounded cs r hb).2.1,
    ?_, fun id => (VehicleSlice.Delete_state r id).1, ?_, ?_⟩
  · intro v herr
    have hid : v.ID = r.lastId + 1 := by
      by_contra h
      rw [VehicleSlice.Insert_err, if_neg h] at herr
      exact herr rfl
    rw [VehicleSlice.Insert_state_of_collision r v hid]
  · intro v hok
    have hid : v.ID ≠ r.lastId + 1 := by
      intro h
      rw [VehicleSlice.Insert_err, if_pos h] at hok
      cases hok
    obtain ⟨_, _, _, _, hlast⟩ := VehicleSlice.Insert_success r v hid
    rw [hlast]
    refine ⟨rfl, fun hmax => ?_⟩
    rw [GoInt.lt_iff, GoInt.toInt_succ r.lastId hmax]
    omega
  · intro batch hok
    obtain ⟨_, hlast⟩ := VehicleSlice.InsertMany_ids r batch hok
    refine ⟨hlast, fun hne hb => ?_⟩
    rw [hlast, GoInt.lt_iff, GoInt.toInt_add_natCast _ _ hb]
    have : 0 < batch.length := List.length_pos.2 hne
    omega

/-- C22, the claim as stated fails in two places. For the empty batch:
`InsertMany` of no records succeeds and leaves the counter where it was, not
strictly higher. And when the counter is the greatest `int`: a successful
`Insert` increments it around to the least `int`, lower than it was. -/
theorem VehicleSlice.counter_not_raised :
    ((NewVehicleSlice [red2020] 1).InsertMany []).err = none ∧
    ((NewDefault (NewVehicleSlice [red2020] 1)).InsertMany []).err = none ∧
    ¬ ((NewVehicleSlice [red2020] 1).lastId <
        ((NewVehicleSlice [red2020] 1).InsertMany []).state.lastId) ∧
    (counterAtMax.Insert corolla).err = none ∧
    (counterAtMax.Insert corolla).state.lastId = GoInt.MinInt64 ∧
    (counterAtMax.Insert corolla).state.lastId < counterAtMax.lastId := by
  decide!

/-- C22, at a concrete input: from counter 2, a run with a failed insert, a
delete, a successful insert and a batch of two ends at counter 5. -/
theorem VehicleSlice.counter_monotone_witness :
    (NewVehicleSlice [red2020, red2019] 2).lastId ≤
      ((NewVehicleSlice [red2020, red2019] 2).calls
        [.Insert { corolla with ID := 3 }, .Delete 1, .Insert corolla,
          .InsertMany [corolla, corolla]]).lastId ∧
    ((NewVehicleSlice [red2020, red2019] 2).calls
        [.Insert { corolla with ID := 3 }, .Delete 1, .Insert corolla,
          .InsertMany [corolla, corolla]]).lastId = 5 ∧
    ((NewVehicleSlice [red2020, red2019] 2).Insert { corolla with ID := 3 }).state.lastId
      = (NewVehicleSlice [red2020, red2019] 2).lastId ∧
    (NewVehicleSlice [red2020, red2019] 2).lastId <
      ((NewVehicleSlice [red2020, red2019] 2).InsertMany [corolla, corolla]).state.lastId :=
  ⟨(VehicleSlice.counter_monotone (NewVehicleSlice [red2020, red2019] 2)).2.1 _ (by decide!),
    by decide!,
    (VehicleSlice.counter_monotone (NewVehicleSlice [red2020, red2019] 2)).2.2.1
      { corolla with ID := 3 } (by decide!),
    ((VehicleSlice.counter_monotone (NewVehicleSlice [red2020, red2019] 2)).2.2.2.2.2
      [corolla, corolla] (by decide!)).2 (by decide!) (by decide!)⟩

/-- C23: store `FindAll` returns not-found if and only if the collection is
empty, and otherwise returns the collection itself, element by element and in
order; service `FindAll` returns that same sequence on success, and on an
empty store an error that `errors.Is` the engine's `VehiclesNotFound`. -/
theorem VehicleSlice.FindAll_returns_collection (r : VehicleSlice) :
    (r.FindAll.err = some .ErrRepositoryVehiclesNotFound ↔ r.db = []) ∧
    (r.FindAll.err ≠ none ↔ r.db = []) ∧
    (r.db ≠ [] → r.FindAll.err = none ∧ r.FindAll.val = r.db) ∧
    (r.db ≠ [] → (NewDefault r).FindAll.err = none ∧ (NewDefault r).FindAll.val = r.db) ∧
    ((NewDefault r).FindAll.err = none →
      r.db ≠ [] ∧ (NewDefault r).FindAll.val = r.FindAll.val ∧
      (NewDefault r).FindAll.val = r.db) ∧
    (r.db = [] →
      ∃ e, (NewDefault r).FindAll.err = some e ∧
        errorsIs e .ErrServiceVehiclesNotFound = true) := by
  have hstore : r.FindAll =
      if r.db = [] then { state := r, val := [], err := some .ErrRepositoryVehiclesNotFound }
      else { state := r, val := r.db, err := none } := by
    unfold VehicleSlice.FindAll
    by_cases h : r.db = []
    · simp [h]
    · have hl : ¬ r.db.length = 0 := fun hl => h (List.length_eq_zero.1 hl)
      rw [if_neg hl, if_neg h]
  rw [Default.FindAll_eq, hstore]
  by_cases h : r.db = []
  · simp [h, NewDefault, errorsIs]
  · simp [h, NewDefault]

/-- C23, at a concrete input: `FindAll` on a store of two records returns the
two records, and on the empty store it returns not-found. -/
theorem VehicleSlice.FindAll_returns_collection_witness :
    ((NewVehicleSlice [red2020, red2019] 2).FindAll.err = none ∧
      (NewVehicleSlice [red2020, red2019] 2).FindAll.val
        = (NewVehicleSlice [red2020, red2019] 2).db) ∧
    (NewVehicleSlice [] 0).FindAll.err = some .ErrRepositoryVehiclesNotFound ∧
    (∃ e, (NewDefault (NewVehicleSlice [] 0)).FindAll.err = some e ∧
      errorsIs e .ErrServiceVehiclesNotFound = true) :=
  ⟨(VehicleSlice.FindAll_returns_collection (NewVehicleSlice [red2020, red2019] 2)).2.2.1
      (by decide!),
    (VehicleSlice.FindAll_returns_collection (NewVehicleSlice [] 0)).1.2 (by decide!),
    (VehicleSlice.FindAll_returns_collection (NewVehicleSlice [] 0)).2.2.2.2.2 (by decide!)⟩

/-! ### Validation of the arguments of the filtered reads -/

theorem Default.scan_err_not_invalid (sv : Default) (p : Vehicle → Bool) (e : GoError)
    (he : (sv.scan p).err = some e) :
    isInvalidX e = false ∧ e ≠ .ErrServiceInvalidVehicleFuelType ∧
    e ≠ .ErrServiceInvalidVehicleTransmission ∧ e ≠ .ErrServiceInvalidVehicleYear ∧
    e ≠ .ErrServiceInvalidVehicleBrand ∧ e ≠ .ErrServiceInvalidVehicleHeight ∧
    e ≠ .ErrServiceInvalidVehicleWidth := by
  unfold Default.scan at he
  by_cases hdb : sv.rp.db = []
  · rw [if_pos hdb] at he
    cases he
    exact ⟨rfl, by decide!, by decide!, by decide!, by decide!, by decide!, by decide!⟩
  rw [if_neg hdb] at he
  by_cases hf : sv.rp.db.filter p = []
  · rw [if_pos hf] at he
    cases he
    exact ⟨rfl, by decide!, by decide!, by decide!, by decide!, by decide!, by decide!⟩
  · rw [if_neg hf] at he
    cases he

/-- C24: the fuel-type and the transmission filter answer an argument outside
their closed set, the empty string included, with `InvalidFuelType` resp.
`InvalidTransmission` on every store, the empty one included, and return no
records; for an argument of the set, a successful call returns exactly the
records of the store whose field equals the argument, in store order. -/
theorem Default.closed_set_filters (sv : Default) :
    (∀ ft : String, ft ∉ ["gasoline", "gas", "diesel", "biodiesel"] →
      (sv.FindAllByFuelType ft).err = some .ErrServiceInvalidVehicleFuelType ∧
      (sv.FindAllByFuelType ft).val = []) ∧
    (sv.FindAllByFuelType "").err = some .ErrServiceInvalidVehicleFuelType ∧
    (∀ t : String, t ∉ ["automatic", "semi-automatic", "manual"] →
      (sv.FindAllByTransmission t).err = some .ErrServiceInvalidVehicleTransmission ∧
      (sv.FindAllByTransmission t).val = []) ∧
    (sv.FindAllByTransmission "").err = some .ErrServiceInvalidVehicleTransmission ∧
    (∀ ft : String, ft ∈ ["gasoline", "gas", "diesel", "biodiesel"] →
      (sv.FindAllByFuelType ft).err ≠ some .ErrServiceInvalidVehicleFuelType ∧
      ((sv.FindAllByFuelType ft).err = none →
        (sv.FindAllByFuelType ft).val =
          sv.rp.db.filter (fun v => v.Attributes.FuelType = ft) ∧
        (∀ v ∈ (sv.FindAllByFuelType ft).val, v ∈ sv.rp.db ∧ v.Attributes.FuelType = ft) ∧
        (∀ v ∈ sv.rp.db, v.Attributes.FuelType = ft → v ∈ (sv.FindAllByFuelType ft).val) ∧
        (sv.FindAllByFuelType ft).val.Sublist sv.rp.db)) ∧
    (∀ t : String, t ∈ ["automatic", "semi-automatic", "manual"] →
      (sv.FindAllByTransmission t).err ≠ some .ErrServiceInvalidVehicleTransmission ∧
      ((sv.FindAllByTransmission t).err = none →
        (sv.FindAllByTransmission t).val =
          sv.rp.db.filter (fun v => v.Attributes.Transmission = t) ∧
        (∀ v ∈ (sv.FindAllByTransmission t).val,
          v ∈ sv.rp.db ∧ v.Attributes.Transmission = t) ∧
        (∀ v ∈ sv.rp.db, v.Attributes.Transmission = t →
          v ∈ (sv.FindAllByTransmission t).val) ∧
        (sv.FindAllByTransmission t).val.Sublist sv.rp.db)) := by
  have hfuel : ∀ ft : String, ft ∉ ["gasoline", "gas", "diesel", "biodiesel"] →
      (sv.FindAllByFuelType ft).err = some .ErrServiceInvalidVehicleFuelType ∧
      (sv.FindAllByFuelType ft).val = [] := by
    intro ft hft
    have hc : ft = "" ∨ (ft ≠ "gasoline" ∧ ft ≠ "gas" ∧ ft ≠ "diesel" ∧ ft ≠ "biodiesel") := by
      by_contra hn
      exact hft ((fuelType_mem_iff ft).2 hn)
    unfold Default.FindAllByFuelType
    rw [if_pos hc]
    exact ⟨rfl, rfl⟩
  have htrans : ∀ t : String, t ∉ ["automatic", "semi-automatic", "manual"] →
      (sv.FindAllByTransmission t).err = some .ErrServiceInvalidVehicleTransmission ∧
      (sv.FindAllByTransmission t).val = [] := by
    intro t ht
    have hc : t = "" ∨ (t ≠ "automatic" ∧ t ≠ "semi-automatic" ∧ t ≠ "manual") := by
      by_contra hn
      exact ht ((transmission_mem_iff t).2 hn)
    unfold Default.FindAllByTransmission
    rw [if_pos hc]
    exact ⟨rfl, rfl⟩
  refine ⟨hfuel, (hfuel "" (by decide!)).1, htrans, (htrans "" (by decide!)).1, ?_, ?_⟩
  · intro ft hft
    rw [Default.FindAllByFuelType_scan sv ft ((fuelType_mem_iff ft).1 hft)]
    refine ⟨fun he => (Default.scan_err_not_invalid sv _ _ he).2.1 rfl, fun hok => ?_⟩
    obtain ⟨f1, f2, _, f4⟩ := filter_exact sv.rp.db (fun v => v.Attributes.FuelType = ft)
    rw [(Default.scan_success sv _ hok).1]
    exact ⟨rfl, f1, f2, f4⟩
  · intro t ht
    rw [Default.FindAllByTransmission_scan sv t ((transmission_mem_iff t).1 ht)]
    refine ⟨fun he => (Default.scan_err_not_invalid sv _ _ he).2.2.1 rfl, fun hok => ?_⟩
    obtain ⟨f1, f2, _, f4⟩ := filter_exact sv.rp.db (fun v => v.Attributes.Transmission = t)
    rw [(Default.scan_success sv _ hok).1]
    exact ⟨rfl, f1, f2, f4⟩

/-- C24, at a concrete input: "coal" is refused on the empty store, and
"diesel" on a store of a gasoline Corolla and a diesel Fiesta returns the
Fiesta. -/
theorem Default.closed_set_filters_witness :
    ((NewDefault (NewVehicleSlice [] 0)).FindAllByFuelType "coal").err
      = some .ErrServiceInvalidVehicleFuelType ∧
    ((NewDefault (NewVehicleSlice [red2020, fiesta] 3)).FindAllByFuelType "diesel").val
      = [fiesta] ∧
    ((NewDefault (NewVehicleSlice [red2020, fiesta] 3)).FindAllByFuelType "diesel").val
      = (NewDefault (NewVehicleSlice [red2020, fiesta] 3)).rp.db.filter
          (fun v => v.Attributes.FuelType = "diesel") :=
  ⟨((Default.closed_set_filters (NewDefault (NewVehicleSlice [] 0))).1 "coal" (by decide!)).1,
    by decide!,
    (((Default.closed_set_filters (NewDefault (NewVehicleSlice [red2020, fiesta] 3))).2.2.2.2.1
      "diesel" (by decide!)).2 (by decide!)).1⟩

/-- C25: `FindAllByBrandAndBetweenYears` returns `InvalidBrand` when the
brand is empty, and otherwise `InvalidYear` if and only if startYear is below
1887 or endYear is below startYear, on every store; it returns an
invalid-argument error exactly when the arguments are invalid, so never for a
non-empty brand with startYear at least 1887 and endYear at least
startYear. -/
theorem Default.FindAllByBrandAndBetweenYears_invalid_iff (sv : Default) (b : String)
    (sy ey : GoInt) :
    (b = "" → (sv.FindAllByBrandAndBetweenYears b sy ey).err =
      some .ErrServiceInvalidVehicleBrand) ∧
    (b ≠ "" → ((sv.FindAllByBrandAndBetweenYears b sy ey).err =
      some .ErrServiceInvalidVehicleYear ↔ (sy < 1887 ∨ ey < sy))) ∧
    ((∃ e, (sv.FindAllByBrandAndBetweenYears b sy ey).err = some e ∧ isInvalidX e = true) ↔
      (b = "" ∨ sy < 1887 ∨ ey < sy)) ∧
    (b ≠ "" → sy ≥ 1887 → ey ≥ sy →
      ∀ e, (sv.FindAllByBrandAndBetweenYears b sy ey).err = some e → isInvalidX e = false) := by
  by_cases hb : b = ""
  · have herr : (sv.FindAllByBrandAndBetweenYears b sy ey).err =
        some .ErrServiceInvalidVehicleBrand := by
      unfold Default.FindAllByBrandAndBetweenYears
      rw [if_pos hb]
    exact ⟨fun _ => herr, fun h => absurd hb h, ⟨fun _ => Or.inl hb, fun _ => ⟨_, herr, rfl⟩⟩,
      fun h => absurd hb h⟩
  by_cases hy : sy < 1887 ∨ ey < sy
  · have herr : (sv.FindAllByBrandAndBetweenYears b sy ey).err =
        some .ErrServiceInvalidVehicleYear := by
      unfold Default.FindAllByBrandAndBetweenYears
      rw [if_neg hb, if_pos hy]
    refine ⟨fun h => absurd h hb, fun _ => ⟨fun _ => hy, fun _ => herr⟩,
      ⟨fun _ => Or.inr hy, fun _ => ⟨_, herr, rfl⟩⟩, ?_⟩
    intro _ h1 h2
    exact absurd hy (fun h => h.elim (not_lt.2 h1) (not_lt.2 h2))
  · rw [Default.FindAllByBrandAndBetweenYears_scan sv b sy ey hb hy]
    refine ⟨fun h => absurd h hb, fun _ => ⟨fun he => ?_, fun h => absurd h hy⟩,
      ⟨?_, ?_⟩, ?_⟩
    · exact absurd rfl (Default.scan_err_not_invalid sv _ _ he).2.2.2.1
    · rintro ⟨e, he, hinv⟩
      rw [(Default.scan_err_not_invalid sv _ _ he).1] at hinv
      cases hinv
    · rintro (h | h)
      · exact absurd h hb
      · exact absurd h hy
    · intro _ _ _ e he
      exact (Default.scan_err_not_invalid sv _ _ he).1

/-- C25, at a concrete input: on the empty store, an empty brand gives
`InvalidBrand`, the years 1800 to 2000 and 2000 to 1990 give `InvalidYear`,
and 1990 to 2000 gives an error that is not an invalid-argument error. -/
theorem Default.FindAllByBrandAndBetweenYears_invalid_iff_witness :
    ((NewDefault (NewVehicleSlice [] 0)).FindAllByBrandAndBetweenYears "" 1990 2000).err
      = some .ErrServiceInvalidVehicleBrand ∧
    ((NewDefault (NewVehicleSlice [] 0)).FindAllByBrandAndBetweenYears "Toyota" 1800 2000).err
      = some .ErrServiceInvalidVehicleYear ∧
    ((NewDefault (NewVehicleSlice [] 0)).FindAllByBrandAndBetweenYears "Toyota" 2000 1990).err
      = some .ErrServiceInvalidVehicleYear ∧
    (∀ e, ((NewDefault (NewVehicleSlice [] 0)).FindAllByBrandAndBetweenYears
      "Toyota" 1990 2000).err = some e → isInvalidX e = false) :=
  ⟨(Default.FindAllByBrandAndBetweenYears_invalid_iff (NewDefault (NewVehicleSlice [] 0))
      "" 1990 2000).1 (by decide!),
    ((Default.FindAllByBrandAndBetweenYears_invalid_iff (NewDefault (NewVehicleSlice [] 0))
      "Toyota" 1800 2000).2.1 (by decide!)).2 (by decide!),
    ((Default.FindAllByBrandAndBetweenYears_invalid_iff (NewDefault (NewVehicleSlice [] 0))
      "Toyota" 2000 1990).2.1 (by decide!)).2 (by decide!),
    (Default.FindAllByBrandAndBetweenYears_invalid_iff (NewDefault (NewVehicleSlice [] 0))
      "Toyota" 1990 2000).2.2.2 (by decide!) (by decide!) (by decide!)⟩

/-- C26, as amended: `FindAllByDimensions` returns `InvalidHeight` if and only
if minHeight is below 1 or maxHeight is below minHeight, and otherwise
`InvalidWidth` if and only if minWidth is below 1 or maxWidth is below
minWidth, on every store, a height violation coming before a width violation;
it returns no invalid-argument error exactly when none of these four
comparisons holds, which for bounds none of which is NaN is exactly when
minHeight >= 1, maxHeight >= minHeight, minWidth >= 1 and
maxWidth >= minWidth. -/
theorem Default.FindAllByDimensions_invalid_iff (sv : Default)
    (minH maxH minW maxW : Float64) :
    ((sv.FindAllByDimensions minH maxH minW maxW).err = some .ErrServiceInvalidVehicleHeight ↔
      (minH < 1 ∨ maxH < minH)) ∧
    (¬ (minH < 1 ∨ maxH < minH) →
      ((sv.FindAllByDimensions minH maxH minW maxW).err =
        some .ErrServiceInvalidVehicleWidth ↔ (minW < 1 ∨ maxW < minW))) ∧
    ((minH < 1 ∨ maxH < minH) →
      (sv.FindAllByDimensions minH maxH minW maxW).err ≠ some .ErrServiceInvalidVehicleWidth) ∧
    ((∀ e, (sv.FindAllByDimensions minH maxH minW maxW).err = some e → isInvalidX e = false) ↔
      ¬ (minH < 1 ∨ maxH < minH ∨ minW < 1 ∨ maxW < minW)) ∧
    (minH ≠ .NaN → maxH ≠ .NaN → minW ≠ .NaN → maxW ≠ .NaN →
      ((∀ e, (sv.FindAllByDimensions minH maxH minW maxW).err = some e →
          isInvalidX e = false) ↔
        (minH ≥ 1 ∧ maxH ≥ minH ∧ minW ≥ 1 ∧ maxW ≥ minW))) := by
  have key : (∀ e, (sv.FindAllByDimensions minH maxH minW maxW).err = some e →
      isInvalidX e = false) ↔ ¬ (minH < 1 ∨ maxH < minH ∨ minW < 1 ∨ maxW < minW) := by
    by_cases hh : minH < 1 ∨ maxH < minH
    · have herr : (sv.FindAllByDimensions minH maxH minW maxW).err =
          some .ErrServiceInvalidVehicleHeight := by
        unfold Default.FindAllByDimensions
        rw [if_pos hh]
      rw [herr]
      constructor
      · intro h
        exact absurd (h _ rfl) (by decide!)
      · intro h
        exact absurd (hh.elim Or.inl (fun x => Or.inr (Or.inl x))) h
    by_cases hw : minW < 1 ∨ maxW < minW
    · have herr : (sv.FindAllByDimensions minH maxH minW maxW).err =
          some .ErrServiceInvalidVehicleWidth := by
        unfold Default.FindAllByDimensions
        rw [if_neg hh, if_pos hw]
      rw [herr]
      constructor
      · intro h
        exact absurd (h _ rfl) (by decide!)
      · intro h
        exact absurd (hw.elim (fun x => Or.inr (Or.inr (Or.inl x)))
          (fun x => Or.inr (Or.inr (Or.inr x)))) h
    · rw [Default.FindAllByDimensions_scan sv minH maxH minW maxW hh hw]
      constructor
      · rintro _ (h | h | h | h)
        · exact hh (Or.inl h)
        · exact hh (Or.inr h)
        · exact hw (Or.inl h)
        · exact hw (Or.inr h)
      · intro _ e he
        exact (Default.scan_err_not_invalid sv _ _ he).1
  have one : (1 : Float64) ≠ .NaN := by decide
  refine ⟨?_, ?_, ?_, key, ?_⟩
  · by_cases hh : minH < 1 ∨ maxH < minH
    · have herr : (sv.FindAllByDimensions minH maxH minW maxW).err =
          some .ErrServiceInvalidVehicleHeight := by
        unfold Default.FindAllByDimensions
        rw [if_pos hh]
      exact ⟨fun _ => hh, fun _ => herr⟩
    · refine ⟨fun he => ?_, fun h => absurd h hh⟩
      by_cases hw : minW < 1 ∨ maxW < minW
      · unfold Default.FindAllByDimensions at he
        rw [if_neg hh, if_pos hw] at he
        cases he
      · rw [Default.FindAllByDimensions_scan sv minH maxH minW maxW hh hw] at he
        exact absurd rfl (Default.scan_err_not_invalid sv _ _ he).2.2.2.2.2.1
  · intro hh
    by_cases hw : minW < 1 ∨ maxW < minW
    · have herr : (sv.FindAllByDimensions minH maxH minW maxW).err =
          some .ErrServiceInvalidVehicleWidth := by
        unfold Default.FindAllByDimensions
        rw [if_neg hh, if_pos hw]
      exact ⟨fun _ => hw, fun _ => herr⟩
    · refine ⟨fun he => ?_, fun h => absurd h hw⟩
      rw [Default.FindAllByDimensions_scan sv minH maxH minW maxW hh hw] at he
      exact absurd rfl (Default.scan_err_not_invalid sv _ _ he).2.2.2.2.2.2
  · intro hh he
    unfold Default.FindAllByDimensions at he
    rw [if_pos hh] at he
    cases he
  · intro n1 n2 n3 n4
    rw [key]
    constructor
    · intro h
      exact ⟨Float64.le_of_not_lt one n1 (fun x => h (Or.inl x)),
        Float64.le_of_not_lt n1 n2 (fun x => h (Or.inr (Or.inl x))),
        Float64.le_of_not_lt one n3 (fun x => h (Or.inr (Or.inr (Or.inl x)))),
        Float64.le_of_not_lt n3 n4 (fun x => h (Or.inr (Or.inr (Or.inr x))))⟩
    · rintro ⟨h1, h2, h3, h4⟩ (h | h | h | h)
      · exact Float64.not_lt_of_le h1 h
      · exact Float64.not_lt_of_le h2 h
      · exact Float64.not_lt_of_le h3 h
      · exact Float64.not_lt_of_le h4 h

/-- C26, the claim as stated fails for a NaN bound: every comparison with NaN
is false, so with minHeight NaN neither check of `FindAllByDimensions` fires
and the call goes on to the scan and returns `VehiclesNotFound`, no
invalid-argument error, although minHeight >= 1 does not hold. -/
theorem Default.FindAllByDimensions_accepts_NaN :
    ((NewDefault (NewVehicleSlice [red2020] 1)).FindAllByDimensions .NaN 5 1 5).err
      = some .ErrServiceVehiclesNotFound ∧
    isInvalidX .ErrServiceVehiclesNotFound = false ∧
    ¬ (Float64.NaN ≥ 1 ∧ (5 : Float64) ≥ Float64.NaN ∧ (1 : Float64) ≥ 1 ∧ (5 : Float64) ≥ 1) := by
  decide!

/-- C26, at a concrete input: on the empty store, the bounds 0 to 5 for the
height give `InvalidHeight` even with the width bounds 0 to 5, and the width
bounds 3 to 2 under valid height bounds give `InvalidWidth`. -/
theorem Default.FindAllByDimensions_invalid_iff_witness :
    ((NewDefault (NewVehicleSlice [] 0)).FindAllByDimensions 0 5 0 5).err
      = some .ErrServiceInvalidVehicleHeight ∧
    ((NewDefault (NewVehicleSlice [] 0)).FindAllByDimensions 1 5 3 2).err
      = some .ErrServiceInvalidVehicleWidth ∧
    (∀ e, ((NewDefault (NewVehicleSlice [] 0)).FindAllByDimensions 1 5 1 5).err = some e →
      isInvalidX e = false) :=
  ⟨(Default.FindAllByDimensions_invalid_iff (NewDefault (NewVehicleSlice [] 0)) 0 5 0 5).1.2
      (by decide!),
    ((Default.FindAllByDimensions_invalid_iff (NewDefault (NewVehicleSlice [] 0)) 1 5 3 2).2.1
      (by decide!)).2 (by decide!),
    ((Default.FindAllByDimensions_invalid_iff (NewDefault (NewVehicleSlice [] 0))
      1 5 1 5).2.2.2.2 (by decide) (by decide) (by decide) (by decide)).2 (by decide!)⟩

/-! ### Single insert and batch insert -/

theorem VehicleSlice.insertOneAtATime_singleton (r : VehicleSlice) (v : Vehicle) :
    (r.insertOneAtATime [v]).state = (r.Insert v).state ∧
    (r.insertOneAtATime [v]).err = (r.Insert v).err ∧
    ((r.Insert v).err = none → (r.insertOneAtATime [v]).val = [(r.Insert v).val]) := by
  rw [VehicleSlice.insertOneAtATime]
  cases herr : (r.Insert v).err with
  | some e => exact ⟨rfl, rfl, fun h => by cases h⟩
  | none => exact ⟨rfl, rfl, fun _ => rfl⟩

/-- C27: for every store and every record `v`, service `InsertMany([v])` and
service `Insert(v)` return the same error or both succeed, leave the store in
the same state, and on success the batch result is the one record that
`Insert` returns; on an error neither returns a record. -/
theorem Default.InsertMany_singleton_eq_Insert (sv : Default) (v : Vehicle) :
    (sv.InsertMany [v]).err = (sv.Insert v).err ∧
    (sv.InsertMany [v]).state = (sv.Insert v).state ∧
    ((sv.Insert v).err = none → (sv.InsertMany [v]).val = [(sv.Insert v).val]) ∧
    ((sv.Insert v).err ≠ none →
      (sv.InsertMany [v]).val = [] ∧ (sv.Insert v).val = Vehicle.zero) := by
  cases hfv : Default.InsertChecks v with
  | some e =>
    have hchk : Default.InsertManyChecks [v] = some e := by
      rw [Default.InsertManyChecks_cons, hfv]
    rw [Default.Insert_of_violation sv v e hfv]
    unfold Default.InsertMany
    rw [hchk]
    exact ⟨rfl, rfl, (fun h => by cases h), fun _ => ⟨rfl, rfl⟩⟩
  | none =>
    have hchk : Default.InsertManyChecks [v] = none := by
      rw [Default.InsertManyChecks_cons, hfv]
      rfl
    obtain ⟨hs, he, hv⟩ := VehicleSlice.insertOneAtATime_singleton sv.rp v
    rw [Default.Insert_of_valid sv v hfv]
    unfold Default.InsertMany
    rw [hchk]
    simp only []
    unfold VehicleSlice.InsertMany
    rw [VehicleSlice.InsertManyLoop_eq]
    simp only [List.nil_append]
    rw [he, hs]
    cases herr : (sv.rp.Insert v).err with
    | none =>
      have := hv herr
      simp [this]
    | some e1 =>
      simp only []
      split_ifs <;> simp

/-- C27, at a concrete input: a valid record, a record of year 1800 and a
record with the colliding id 2, each given alone and as a batch of one to a
store with counter 1. -/
theorem Default.InsertMany_singleton_eq_Insert_witness :
    ((NewDefault (NewVehicleSlice [red2020] 1)).InsertMany [corolla]).val
      = [((NewDefault (NewVehicleSlice [red2020] 1)).Insert corolla).val] ∧
    ((NewDefault (NewVehicleSlice [red2020] 1)).InsertMany [year1800]).err
      = ((NewDefault (NewVehicleSlice [red2020] 1)).Insert year1800).err ∧
    ((NewDefault (NewVehicleSlice [red2020] 1)).InsertMany [red2019]).err
      = ((NewDefault (NewVehicleSlice [red2020] 1)).Insert red2019).err ∧
    ((NewDefault (NewVehicleSlice [red2020] 1)).Insert red2019).err
      = some .ErrServiceVehicleIdAlreadyExists :=
  ⟨(Default.InsertMany_singleton_eq_Insert (NewDefault (NewVehicleSlice [red2020] 1))
      corolla).2.2.1 (by decide!),
    (Default.InsertMany_singleton_eq_Insert (NewDefault (NewVehicleSlice [red2020] 1))
      year1800).1,
    (Default.InsertMany_singleton_eq_Insert (NewDefault (NewVehicleSlice [red2020] 1))
      red2019).1,
    by decide!⟩

theorem withIdsFrom_props (vs : List Vehicle) :
    ∀ c : GoInt,
      (withIdsFrom c vs).map (fun v => v.ID) =
        (List.range vs.length).map (fun (i : Nat) => c + 1 + (i : GoInt)) ∧
      (withIdsFrom c vs).map (fun v => v.Attributes) = vs.map (fun v => v.Attributes) ∧
      (withIdsFrom c vs).length = vs.length := by
  induction vs with
  | nil => intro c; exact ⟨rfl, rfl, rfl⟩
  | cons v vs ih =>
    intro c
    obtain ⟨h1, h2, h3⟩ := ih (c + 1)
    refine ⟨?_, ?_, ?_⟩
    · rw [withIdsFrom, List.map_cons, h1, List.length_cons, List.range_succ_eq_map,
        List.map_cons, List.map_map]
      congr 1
      · simp
      · apply List.map_congr_left
        intro i _
        simp only [Function.comp, Nat.succ_eq_add_one]
        push_cast
        ring
    · rw [withIdsFrom, List.map_cons, h2, List.map_cons]
    · rw [withIdsFrom, List.length_cons, h3, List.length_cons]

theorem VehicleSlice.insertOneAtATime_collision (batch : List Vehicle) :
    ∀ (r : VehicleSlice) (k : Nat),
      (∃ x, batch[k]? = some x ∧ x.ID = r.lastId + (k : GoInt) + 1) →
      (∀ j < k, ∀ x, batch[j]? = some x → x.ID ≠ r.lastId + (j : GoInt) + 1) →
      (r.insertOneAtATime batch).err = some .ErrRepositoryVehicleIdAlreadyExists ∧
      (r.insertOneAtATime batch).state.db = r.db ++ withIdsFrom r.lastId (batch.take k) ∧
      (r.insertOneAtATime batch).state.lastId = r.lastId + (k : GoInt) := by
  induction batch with
  | nil =>
    intro r k hk _
    obtain ⟨x, hx, _⟩ := hk
    simp at hx
  | cons v rest ih =>
    intro r k hk hmin
    cases k with
    | zero =>
      obtain ⟨x, hx, hid⟩ := hk
      simp only [List.getElem?_cons_zero, Option.some.injEq] at hx
      subst hx
      have hid1 : v.ID = r.lastId + 1 := by simpa using hid
      have herr : (r.Insert v).err = some .ErrRepositoryVehicleIdAlreadyExists := by
        rw [VehicleSlice.Insert_err, if_pos hid1]
      rw [VehicleSlice.insertOneAtATime]
      simp only [herr, VehicleSlice.Insert_state_of_collision r v hid1]
      simp [withIdsFrom]
    | succ k =>
      have hv : v.ID ≠ r.lastId + 1 := by
        have := hmin 0 (Nat.succ_pos k) v (by simp)
        simpa using this
      have herr : (r.Insert v).err = none := by
        rw [VehicleSlice.Insert_err, if_neg hv]
      have hst := VehicleSlice.Insert_state r v
      rw [if_neg hv] at hst
      obtain ⟨x, hx, hid⟩ := hk
      have hk1 : ∃ x, rest[k]? = some x ∧
          x.ID = (r.Insert v).state.lastId + (k : GoInt) + 1 := by
        refine ⟨x, by simpa using hx, ?_⟩
        rw [hst, hid]
        push_cast
        ring
      have hmin1 : ∀ j < k, ∀ y, rest[j]? = some y →
          y.ID ≠ (r.Insert v).state.lastId + (j : GoInt) + 1 := by
        intro j hj y hy
        have := hmin (j + 1) (Nat.succ_lt_succ hj) y (by simpa using hy)
        rw [hst]
        intro hc
        apply this
        rw [hc]
        push_cast
        ring
      obtain ⟨e1, e2, e3⟩ := ih (r.Insert v).state k hk1 hmin1
      rw [VehicleSlice.insertOneAtATime]
      simp only [herr]
      rw [e1, e2, e3, hst]
      refine ⟨rfl, ?_, ?_⟩
      · simp [withIdsFrom]
      · show r.lastId + 1 + (k : GoInt) = r.lastId + ((k + 1 : Nat) : GoInt)
        push_cast
        ring

/-- C28: for a batch of records that all pass validation, if `k` is the
least index with `batch[k].ID == counter + k + 1`, service `InsertMany`
returns `VehicleIdAlreadyExists` and no records, and yet the store afterwards
holds the old collection followed by the first `k` records of the batch with
the ids counter+1 .. counter+k, and the counter is counter+k. -/
theorem Default.InsertMany_no_rollback (sv : Default) (batch : List Vehicle) (k : Nat)
    (hvalid : ∀ v ∈ batch, ∀ rule ∈ fieldRules, rule.1 v.Attributes = true)
    (hk : ∃ x, batch[k]? = some x ∧ x.ID = sv.rp.lastId + (k : GoInt) + 1)
    (hmin : ∀ j < k, ∀ x, batch[j]? = some x → x.ID ≠ sv.rp.lastId + (j : GoInt) + 1) :
    (sv.InsertMany batch).err = some .ErrServiceVehicleIdAlreadyExists ∧
    (sv.InsertMany batch).val = [] ∧
    (sv.InsertMany batch).state.rp.db =
      sv.rp.db ++ withIdsFrom sv.rp.lastId (batch.take k) ∧
    (sv.InsertMany batch).state.rp.lastId = sv.rp.lastId + (k : GoInt) ∧
    (withIdsFrom sv.rp.lastId (batch.take k)).map (fun v => v.ID) =
      (List.range k).map (fun (i : Nat) => sv.rp.lastId + 1 + (i : GoInt)) ∧
    (withIdsFrom sv.rp.lastId (batch.take k)).map (fun v => v.Attributes) =
      (batch.take k).map (fun v => v.Attributes) := by
  have hchk : Default.InsertManyChecks batch = none :=
    (Default.InsertManyChecks_eq_none batch).2
      (fun u hu => Default.InsertChecks_of_firstViolation u
        ((firstViolation_eq_none_iff u).2 (hvalid u hu)))
  obtain ⟨e1, e2, e3⟩ := VehicleSlice.insertOneAtATime_collision batch sv.rp k hk hmin
  obtain ⟨p1, p2, _⟩ := withIdsFrom_props (batch.take k) sv.rp.lastId
  have hlen : (batch.take k).length = k := by
    obtain ⟨x, hx, _⟩ := hk
    have hlt : k < batch.length := by
      by_contra hge
      rw [List.getElem?_eq_none (not_lt.1 hge)] at hx
      cases hx
    rw [List.length_take]
    omega
  rw [hlen] at p1
  refine ⟨?_, ?_, ?_, ?_, p1, p2⟩
  all_goals
    unfold Default.InsertMany
    rw [hchk]
    simp only []
    unfold VehicleSlice.InsertMany
    rw [VehicleSlice.InsertManyLoop_eq]
    simp [errorsIs, e1, e2, e3]

/-- C28, at a concrete input: a store with counter 1 and the batch of a valid
record with id 0 followed by a valid record with id 3: the call fails, and
the first record stays in the store with id 2. -/
theorem Default.InsertMany_no_rollback_witness :
    ((NewDefault (NewVehicleSlice [red2020] 1)).InsertMany
      [corolla, { corolla with ID := 3 }]).err = some .ErrServiceVehicleIdAlreadyExists ∧
    ((NewDefault (NewVehicleSlice [red2020] 1)).InsertMany
      [corolla, { corolla with ID := 3 }]).val = [] ∧
    ((NewDefault (NewVehicleSlice [red2020] 1)).InsertMany
      [corolla, { corolla with ID := 3 }]).state.rp.db =
        (NewDefault (NewVehicleSlice [red2020] 1)).rp.db ++
          withIdsFrom (NewDefault (NewVehicleSlice [red2020] 1)).rp.lastId
            ([corolla, { corolla with ID := 3 }].take 1) ∧
    ((NewDefault (NewVehicleSlice [red2020] 1)).InsertMany
      [corolla, { corolla with ID := 3 }]).state.rp.lastId =
        (NewDefault (NewVehicleSlice [red2020] 1)).rp.lastId + ((1 : Nat) : GoInt) ∧
    ((NewDefault (NewVehicleSlice [red2020] 1)).InsertMany
      [corolla, { corolla with ID := 3 }]).state.rp.db = [red2020, { corolla with ID := 2 }] :=
  ⟨(Default.InsertMany_no_rollback (NewDefault (NewVehicleSlice [red2020] 1))
      [corolla, { corolla with ID := 3 }] 1 (by decide!)
      ⟨{ corolla with ID := 3 }, by decide!, by decide!⟩ (by decide!)).1,
    (Default.InsertMany_no_rollback (NewDefault (NewVehicleSlice [red2020] 1))
      [corolla, { corolla with ID := 3 }] 1 (by decide!)
      ⟨{ corolla with ID := 3 }, by decide!, by decide!⟩ (by decide!)).2.1,
    (Default.InsertMany_no_rollback (NewDefault (NewVehicleSlice [red2020] 1))
      [corolla, { corolla with ID := 3 }] 1 (by decide!)
      ⟨{ corolla with ID := 3 }, by decide!, by decide!⟩ (by decide!)).2.2.1,
    (Default.InsertMany_no_rollback (NewDefault (NewVehicleSlice [red2020] 1))
      [corolla, { corolla with ID := 3 }] 1 (by decide!)
      ⟨{ corolla with ID := 3 }, by decide!, by decide!⟩ (by decide!)).2.2.2.1,
    by decide!⟩

/-! ### After a delete -/

theorem VehicleSlice.Delete_no_id_left (r : VehicleSlice) (id : GoInt)
    (huniq : r.db.Pairwise (fun a b => a.ID ≠ b.ID)) (hex : ∃ v ∈ r.db, v.ID = id) :
    (r.Delete id).err = none ∧ ∀ v ∈ (r.Delete id).state.db, v.ID ≠ id := by
  obtain ⟨pre, x, post, hl, hpre, hx, herr, hdb, _⟩ := VehicleSlice.Delete_of_mem r id hex
  refine ⟨herr, ?_⟩
  rw [hdb]
  rw [hl, List.pairwise_append, List.pairwise_cons] at huniq
  obtain ⟨_, ⟨hpost, _⟩, _⟩ := huniq
  intro v hv
  rcases List.mem_append.1 hv with hv | hv
  · exact hpre v hv
  · intro hid
    exact hpost v hv (by rw [hx, hid])

/-- C30: in a store whose record ids are pairwise distinct, after a
successful `Delete` of a present id no record with that id remains, so a
repeated `Delete` of it and a following `UpdateMaxSpeedById` or
`UpdateFuelTypeById` on it return not-found; without the distinctness this
fails: in a store with two records of id 1, `Delete(1)` succeeds twice in a
row, and the update after the first delete succeeds. -/
theorem VehicleSlice.Delete_then_not_found :
    (∀ (r : VehicleSlice) (id : GoInt), r.db.Pairwise (fun a b => a.ID ≠ b.ID) →
      (∃ v ∈ r.db, v.ID = id) →
      (r.Delete id).err = none ∧
      (∀ v ∈ (r.Delete id).state.db, v.ID ≠ id) ∧
      ((r.Delete id).state.Delete id).err = some .ErrRepositoryVehicleNotFound ∧
      (∀ ms : GoInt, ((r.Delete id).state.UpdateMaxSpeedById id ms).err =
        some .ErrRepositoryVehicleNotFound) ∧
      (∀ ft : String, ((r.Delete id).state.UpdateFuelTypeById id ft).err =
        some .ErrRepositoryVehicleNotFound)) ∧
    ((∃ v ∈ twoWithId1.db, v.ID = 1) ∧
      (twoWithId1.Delete 1).err = none ∧
      (∃ v ∈ (twoWithId1.Delete 1).state.db, v.ID = 1) ∧
      ((twoWithId1.Delete 1).state.Delete 1).err = none ∧
      ((twoWithId1.Delete 1).state.UpdateMaxSpeedById 1 90).err = none ∧
      ((twoWithId1.Delete 1).state.UpdateFuelTypeById 1 "gas").err = none) := by
  constructor
  · intro r id huniq hex
    obtain ⟨herr, hno⟩ := VehicleSlice.Delete_no_id_left r id huniq hex
    refine ⟨herr, hno, (VehicleSlice.Delete_of_not_mem _ id hno).1, ?_, ?_⟩
    · intro ms
      unfold VehicleSlice.UpdateMaxSpeedById
      rw [updateFirstById_none id _ _ hno]
    · intro ft
      unfold VehicleSlice.UpdateFuelTypeById
      rw [updateFirstById_none id _ _ hno]
  · exact ⟨⟨red2020, by decide!, by decide!⟩, by decide!,
      ⟨{ red2019 with ID := 1 }, by decide!, by decide!⟩, by decide!, by decide!, by decide!⟩

/-- C30, at a concrete input: record 1 deleted from a store of the two
records 1 and 2, then deleted and updated again. -/
theorem VehicleSlice.Delete_then_not_found_witness :
    ((NewVehicleSlice [red2020, red2019] 2).Delete 1).err = none ∧
    (∀ v ∈ ((NewVehicleSlice [red2020, red2019] 2).Delete 1).state.db, v.ID ≠ 1) ∧
    (((NewVehicleSlice [red2020, red2019] 2).Delete 1).state.Delete 1).err
      = some .ErrRepositoryVehicleNotFound ∧
    (∀ ms : GoInt, (((NewVehicleSlice [red2020, red2019] 2).Delete 1).state.UpdateMaxSpeedById
      1 ms).err = some .ErrRepositoryVehicleNotFound) ∧
    (∀ ft : String, (((NewVehicleSlice [red2020, red2019] 2).Delete 1).state.UpdateFuelTypeById
      1 ft).err = some .ErrRepositoryVehicleNotFound) :=
  VehicleSlice.Delete_then_not_found.1 (NewVehicleSlice [red2020, red2019] 2) 1
    (by decide!) ⟨red2020, by decide!, by decide!⟩

/-! ### An empty range of years -/

/-- C31: for a non-empty brand and years with startYear at least 1887 and
startYear <= endYear <= startYear + 1, `FindAllByBrandAndBetweenYears` passes
validation and returns, with no records, an error that `errors.Is` the
engine's `VehiclesNotFound` (the sentinel itself on a non-empty store, the
error of `FindAll` on an empty one): no year lies strictly between startYear
and endYear, so no record matches. -/
theorem Default.FindAllByBrandAndBetweenYears_empty_range (sv : Default) (b : String)
    (sy ey : GoInt) (hb : b ≠ "") (hsy : sy ≥ 1887) (h1 : sy ≤ ey)
    (h2 : ey.toInt ≤ sy.toInt + 1) :
    (∃ e, (sv.FindAllByBrandAndBetweenYears b sy ey).err = some e ∧
      errorsIs e .ErrServiceVehiclesNotFound = true ∧ isInvalidX e = false) ∧
    (sv.FindAllByBrandAndBetweenYears b sy ey).val = [] ∧
    (sv.rp.db ≠ [] →
      (sv.FindAllByBrandAndBetweenYears b sy ey).err = some .ErrServiceVehiclesNotFound) ∧
    (sv.rp.db = [] → (sv.FindAllByBrandAndBetweenYears b sy ey).err = sv.FindAll.err) ∧
    (∀ v : Vehicle, ¬ (sy < v.Attributes.Year ∧ v.Attributes.Year < ey)) := by
  have hy : ¬ (sy < 1887 ∨ ey < sy) := fun h => h.elim (not_lt.2 hsy) (not_lt.2 h1)
  have hnone : ∀ v : Vehicle, ¬ (sy < v.Attributes.Year ∧ v.Attributes.Year < ey) := by
    rintro v ⟨ha, hb1⟩
    rw [GoInt.lt_iff] at ha hb1
    omega
  have hf : sv.rp.db.filter (fun vehicle => vehicle.Attributes.Brand = b ∧
      vehicle.Attributes.Year > sy ∧ vehicle.Attributes.Year < ey) = [] := by
    rw [List.filter_eq_nil_iff]
    intro v _ hv
    have := of_decide_eq_true hv
    exact hnone v ⟨this.2.1, this.2.2⟩
  rw [Default.FindAllByBrandAndBetweenYears_scan sv b sy ey hb hy, Default.FindAll_eq]
  unfold Default.scan
  by_cases hdb : sv.rp.db = []
  · rw [if_pos hdb, if_pos hdb]
    exact ⟨⟨_, rfl, by decide!, rfl⟩, rfl, fun h => absurd hdb h, fun _ => rfl, hnone⟩
  · rw [if_neg hdb, if_pos hf]
    exact ⟨⟨_, rfl, by decide!, rfl⟩, rfl, fun _ => rfl, fun h => absurd h hdb, hnone⟩

/-- C31, at a concrete input: for ("Toyota", 2017, 2017) and ("Toyota", 2016,
2017) on a store holding a Toyota of 2015 and a Toyota of 2017 the answer is
`VehiclesNotFound`. -/
theorem Default.FindAllByBrandAndBetweenYears_empty_range_witness :
    ((NewDefault (NewVehicleSlice [toyota2015, toyota2017] 2)).FindAllByBrandAndBetweenYears
      "Toyota" 2017 2017).err = some .ErrServiceVehiclesNotFound ∧
    ((NewDefault (NewVehicleSlice [toyota2015, toyota2017] 2)).FindAllByBrandAndBetweenYears
      "Toyota" 2016 2017).err = some .ErrServiceVehiclesNotFound :=
  ⟨(Default.FindAllByBrandAndBetweenYears_empty_range
      (NewDefault (NewVehicleSlice [toyota2015, toyota2017] 2)) "Toyota" 2017 2017
      (by decide!) (by decide!) (by decide!) (by decide!)).2.2.1 (by decide!),
    (Default.FindAllByBrandAndBetweenYears_empty_range
      (NewDefault (NewVehicleSlice [toyota2015, toyota2017] 2)) "Toyota" 2016 2017
      (by decide!) (by decide!) (by decide!) (by decide!)).2.2.1 (by decide!)⟩

/-! ### Range of the two aggregates -/

theorem Default.CalculateAverageSpeedByBrand_ok_of_mem (sv : Default) (b : String)
    (hb : b ≠ "") (hex : ∃ v ∈ sv.rp.db, v.Attributes.Brand = b) :
    (sv.CalculateAverageSpeedByBrand b).err = none := by
  obtain ⟨hdb, hf⟩ := filter_brand_ne_nil sv.rp.db b hex
  rw [Default.CalculateAverageSpeedByBrand_eq, if_neg hb, if_neg hdb, if_neg hf]

/-- C32: on a store in which every record satisfies the field constraints
(a store of at most `2^43` records, so that the `int` sum of the field stays
below `2^53` and is converted to `float64` exactly), for every brand, a
successful `CalculateAverageSpeedByBrand` returns a value between 1 and 999
and a successful `CalculateAverageCapacityByBrand` a value between 1 and 6,
bounds included. -/
theorem Default.averages_within_range (sv : Default) (b : String)
    (hvalid : ∀ v ∈ sv.rp.db, v.Valid) (hlen : sv.rp.db.length ≤ 8796093022208) :
    ((sv.CalculateAverageSpeedByBrand b).err = none →
      1 ≤ (sv.CalculateAverageSpeedByBrand b).val ∧
      (sv.CalculateAverageSpeedByBrand b).val ≤ 999) ∧
    ((sv.CalculateAverageCapacityByBrand b).err = none →
      1 ≤ (sv.CalculateAverageCapacityByBrand b).val ∧
      (sv.CalculateAverageCapacityByBrand b).val ≤ 6) := by
  have hmem : ∀ v ∈ sv.rp.db.filter (fun v => v.Attributes.Brand = b), v.Valid :=
    fun v hv => hvalid v (List.mem_filter.1 hv).1
  have hflen : (sv.rp.db.filter (fun v => v.Attributes.Brand = b)).length ≤ 8796093022208 :=
    le_trans (List.length_filter_le _ _) hlen
  rw [Default.CalculateAverageSpeedByBrand_eq, Default.CalculateAverageCapacityByBrand_eq]
  constructor
  · intro hok
    by_cases hb : b = ""
    · rw [if_pos hb] at hok; cases hok
    rw [if_neg hb] at hok ⊢
    by_cases hdb : sv.rp.db = []
    · rw [if_pos hdb] at hok; cases hok
    rw [if_neg hdb] at hok ⊢
    by_cases hf : sv.rp.db.filter (fun v => v.Attributes.Brand = b) = []
    · rw [if_pos hf] at hok; cases hok
    rw [if_neg hf]
    obtain ⟨r, hr, h1, h2⟩ := quotient_between 1 999
      ((sv.rp.db.filter (fun v => v.Attributes.Brand = b)).map (fun v => v.Attributes.MaxSpeed))
      (by simpa using hf) (by simpa using hflen) (by norm_num) (by norm_num)
      (by
        intro x hx
        obtain ⟨v, hv, rfl⟩ := List.mem_map.1 hx
        have hV := hmem v hv
        unfold Vehicle.Valid at hV
        obtain ⟨a1, a2⟩ := hV.2.2.2.2.2.1
        have e2 : (999 : GoInt).toInt = 999 := by decide!
        rw [GoInt.le_iff] at a1 a2
        rw [GoInt.toInt_one] at a1
        rw [e2] at a2
        exact ⟨a1, a2⟩)
    show (1 : Float64) ≤ Float64.div _ _ ∧ Float64.div _ _ ≤ (999 : Float64)
    rw [hr, Float64.ofNat_eq, Float64.ofNat_eq, Float64.le_iff_finite, Float64.le_iff_finite]
    push_cast at h1 h2 ⊢
    exact ⟨h1, h2⟩
  · intro hok
    by_cases hb : b = ""
    · rw [if_pos hb] at hok; cases hok
    rw [if_neg hb] at hok ⊢
    by_cases hdb : sv.rp.db = []
    · rw [if_pos hdb] at hok; cases hok
    rw [if_neg hdb] at hok ⊢
    by_cases hf : sv.rp.db.filter (fun v => v.Attributes.Brand = b) = []
    · rw [if_pos hf] at hok; cases hok
    rw [if_neg hf]
    obtain ⟨r, hr, h1, h2⟩ := quotient_between 1 6
      ((sv.rp.db.filter (fun v => v.Attributes.Brand = b)).map
        (fun v => v.Attributes.Passengers))
      (by simpa using hf) (by simpa using hflen) (by norm_num) (by norm_num)
      (by
        intro x hx
        obtain ⟨v, hv, rfl⟩ := List.mem_map.1 hx
        have hV := hmem v hv
        unfold Vehicle.Valid at hV
        obtain ⟨a1, a2⟩ := hV.2.2.2.2.2.2.2.2.1
        have e2 : (6 : GoInt).toInt = 6 := by decide!
        rw [GoInt.le_iff] at a1 a2
        rw [GoInt.toInt_one] at a1
        rw [e2] at a2
        exact ⟨a1, a2⟩)
    show (1 : Float64) ≤ Float64.div _ _ ∧ Float64.div _ _ ≤ (6 : Float64)
    rw [hr, Float64.ofNat_eq, Float64.ofNat_eq, Float64.le_iff_finite, Float64.le_iff_finite]
    push_cast at h1 h2 ⊢
    exact ⟨h1, h2⟩

/-- C32, at a concrete input: the average speed of the Toyotas of a store of
two Toyotas and a Ford lies between 1 and 999. -/
theorem Default.averages_within_range_witness :
    1 ≤ ((NewDefault (NewVehicleSlice [toyota100, toyota150, fiesta] 3)).CalculateAverageSpeedByBrand
      "Toyota").val ∧
    ((NewDefault (NewVehicleSlice [toyota100, toyota150, fiesta] 3)).CalculateAverageSpeedByBrand
      "Toyota").val ≤ 999 :=
  (Default.averages_within_range (NewDefault (NewVehicleSlice [toyota100, toyota150, fiesta] 3))
    "Toyota" (by decide!) (by decide!)).1
    (Default.CalculateAverageSpeedByBrand_ok_of_mem
      (NewDefault (NewVehicleSlice [toyota100, toyota150, fiesta] 3)) "Toyota" (by decide!)
      ⟨toyota100, by decide!, by decide!⟩)

/-! ### Reads and the store -/

/-- C33: `FindAll`, the six filtered reads and the two aggregates leave the
service and its store (collection and counter) exactly as they were, for
every argument and every store, on success and on error; the same read made
again on the state it leaves returns the same outcome. -/
theorem Default.reads_leave_store (sv : Default) :
    (sv.rp.FindAll.state = sv.rp ∧ sv.rp.FindAll.state.FindAll = sv.rp.FindAll) ∧
    (sv.FindAll.state = sv ∧ sv.FindAll.state.FindAll = sv.FindAll) ∧
    (∀ (c : String) (y : GoInt),
      (sv.FindAllByColorAndYear c y).state = sv ∧
      (sv.FindAllByColorAndYear c y).state.FindAllByColorAndYear c y =
        sv.FindAllByColorAndYear c y) ∧
    (∀ (b : String) (sy ey : GoInt),
      (sv.FindAllByBrandAndBetweenYears b sy ey).state = sv ∧
      (sv.FindAllByBrandAndBetweenYears b sy ey).state.FindAllByBrandAndBetweenYears b sy ey =
        sv.FindAllByBrandAndBetweenYears b sy ey) ∧
    (∀ ft : String,
      (sv.FindAllByFuelType ft).state = sv ∧
      (sv.FindAllByFuelType ft).state.FindAllByFuelType ft = sv.FindAllByFuelType ft) ∧
    (∀ t : String,
      (sv.FindAllByTransmission t).state = sv ∧
      (sv.FindAllByTransmission t).state.FindAllByTransmission t =
        sv.FindAllByTransmission t) ∧
    (∀ minH maxH minW maxW : Float64,
      (sv.FindAllByDimensions minH maxH minW maxW).state = sv ∧
      (sv.FindAllByDimensions minH maxH minW maxW).state.FindAllByDimensions
        minH maxH minW maxW = sv.FindAllByDimensions minH maxH minW maxW) ∧
    (∀ minW maxW : Float64,
      (sv.FindAllByWeight minW maxW).state = sv ∧
      (sv.FindAllByWeight minW maxW).state.FindAllByWeight minW maxW =
        sv.FindAllByWeight minW maxW) ∧
    (∀ b : String,
      (sv.CalculateAverageSpeedByBrand b).state = sv ∧
      (sv.CalculateAverageSpeedByBrand b).state.CalculateAverageSpeedByBrand b =
        sv.CalculateAverageSpeedByBrand b) ∧
    (∀ b : String,
      (sv.CalculateAverageCapacityByBrand b).state = sv ∧
      (sv.CalculateAverageCapacityByBrand b).state.CalculateAverageCapacityByBrand b =
        sv.CalculateAverageCapacityByBrand b) := by
  refine ⟨⟨VehicleSlice.store_FindAll_state sv.rp, by rw [VehicleSlice.store_FindAll_state]⟩,
    ⟨Default.FindAll_state sv, by rw [Default.FindAll_state]⟩, ?_, ?_, ?_, ?_, ?_, ?_, ?_, ?_⟩
  · intro c y
    exact ⟨Default.FindAllByColorAndYear_state sv c y,
      by rw [Default.FindAllByColorAndYear_state]⟩
  · intro b sy ey
    exact ⟨Default.FindAllByBrandAndBetweenYears_state sv b sy ey,
      by rw [Default.FindAllByBrandAndBetweenYears_state]⟩
  · intro ft
    exact ⟨Default.FindAllByFuelType_state sv ft, by rw [Default.FindAllByFuelType_state]⟩
  · intro t
    exact ⟨Default.FindAllByTransmission_state sv t,
      by rw [Default.FindAllByTransmission_state]⟩
  · intro minH maxH minW maxW
    exact ⟨Default.FindAllByDimensions_state sv minH maxH minW maxW,
      by rw [Default.FindAllByDimensions_state]⟩
  · intro minW maxW
    exact ⟨Default.FindAllByWeight_state sv minW maxW, by rw [Default.FindAllByWeight_state]⟩
  · intro b
    exact ⟨Default.CalculateAverageSpeedByBrand_state sv b,
      by rw [Default.CalculateAverageSpeedByBrand_state]⟩
  · intro b
    exact ⟨Default.CalculateAverageCapacityByBrand_state sv b,
      by rw [Default.CalculateAverageCapacityByBrand_state]⟩

/-- C33, at a concrete input: a successful and a failing read on a store of
two records leave the collection and the counter as they were. -/
theorem Default.reads_leave_store_witness :
    ((NewDefault (NewVehicleSlice [red2020, red2019] 2)).FindAllByColorAndYear
      "red" 2020).state = NewDefault (NewVehicleSlice [red2020, red2019] 2) ∧
    ((NewDefault (NewVehicleSlice [red2020, red2019] 2)).FindAllByFuelType
      "coal").state = NewDefault (NewVehicleSlice [red2020, red2019] 2) ∧
    ((NewDefault (NewVehicleSlice [red2020, red2019] 2)).FindAllByColorAndYear
      "red" 2020).state.rp.db = [red2020, red2019] ∧
    ((NewDefault (NewVehicleSlice [red2020, red2019] 2)).FindAllByColorAndYear
      "red" 2020).state.rp.lastId = 2 :=
  ⟨((Default.reads_leave_store (NewDefault (NewVehicleSlice [red2020, red2019] 2))).2.2.1
      "red" 2020).1,
    ((Default.reads_leave_store (NewDefault (NewVehicleSlice [red2020, red2019] 2))).2.2.2.2.1
      "coal").1,
    by decide!, by decide!⟩

/-! ### Inserts with an id not above the counter -/

theorem VehicleSlice.insertOneAtATime_below_counter (batch : List Vehicle) :
    ∀ r : VehicleSlice, (∀ v ∈ batch, v.ID ≤ r.lastId) →
      r.lastId.toInt + (batch.length : Int) ≤ 9223372036854775807 →
      (r.insertOneAtATime batch).err = none ∧
      (r.insertOneAtATime batch).val = withIdsFrom r.lastId batch ∧
      (r.insertOneAtATime batch).state.db = r.db ++ withIdsFrom r.lastId batch ∧
      (r.insertOneAtATime batch).state.lastId = r.lastId + (batch.length : GoInt) := by
  induction batch with
  | nil => intro r _ _; simp [VehicleSlice.insertOneAtATime, withIdsFrom]
  | cons v rest ih =>
    intro r hle hb
    rw [List.length_cons] at hb
    push_cast at hb
    have hs := GoInt.toInt_succ r.lastId (by omega)
    have hv : v.ID ≠ r.lastId + 1 := by
      have := GoInt.le_iff.1 (hle v (List.mem_cons_self _ _))
      intro hc
      rw [hc, hs] at this
      omega
    have herr : (r.Insert v).err = none := by
      rw [VehicleSlice.Insert_err, if_neg hv]
    have hst := VehicleSlice.Insert_state r v
    rw [if_neg hv] at hst
    have hval : (r.Insert v).val = { v with ID := r.lastId + 1 } := by
      unfold VehicleSlice.Insert
      simp [if_neg hv]
    have hrest : ∀ w ∈ rest, w.ID ≤ (r.Insert v).state.lastId := by
      intro w hw
      have := GoInt.le_iff.1 (hle w (List.mem_cons_of_mem _ hw))
      rw [hst]
      show w.ID ≤ r.lastId + 1
      rw [GoInt.le_iff, hs]
      omega
    have hb1 : (r.Insert v).state.lastId.toInt + (rest.length : Int)
        ≤ 9223372036854775807 := by
      rw [hst]
      show (r.lastId + 1).toInt + (rest.length : Int) ≤ 9223372036854775807
      rw [hs]
      omega
    obtain ⟨e1, e2, e3, e4⟩ := ih (r.Insert v).state hrest hb1
    rw [VehicleSlice.insertOneAtATime]
    simp only [herr]
    rw [e1, e2, e3, e4, hval, hst]
    refine ⟨rfl, ?_, ?_, ?_⟩
    · simp [withIdsFrom]
    · simp [withIdsFrom]
    · show r.lastId + 1 + (rest.length : GoInt) = r.lastId + ((rest.length + 1 : Nat) : GoInt)
      push_cast
      ring

/-- C34, as amended: on a store whose counter is at least 0 and below the
greatest `int`, service `Insert` of a record that passes validation and whose
id is not greater than the counter, such as id 0, succeeds, and so never
returns `VehicleIdAlreadyExists`; on a store whose counter is at least 0,
service `InsertMany` of a batch of records that pass validation and all have
id 0, a batch that does not take the counter past the greatest `int`,
succeeds in full, every record stored with the next ids. With counter -1 the
insert of a valid record with id 0 is refused with
`VehicleIdAlreadyExists`. -/
theorem Default.Insert_succeeds_below_counter (sv : Default) :
    (∀ v : Vehicle, 0 ≤ sv.rp.lastId → sv.rp.lastId.toInt < 9223372036854775807 →
      firstViolation v = none → v.ID ≤ sv.rp.lastId →
      (sv.Insert v).err = none ∧
      (sv.Insert v).val = { v with ID := sv.rp.lastId + 1 } ∧
      (sv.Insert v).state.rp.db = sv.rp.db ++ [(sv.Insert v).val] ∧
      (sv.Insert v).state.rp.lastId = sv.rp.lastId + 1) ∧
    (∀ batch : List Vehicle, 0 ≤ sv.rp.lastId →
      sv.rp.lastId.toInt + (batch.length : Int) ≤ 9223372036854775807 →
      (∀ v ∈ batch, firstViolation v = none ∧ v.ID = 0) →
      (sv.InsertMany batch).err = none ∧
      (sv.InsertMany batch).val = withIdsFrom sv.rp.lastId batch ∧
      (sv.InsertMany batch).val.length = batch.length ∧
      (sv.InsertMany batch).state.rp.db = sv.rp.db ++ (sv.InsertMany batch).val ∧
      (sv.InsertMany batch).state.rp.lastId = sv.rp.lastId + (batch.length : GoInt)) ∧
    (∀ v : Vehicle, sv.rp.lastId = -1 → firstViolation v = none → v.ID = 0 →
      (sv.Insert v).err = some .ErrServiceVehicleIdAlreadyExists ∧
      (sv.Insert v).state.rp.db = sv.rp.db ∧
      (sv.Insert v).state.rp.lastId = sv.rp.lastId) := by
  refine ⟨?_, ?_, ?_⟩
  · intro v _ hmax hfv hle
    have hv : v.ID ≠ sv.rp.lastId + 1 := by
      have := GoInt.le_iff.1 hle
      intro hc
      rw [hc, GoInt.toInt_succ _ hmax] at this
      omega
    have herr : (sv.rp.Insert v).err = none := by
      rw [VehicleSlice.Insert_err, if_neg hv]
    have hst := VehicleSlice.Insert_state sv.rp v
    rw [if_neg hv] at hst
    have hval : (sv.rp.Insert v).val = { v with ID := sv.rp.lastId + 1 } := by
      unfold VehicleSlice.Insert
      simp [if_neg hv]
    rw [Default.Insert_of_valid sv v (Default.InsertChecks_of_firstViolation v hfv)]
    simp [herr, hst, hval]
  · intro batch h0 hb hall
    have hchk : Default.InsertManyChecks batch = none :=
      (Default.InsertManyChecks_eq_none batch).2
        (fun u hu => Default.InsertChecks_of_firstViolation u (hall u hu).1)
    have hle : ∀ v ∈ batch, v.ID ≤ sv.rp.lastId := by
      intro v hv
      rw [(hall v hv).2]
      exact h0
    obtain ⟨e1, e2, e3, e4⟩ :=
      VehicleSlice.insertOneAtATime_below_counter batch sv.rp hle hb
    obtain ⟨_, _, hlen⟩ := withIdsFrom_props batch sv.rp.lastId
    unfold Default.InsertMany
    rw [hchk]
    simp only []
    unfold VehicleSlice.InsertMany
    rw [VehicleSlice.InsertManyLoop_eq]
    simp [e1, e2, e3, e4, hlen]
  · intro v hc hfv hid
    have hv : v.ID = sv.rp.lastId + 1 := by
      rw [hc, hid]
      norm_num
    have herr : (sv.rp.Insert v).err = some .ErrRepositoryVehicleIdAlreadyExists := by
      rw [VehicleSlice.Insert_err, if_pos hv]
    rw [Default.Insert_of_valid sv v (Default.InsertChecks_of_firstViolation v hfv)]
    simp [herr, errorsIs, VehicleSlice.Insert_state_of_collision sv.rp v hv]

/-- C34, the claim as stated fails when the counter is the greatest `int`:
the counter is at least 0 and a valid record with the least `int` as its id
has an id not greater than it, yet `Insert` increments the counter around to
the least `int`, finds that id on the record and refuses it with
`VehicleIdAlreadyExists`. -/
theorem Default.Insert_refused_at_MaxInt64 :
    (0 : GoInt) ≤ (NewDefault (NewVehicleSlice [] GoInt.MaxInt64)).rp.lastId ∧
    firstViolation { corolla with ID := GoInt.MinInt64 } = none ∧
    GoInt.MinInt64 ≤ (NewDefault (NewVehicleSlice [] GoInt.MaxInt64)).rp.lastId ∧
    ((NewDefault (NewVehicleSlice [] GoInt.MaxInt64)).Insert
      { corolla with ID := GoInt.MinInt64 }).err = some .ErrServiceVehicleIdAlreadyExists := by
  decide!

/-- C34, at a concrete input: a valid record with id 0 is inserted into the
empty store with counter 0 and gets id 1, a batch of two such records gets
the ids 1 and 2, and with counter -1 the record is refused. -/
theorem Default.Insert_succeeds_below_counter_witness :
    ((NewDefault (NewVehicleSlice [] 0)).Insert corolla).err = none ∧
    ((NewDefault (NewVehicleSlice [] 0)).Insert corolla).val = { corolla with ID := 0 + 1 } ∧
    ((NewDefault (NewVehicleSlice [] 0)).InsertMany [corolla, corolla]).err = none ∧
    ((NewDefault (NewVehicleSlice [] 0)).InsertMany [corolla, corolla]).val.map (fun v => v.ID)
      = [1, 2] ∧
    ((NewDefault (NewVehicleSlice [] (-1))).Insert corolla).err
      = some .ErrServiceVehicleIdAlreadyExists :=
  ⟨((Default.Insert_succeeds_below_counter (NewDefault (NewVehicleSlice [] 0))).1 corolla
      (by decide!) (by decide!) (by decide!) (by decide!)).1,
    ((Default.Insert_succeeds_below_counter (NewDefault (NewVehicleSlice [] 0))).1 corolla
      (by decide!) (by decide!) (by decide!) (by decide!)).2.1,
    ((Default.Insert_succeeds_below_counter (NewDefault (NewVehicleSlice [] 0))).2.1
      [corolla, corolla] (by decide!) (by decide!) (by decide!)).1,
    by decide!,
    ((Default.Insert_succeeds_below_counter (NewDefault (NewVehicleSlice [] (-1)))).2.2 corolla
      (by decide!) (by decide!) (by decide!)).1⟩

end VehicleCatalog

